import Mathlib

/-!
WASAPhoto: authorization and social-graph engine.

A shallow embedding of the Go sources under `service/api` and `service/database`.

* The SQLite database behind `appdbimpl` is a record of tables (`Store`); every query of
  the database layer is a function on that record, and an `INSERT` or `UPDATE` enforces the
  `PRIMARY KEY`, `UNIQUE` and `CHECK` constraints declared in `checkAndCreateTables`.
* The schema names the table of likes `likes`, and the statements of the database layer name
  a table `like`. No statement creates `like`, so every statement on it fails with
  `no such table: like`; the embedding returns that error wherever the sources run one.
* The SQL driver is chosen outside `service`; the text in which it hands a `DATETIME` column
  to a string destination is the parameter `scanTime` of the functions that scan one.
* `http.ResponseWriter` is a record holding the header map entry the handlers set
  (`Content-Type`), the status line once it is written, and the values written to the body.
  As in `net/http`, only the first `WriteHeader` reaches the client.
* int64 values are `Int`; the places where the 64-bit range matters (`strconv.ParseInt`,
  `AUTOINCREMENT`) check it explicitly.
* Infrastructure faults (a lost connection, a failed body write) are not modelled: a database
  call fails only with `sql.ErrNoRows` or a constraint violation, and `json.Encoder.Encode`
  returns `nil`.
* Go strings are `String`; the separators and patterns of the program are ASCII, so splitting
  and matching by character agree with Go's splitting and matching by byte.
* `followUser`, `unfollowUser`, `banUser` and `unbanUser` hand `handleUserAction` a database
  primitive declared over `(int64, string)` where `(int64, int64)` is expected. The embedding
  keeps both declarations and takes the conversion of the target as a parameter, `targetArg`;
  the results hold for every conversion.
-/

set_option linter.dupNamespace false

namespace WASAPhoto

/-! ## structs.go -/

structure Username where
  Username : String
deriving DecidableEq, Repr

structure Photo where
  Id : Int
  Owner : Int
  OwnerUsername : String
  CreatedAt : String
  NumberOfLikes : Int
  NumberOfComments : Int
  IsLiked : Bool
deriving DecidableEq, Repr

structure UserProfile where
  Token : Int
  Username : String
  Photos : List Photo
  NumberOfPhotos : Int
  NumberOfFollowers : Int
  NumberOfFollowing : Int
  IsFollowed : Bool
  IsOwner : Bool
  IsBanned : Bool
deriving DecidableEq, Repr

structure Token where
  Identifier : Int
deriving DecidableEq, Repr

structure Message where
  Message : String
deriving DecidableEq, Repr

structure CreatedCommentMessage where
  CommentId : Int
deriving DecidableEq, Repr

structure Comment where
  Comment : String
deriving DecidableEq, Repr

structure FullDataComment where
  Id : Int
  Content : String
  CreatedAt : String
  Owner : String
  Photo : Int
deriving DecidableEq, Repr

/-! ## Go runtime values the handlers exchange -/

/-- Go `error` values that occur in the program: `sql.ErrNoRows`, a constraint violation raised
by SQLite, the SQLite error on a statement that names a table the database does not have, the
two `strconv.NumError` kinds, and `errors.New` with a fixed text. -/
inductive GoError where
  | errNoRows
  | constraintFailed (what : String)
  | noSuchTable (name : String)
  | numSyntax (num : String)
  | numRange (num : String)
  | text (msg : String)
deriving DecidableEq, Repr

deriving instance DecidableEq for Except

/-- The digit that `strconv` takes from `lowerhex` ("0123456789abcdef") for the low four
bits of `n`. -/
def lowerhex (n : Nat) : Char :=
  if n % 16 < 10 then Char.ofNat (48 + n % 16) else Char.ofNat (87 + n % 16)

/-- Model of `strconv.IsPrint`. On the Latin-1 range Go decides without its tables: printable
are U+0020 to U+007E and U+00A1 to U+00FF without the soft hyphen U+00AD. Above U+00FF Go
consults the Unicode tables; there the rune is taken as printable. -/
def IsPrint (r : Char) : Bool :=
  if r.toNat ≤ 255 then
    (decide (32 ≤ r.toNat) && decide (r.toNat ≤ 126)) ||
      (decide (161 ≤ r.toNat) && r.toNat != 173)
  else true

/-- What `strconv.Quote` writes for one rune (`appendEscapedRune` with the double quote as
quote character): the quote and the backslash are escaped with a backslash, a printable rune
stands for itself, and the others are written as `\a`, `\b`, `\f`, `\n`, `\r`, `\t`,
`\v`, or in hexadecimal after `\x`, `\u` or `\U`. -/
def appendEscapedRune (r : Char) : List Char :=
  let n := r.toNat
  let backslash := Char.ofNat 92
  if n == 34 || n == 92 then [backslash, r]
  else if IsPrint r then [r]
  else if n == 7 then [backslash, 'a']
  else if n == 8 then [backslash, 'b']
  else if n == 12 then [backslash, 'f']
  else if n == 10 then [backslash, 'n']
  else if n == 13 then [backslash, 'r']
  else if n == 9 then [backslash, 't']
  else if n == 11 then [backslash, 'v']
  else if n < 32 || n == 127 then [backslash, 'x', lowerhex (n / 16), lowerhex n]
  else if n < 65536 then
    [backslash, 'u', lowerhex (n / 4096), lowerhex (n / 256), lowerhex (n / 16), lowerhex n]
  else
    [backslash, 'U', lowerhex (n / 268435456), lowerhex (n / 16777216),
      lowerhex (n / 1048576), lowerhex (n / 65536), lowerhex (n / 4096), lowerhex (n / 256),
      lowerhex (n / 16), lowerhex n]

/-- Model of `strconv.Quote`: the text between double quotes, rune by rune escaped. -/
def Quote (s : String) : String :=
  String.mk (Char.ofNat 34 :: (s.data.flatMap appendEscapedRune ++ [Char.ofNat 34]))

/-- Text of `err.Error()`. A `strconv.NumError` quotes the text it was given with
`strconv.Quote`. -/
def GoError.Error : GoError → String
  | .errNoRows => "sql: no rows in result set"
  | .constraintFailed what => what
  | .noSuchTable name => "no such table: " ++ name
  | .numSyntax num => "strconv.ParseInt: parsing " ++ Quote num ++ ": invalid syntax"
  | .numRange num => "strconv.ParseInt: parsing " ++ Quote num ++ ": value out of range"
  | .text msg => msg

/-- A value written to the response body: a JSON-encoded struct, the plain text of
`http.Error`, or raw bytes. -/
inductive Payload where
  | message (m : Message)
  | token (t : Token)
  | createdComment (m : CreatedCommentMessage)
  | profile (p : UserProfile)
  | users (names : List String)
  | photos (ps : List Photo)
  | comments (cs : List FullDataComment)
  | plain (text : String)
  | bytes (data : List Nat)
deriving DecidableEq, Repr

/-- The `http.ResponseWriter` of one request. `header` is the `Content-Type` entry of the
header map, `status` the status code once the header has been written, `sentType` the
`Content-Type` that went out with it, `body` the values written so far. -/
structure ResponseWriter where
  header : String
  status : Option Nat
  sentType : String
  body : List Payload
deriving DecidableEq, Repr

/-- The writer a handler receives for a new request. -/
def ResponseWriter.fresh : ResponseWriter :=
  { header := "", status := none, sentType := "", body := [] }

/-- Model of `w.Header().Set("Content-Type", v)`. -/
def ResponseWriter.setContentType (w : ResponseWriter) (v : String) : ResponseWriter :=
  { w with header := v }

/-- Model of `w.WriteHeader(code)`: the first call fixes the status line and the headers; a
later call is superfluous and changes nothing. -/
def ResponseWriter.WriteHeader (w : ResponseWriter) (code : Nat) : ResponseWriter :=
  match w.status with
  | some _ => w
  | none => { w with status := some code, sentType := w.header }

/-- Model of `w.Write`: writes the header with status 200 when none was written yet, then
appends to the body. -/
def ResponseWriter.Write (w : ResponseWriter) (p : Payload) : ResponseWriter :=
  let w1 := w.WriteHeader 200
  { w1 with body := w1.body ++ [p] }

/-- Model of `json.NewEncoder(w).Encode(v)`; the returned error is always `nil`. -/
def ResponseWriter.Encode (w : ResponseWriter) (p : Payload) : ResponseWriter :=
  w.Write p

/-- Model of `http.Error(w, text, code)`: plain text content type, the status, and the text
followed by a newline. -/
def httpError (w : ResponseWriter) (text : String) (code : Nat) : ResponseWriter :=
  ((w.setContentType "text/plain; charset=utf-8").WriteHeader code).Write
    (.plain (text ++ "\n"))

def StatusOK : Nat := 200
def StatusCreated : Nat := 201
def StatusNoContent : Nat := 204
def StatusBadRequest : Nat := 400
def StatusUnauthorized : Nat := 401
def StatusForbidden : Nat := 403
def StatusNotFound : Nat := 404
def StatusConflict : Nat := 409
def StatusInternalServerError : Nat := 500

/-- A path parameter of `httprouter.Params`. -/
structure Param where
  Key : String
  Value : String
deriving DecidableEq, Repr

abbrev Params := List Param

/-- Model of `ps.ByName(name)`: the value of the first parameter with that key, else `""`. -/
def Params.ByName (ps : Params) (name : String) : String :=
  match ps.find? (fun p => p.Key == name) with
  | some p => p.Value
  | none => ""

/-! ## utils.go -/

/-- Helper to send a JSON response with a status code. -/
def sendJSONResponse (w : ResponseWriter) (statusCode : Nat) (message : String) :
    ResponseWriter :=
  (w.WriteHeader statusCode).Encode (.message { Message := message })

/-- ReturnInternalServerError sends a 500 response when `err` is not `nil`. -/
def ReturnInternalServerError (w : ResponseWriter) (err : Option GoError) : ResponseWriter :=
  match err with
  | some e => sendJSONResponse w StatusInternalServerError ("Internal Server Error: " ++ e.Error)
  | none => w

def ReturnNotFoundError (w : ResponseWriter) : ResponseWriter :=
  ReturnInternalServerError (sendJSONResponse w StatusNotFound "Resource Not Found") none

def ReturnCreatedMessage (w : ResponseWriter) : ResponseWriter :=
  ReturnInternalServerError (sendJSONResponse w StatusCreated "Created Successfully") none

def ReturnBadRequestMessage (w : ResponseWriter) (err : Option GoError) : ResponseWriter :=
  match err with
  | some e =>
    ReturnInternalServerError (sendJSONResponse w StatusBadRequest ("Bad Request: " ++ e.Error))
      (some e)
  | none => w

def ReturnBadRequestCustomMessage (w : ResponseWriter) : ResponseWriter :=
  ReturnInternalServerError
    (sendJSONResponse w StatusBadRequest "Bad Request: The request is not valid") none

def ReturnForbiddenMessage (w : ResponseWriter) : ResponseWriter :=
  ReturnInternalServerError (sendJSONResponse w StatusForbidden "Forbidden Action") none

def ReturnConflictMessage (w : ResponseWriter) : ResponseWriter :=
  ReturnInternalServerError
    (sendJSONResponse w StatusConflict "This resource is already in the database") none

/-- Scan of `strings.Split` for a non-empty separator. `skip` counts the characters of a
separator occurrence still to pass over, `cur` is the current piece, reversed. -/
def splitGo (sep : List Char) : List Char → Nat → List Char → List (List Char)
  | [], _, cur => [cur.reverse]
  | _ :: cs, skip + 1, cur => splitGo sep cs skip cur
  | c :: cs, 0, cur =>
    if sep.isPrefixOf (c :: cs) then cur.reverse :: splitGo sep cs (sep.length - 1) []
    else splitGo sep cs 0 (c :: cur)

/-- Model of `strings.Split(s, sep)`: the pieces of `s` between the non-overlapping
occurrences of `sep`, found left to right; an empty `sep` splits after each character. -/
def Split (s sep : String) : List String :=
  if sep.data = [] then s.data.map (fun c => String.mk [c])
  else (splitGo sep.data s.data 0 []).map String.mk

/-- Value of a decimal digit. -/
def digitVal (c : Char) : Option Nat :=
  if 48 ≤ c.toNat ∧ c.toNat ≤ 57 then some (c.toNat - 48) else none

/-- The digit loop of `strconv.ParseUint(s, 10, 64)`: a character that is not a decimal digit
is a syntax error, a value above `2^64 - 1` a range error. -/
def parseUintLoop (num : String) : List Char → Nat → Except GoError Nat
  | [], n => .ok n
  | c :: cs, n =>
    match digitVal c with
    | none => .error (.numSyntax num)
    | some d =>
      if n * 10 + d ≥ 2 ^ 64 then .error (.numRange num)
      else parseUintLoop num cs (n * 10 + d)

/-- Model of `strconv.ParseInt(s, 10, 64)`. -/
def ParseInt (s : String) : Except GoError Int :=
  match s.data with
  | [] => .error (.numSyntax s)
  | c :: cs =>
    let neg := c == '-'
    let digits := if c == '+' || c == '-' then cs else c :: cs
    if digits = [] then .error (.numSyntax s)
    else
      match parseUintLoop s digits 0 with
      | .error e => .error e
      | .ok un =>
        if !neg && un ≥ 2 ^ 63 then .error (.numRange s)
        else if neg && un > 2 ^ 63 then .error (.numRange s)
        else .ok (if neg then -(un : Int) else (un : Int))

/-- ExtractToken extracts and parses a Bearer token from the `Authorization` header value
(`""` when the header is absent). Returns the pair `(token, err)` of the Go function. -/
def ExtractToken (reqToken : String) : Int × Option GoError :=
  if reqToken = "" then (-1, some (.text "no token found"))
  else
    let splitToken := Split reqToken "Bearer "
    if splitToken.length ≠ 2 then (-1, some (.text "invalid token format"))
    else
      match ParseInt (splitToken.getD 1 "") with
      | .error _ => (-1, some (.text "invalid token value"))
      | .ok token => (token, none)

/-- ExtractTokenFromPath extracts a token from the URL path parameters; on a value that does
not parse it answers 401 and returns `-1`. -/
def ExtractTokenFromPath (w : ResponseWriter) (ps : Params) (paramName : String) :
    Int × ResponseWriter :=
  match ParseInt (ps.ByName paramName) with
  | .error err =>
    (-1, ReturnInternalServerError
      (sendJSONResponse w StatusUnauthorized "Invalid token in the path") (some err))
  | .ok pathToken => (pathToken, w)

/-- An item of a bracket expression: a single character or an inclusive range. -/
inductive ClassItem where
  | single (c : Char)
  | range (lo hi : Char)
deriving DecidableEq, Repr

def ClassItem.accepts : ClassItem → Char → Bool
  | .single c, x => x == c
  | .range lo hi, x => decide (lo.toNat ≤ x.toNat) && decide (x.toNat ≤ hi.toNat)

/-- The bracket expression `[a-zA-Z0-9_-]`. -/
def usernameClass : List ClassItem :=
  [.range 'a' 'z', .range 'A' 'Z', .range '0' '9', .single '_', .single '-']

/-- Matcher for `^[cls]{min,max}$` (Go syntax, no flags: `$` matches only at the end of
the text): each character read must be in the class, at most `max` are read, and at the end
of the text at least `min` must have been read. -/
def matchRepeat (cls : List ClassItem) : Nat → Nat → List Char → Bool
  | min, _, [] => min == 0
  | _, 0, _ :: _ => false
  | min, max + 1, c :: cs => cls.any (fun i => i.accepts c) && matchRepeat cls (min - 1) max cs

/-- The call regexp.MatchString on the username pattern `^[a-zA-Z0-9_-]{3,16}$`; the pattern
compiles, so the error result is `nil`. -/
def MatchString (username : String) : Bool :=
  matchRepeat usernameClass 3 16 username.data

/-- CheckUsernameRegex checks if the username follows the pattern; otherwise it answers 400. -/
def CheckUsernameRegex (w : ResponseWriter) (username : String) : Bool × ResponseWriter :=
  let isMatch := MatchString username
  if !isMatch then
    (false, ReturnInternalServerError
      (sendJSONResponse w StatusBadRequest "Error matching Username regex") none)
  else (true, w)

/-! ## database.go: the tables of `checkAndCreateTables` -/

structure UserRow where
  token : Int
  username : String
deriving DecidableEq, Repr

structure PhotoRow where
  id : Int
  owner : Int
  img : List Nat
  created_at : String
deriving DecidableEq, Repr

structure LikeRow where
  owner : Int
  photo : Int
deriving DecidableEq, Repr

structure FollowRow where
  following : Int
  followed : Int
deriving DecidableEq, Repr

structure CommentRow where
  id : Int
  content : String
  created_at : String
  owner : Int
  photo : Int
deriving DecidableEq, Repr

structure BanRow where
  banning : Int
  banned : Int
deriving DecidableEq, Repr

/-- The database as `checkAndCreateTables` lays it out: one list of rows per table, in
insertion order, and the `sqlite_sequence` entries of the three `AUTOINCREMENT` keys. The
table of likes is created under the name `likes`. The statements of the database layer name
a table `like`, which no statement of the program creates: each of them fails with
`no such table: like`, and the field `likes` is neither read nor written. `REFERENCES`
clauses are not enforced (SQLite leaves them off unless `PRAGMA foreign_keys` is set, which
the sources do not do), so a delete does not cascade. -/
structure Store where
  user : List UserRow
  photo : List PhotoRow
  likes : List LikeRow
  follow : List FollowRow
  comment : List CommentRow
  ban : List BanRow
  userSeq : Int
  photoSeq : Int
  commentSeq : Int
deriving DecidableEq, Repr

/-- The database after `checkAndCreateTables` on a new file: every table empty. -/
def Store.empty : Store :=
  { user := [], photo := [], likes := [], follow := [], comment := [], ban := [],
    userSeq := 0, photoSeq := 0, commentSeq := 0 }

def maxInt64 : Int := 2 ^ 63 - 1

/-! ## profile.go (database) -/

/-- GetUserTokenOnly retrieves the token for a given username:
`SELECT token FROM user WHERE username=?`. -/
def GetUserTokenOnly (s : Store) (username : String) : Except GoError Int :=
  match s.user.find? (fun u => u.username == username) with
  | some u => .ok u.token
  | none => .error .errNoRows

/-- AddUser adds a new user and returns the new token, `INSERT INTO user (username)`: the
key is one more than the largest key the table ever held, and the insert fails on a name
already present (`UNIQUE`) or when the key range is used up. -/
def addUser (s : Store) (username : String) : Except GoError (Int × Store) :=
  let last := (s.user.map (fun u => u.token)).foldl max s.userSeq
  if s.user.any (fun u => u.username == username) then
    .error (.constraintFailed "UNIQUE constraint failed: user.username")
  else if last ≥ maxInt64 then .error (.constraintFailed "database or disk is full")
  else
    let token := (if last < 0 then 0 else last) + 1
    let row : UserRow := { token := token, username := username }
    .ok (token, { s with user := s.user ++ [row], userSeq := token })

/-- GetUserToken retrieves or creates a user token based on the provided username. -/
def GetUserToken (s : Store) (username : String) : Except GoError (Int × Store) :=
  match GetUserTokenOnly s username with
  | .error .errNoRows =>
    match addUser s username with
    | .error err => .error err
    | .ok (token, s1) => .ok (token, s1)
  | .error err => .error err
  | .ok token => .ok (token, s)

/-- SetUserName updates the username for a given user token,
`UPDATE user SET username=? WHERE token=?`; fails when the row exists and another row holds
the name (`UNIQUE`). -/
def SetUserName (s : Store) (token : Int) (username : String) : Except GoError Store :=
  if s.user.any (fun u => u.token == token) &&
      s.user.any (fun u => u.token != token && u.username == username) then
    .error (.constraintFailed "UNIQUE constraint failed: user.username")
  else
    let rename := fun (u : UserRow) =>
      if u.token == token then { u with username := username } else u
    .ok { s with user := s.user.map rename }

/-- ASCII lower case, the folding SQLite applies in `LIKE`. -/
def asciiLower (c : Char) : Char :=
  if 65 ≤ c.toNat ∧ c.toNat ≤ 90 then Char.ofNat (c.toNat + 32) else c

/-- Whether some suffix of the text satisfies `f`. -/
def anySuffix (f : List Char → Bool) : List Char → Bool
  | [] => f []
  | c :: cs => f (c :: cs) || anySuffix f cs

/-- The SQLite operator `text LIKE pattern` with default settings: `%` stands for any run of
characters, `_` for one character, any other character for itself up to ASCII case. -/
def likeMatch : List Char → List Char → Bool
  | [], text => text.isEmpty
  | p :: ps, text =>
    if p = '%' then anySuffix (likeMatch ps) text
    else
      match text with
      | [] => false
      | c :: cs => (p == '_' || asciiLower p == asciiLower c) && likeMatch ps cs

/-- GetUsersList retrieves the usernames that match `'%' + substring + '%'` under `LIKE`. -/
def GetUsersList (s : Store) (substring : String) : Except GoError (List String) :=
  .ok ((s.user.filter
    (fun u => likeMatch ("%" ++ substring ++ "%").data u.username.data)).map
      (fun u => u.username))

/-- CheckToken verifies if a given user token exists in the database. -/
def CheckToken (s : Store) (token : Int) : Bool :=
  (s.user.filter (fun u => u.token == token)).length == 1

/-- Get user data (token and username). -/
def getUserData (s : Store) (token : Int) : Except GoError (Int × String) :=
  match s.user.find? (fun u => u.token == token) with
  | some u => .ok (u.token, u.username)
  | none => .error .errNoRows

/-- GetNumberOfLikes returns the number of likes for a given photo:
`SELECT count(*) FROM like WHERE photo=?`. The database has no table `like`, so the query
fails, whatever the tables hold. -/
def GetNumberOfLikes (_s : Store) (_photoId : Int) : Except GoError Int :=
  .error (.noSuchTable "like")

/-- GetNumberOfComments returns the number of comments for a given photo. -/
def GetNumberOfComments (s : Store) (photoId : Int) : Except GoError Int :=
  .ok ((s.comment.filter (fun c => c.photo == photoId)).length : Int)

/-- GetNumberFollowers returns the number of followers for a user. -/
def getNumberFollowers (s : Store) (token : Int) : Except GoError Int :=
  .ok ((s.follow.filter (fun f => f.followed == token)).length : Int)

/-- GetNumberFollowing returns the number of users the given token is following. -/
def getNumberFollowing (s : Store) (token : Int) : Except GoError Int :=
  .ok ((s.follow.filter (fun f => f.following == token)).length : Int)

/-! ## photos-interactions.go (database), the lookup the profile view uses -/

/-- CheckLike (photos-interactions.go, through `checkExistence`):
`SELECT count(*) FROM like WHERE owner=? AND photo=?`. The database has no table `like`, so
`checkExistence` returns `(false, err)`, whatever the tables hold. -/
def CheckLike (_s : Store) (_token : Int) (_photoId : Int) : Except GoError Bool :=
  .error (.noSuchTable "like")

/-! ## social-actions.go (database) -/

/-- CheckFollow checks if a follow relationship exists between two users. -/
def CheckFollow (s : Store) (following : Int) (followed : Int) : Except GoError Bool :=
  .ok ((s.follow.filter
    (fun f => f.following == following && f.followed == followed)).length > 0)

/-- CheckBan checks if a ban relationship exists between two users. -/
def CheckBan (s : Store) (banning : Int) (banned : Int) : Except GoError Bool :=
  .ok ((s.ban.filter (fun b => b.banning == banning && b.banned == banned)).length > 0)

/-- AddFollow resolves the followed user by name and inserts the follow pair; the insert
fails on `CHECK (following != followed)` and on a pair already present (`PRIMARY KEY`). -/
def AddFollow (s : Store) (following : Int) (followUsername : String) : Except GoError Store :=
  match s.user.find? (fun u => u.username == followUsername) with
  | none => .error .errNoRows
  | some u =>
    let followed := u.token
    if following == followed then
      .error (.constraintFailed "CHECK constraint failed: following != followed")
    else if s.follow.any (fun f => f.following == following && f.followed == followed) then
      .error (.constraintFailed "UNIQUE constraint failed: follow.following, follow.followed")
    else .ok { s with follow := s.follow ++ [{ following := following, followed := followed }] }

/-- RemoveFollow resolves the unfollowed user by name and deletes the follow pair. -/
def RemoveFollow (s : Store) (following : Int) (unfollowUsername : String) :
    Except GoError Store :=
  match s.user.find? (fun u => u.username == unfollowUsername) with
  | none => .error .errNoRows
  | some u =>
    let followed := u.token
    let keep := fun (f : FollowRow) => !(f.following == following && f.followed == followed)
    .ok { s with follow := s.follow.filter keep }

/-- AddBan resolves the banned user by name and inserts the ban pair; the insert fails on
`CHECK (banning != banned)` and on a pair already present (`PRIMARY KEY`). -/
def AddBan (s : Store) (banning : Int) (banUsername : String) : Except GoError Store :=
  match s.user.find? (fun u => u.username == banUsername) with
  | none => .error .errNoRows
  | some u =>
    let banned := u.token
    if banning == banned then
      .error (.constraintFailed "CHECK constraint failed: banning != banned")
    else if s.ban.any (fun b => b.banning == banning && b.banned == banned) then
      .error (.constraintFailed "UNIQUE constraint failed: ban.banning, ban.banned")
    else .ok { s with ban := s.ban ++ [{ banning := banning, banned := banned }] }

/-- RemoveBan resolves the banned user by name and deletes the ban pair. -/
def RemoveBan (s : Store) (banning : Int) (banUsername : String) : Except GoError Store :=
  match s.user.find? (fun u => u.username == banUsername) with
  | none => .error .errNoRows
  | some u =>
    let banned := u.token
    let keep := fun (b : BanRow) => !(b.banning == banning && b.banned == banned)
    .ok { s with ban := s.ban.filter keep }

/-! ## profile.go (database), the profile view -/

/-- The result set of the query of `getListOfPhotos`:
`SELECT ... FROM photo JOIN user u ON u.token = photo.owner WHERE owner=?`. -/
def photosQuery (s : Store) (userToken : Int) : List (PhotoRow × UserRow) :=
  (s.photo.filter (fun p => p.owner == userToken)).flatMap
    (fun p => (s.user.filter (fun u => u.token == p.owner)).map (fun u => (p, u)))

/-- GetListOfPhotos retrieves the photos of a user (`photo JOIN user ... WHERE owner=?`),
with likes, comments, and whether the requesting user liked them. Each row is scanned and
then completed by three lookups; the first lookup that fails ends the loop with its error.
`scanTime` is the text in which the SQL driver hands the `DATETIME` column `created_at` to
`rows.Scan` for a string destination (the driver is chosen outside `service`). -/
def getListOfPhotos (scanTime : String → String) (s : Store) (userToken : Int)
    (requestUser : Int) : Except GoError (List Photo) :=
  (photosQuery s userToken).mapM (fun row => do
    let likes ← GetNumberOfLikes s row.1.id
    let comments ← GetNumberOfComments s row.1.id
    let isLiked ← CheckLike s requestUser row.1.id
    pure { Id := row.1.id, Owner := row.1.owner, OwnerUsername := row.2.username,
           CreatedAt := scanTime row.1.created_at, NumberOfLikes := likes,
           NumberOfComments := comments, IsLiked := isLiked })

/-- GetUserProfile retrieves the user profile along with photos, followers, and following
info. -/
def GetUserProfile (scanTime : String → String) (s : Store) (username : String)
    (requestUser : Int) : Except GoError UserProfile := do
  let token ← GetUserTokenOnly s username
  let data ← getUserData s token
  let photos ← getListOfPhotos scanTime s data.1 requestUser
  let followers ← getNumberFollowers s data.1
  let following ← getNumberFollowing s data.1
  if requestUser == data.1 then
    pure { Token := data.1, Username := data.2, Photos := photos,
           NumberOfPhotos := (photos.length : Int), NumberOfFollowers := followers,
           NumberOfFollowing := following, IsFollowed := false, IsOwner := true,
           IsBanned := false }
  else
    let isFollowed ← CheckFollow s requestUser data.1
    let isBanned ← CheckBan s requestUser data.1
    pure { Token := data.1, Username := data.2, Photos := photos,
           NumberOfPhotos := (photos.length : Int), NumberOfFollowers := followers,
           NumberOfFollowing := following, IsFollowed := isFollowed, IsOwner := false,
           IsBanned := isBanned }

/-- CheckUsernameExistence counts the rows of `user` with this username. -/
def CheckUsernameExistence (s : Store) (username : String) : Except GoError Int :=
  .ok ((s.user.filter (fun u => u.username == username)).length : Int)

/-! ## api-context-wrapper.go -/

/-- What a handler reads of the `http.Request`: the `Authorization` header (`""` when
absent), the body bytes, and the outcome of decoding the body as JSON into a `Username` or a
`Comment`. -/
structure Request where
  Authorization : String
  Body : List Nat
  decodeUsername : Except GoError Username
  decodeComment : Except GoError Comment

/-- The type `httpRouterHandler`, with the database passed in and handed back. -/
abbrev Handler := Store → ResponseWriter → Request → Params → Int → ResponseWriter × Store

/-- The middleware `authWrapper(fn)`. The result is `none` when the copy of the parameter
names into the three-slot array `pathParameters` indexes out of range (the goroutine
panics). -/
def authWrapper (fn : Handler) (s : Store) (w : ResponseWriter) (r : Request) (ps : Params) :
    Option (ResponseWriter × Store) :=
  let w := w.setContentType "application/json"
  let extracted := ExtractToken r.Authorization
  let token := extracted.1
  if extracted.2.isSome || token == -1 then
    let w := w.WriteHeader StatusUnauthorized
    let w := w.Encode (.message { Message := "No Token in the Header" })
    some (ReturnInternalServerError w none, s)
  else if !CheckToken s token then
    let w := w.WriteHeader StatusNotFound
    let w := w.Encode (.message { Message := "Not Active Token" })
    some (ReturnInternalServerError w none, s)
  else if ps.length > 3 then none
  else
    let pathParameters := fun (i : Nat) => ((ps.get? i).map (fun p => p.Key)).getD ""
    let fromPath : Int × ResponseWriter :=
      if pathParameters 0 == "userId" then
        if pathParameters 2 != "authenticatedUserId" then
          ExtractTokenFromPath w ps "userId"
        else if pathParameters 2 == "authenticatedUserId" then
          ExtractTokenFromPath w ps "authenticatedUserId"
        else (token, w)
      else (token, w)
    let pathToken := fromPath.1
    let w := fromPath.2
    if pathToken != token then
      let w := w.WriteHeader StatusForbidden
      let w := w.Encode
        (.message { Message := "The path tokens and the auth token aren't equal" })
      some (ReturnInternalServerError w none, s)
    else some (fn s w r ps pathToken)

/-! ## social-actions.go (api) -/

/-- The decision procedure shared by follow, unfollow, ban and unban. `action` is the
mutation primitive, applied to the caller and the resolved target. -/
def handleUserAction (s : Store) (w : ResponseWriter) (_r : Request) (p : Params) (token : Int)
    (action : Store → Int → Int → Except GoError Store) (reverseAction : Bool)
    (_errMsg : String) : ResponseWriter × Store :=
  let w := w.setContentType "application/json"
  let username := p.ByName "username"
  let checked := CheckUsernameRegex w username
  if !checked.1 then (ReturnBadRequestMessage checked.2 none, s)
  else
    let w := checked.2
    match GetUserTokenOnly s username with
    | .error _ => (ReturnNotFoundError w, s)
    | .ok token2 =>
      if token == token2 then (ReturnForbiddenMessage w, s)
      else
        match CheckBan s token2 token with
        | .error _ => (ReturnForbiddenMessage w, s)
        | .ok ban =>
          if ban then (ReturnForbiddenMessage w, s)
          else
            match CheckFollow s token token2 with
            | .error err => (ReturnInternalServerError w (some err), s)
            | .ok check =>
              if check == reverseAction then
                if reverseAction then (ReturnForbiddenMessage w, s)
                else (ReturnConflictMessage w, s)
              else
                match action s token token2 with
                | .error err => (ReturnInternalServerError w (some err), s)
                | .ok s1 =>
                  if reverseAction then (w.WriteHeader StatusNoContent, s1)
                  else (ReturnCreatedMessage w, s1)

/-! The four handlers pass the method values `rt.db.AddFollow`, `rt.db.RemoveFollow`,
`rt.db.AddBan` and `rt.db.RemoveBan`, declared over `(int64, string)`, as the `action` of
`handleUserAction`, declared over `(int64, int64)`. The sources fix no conversion of the
int64 target into the string the primitive looks up in `user.username`, so the handlers take
it as the parameter `targetArg`; every result below holds for every such conversion. -/

def followUser (targetArg : Int → String) : Handler := fun s w r p token =>
  handleUserAction s w r p token (fun st a b => AddFollow st a (targetArg b)) false
    "Already following"

def unfollowUser (targetArg : Int → String) : Handler := fun s w r p token =>
  handleUserAction s w r p token (fun st a b => RemoveFollow st a (targetArg b)) true
    "Not following"

def banUser (targetArg : Int → String) : Handler := fun s w r p token =>
  handleUserAction s w r p token (fun st a b => AddBan st a (targetArg b)) false
    "Already banned"

def unbanUser (targetArg : Int → String) : Handler := fun s w r p token =>
  handleUserAction s w r p token (fun st a b => RemoveBan st a (targetArg b)) true
    "Not banned"

/-! ## profile.go (api) -/

/-- Helper function to handle JSON response encoding and error handling. -/
def respondWithJSON (w : ResponseWriter) (statusCode : Nat) (data : Payload) : ResponseWriter :=
  ReturnInternalServerError
    (((w.setContentType "application/json").WriteHeader statusCode).Encode data) none

/-- Helper function for common error handling paths (the `handleError` of profile.go). -/
def Profile.handleError (w : ResponseWriter) (err : Option GoError) (message : String)
    (statusCode : Nat) : Bool × ResponseWriter :=
  match err with
  | some e =>
    if message == "" then (true, ReturnInternalServerError w (some e))
    else (true, httpError w message statusCode)
  | none => (false, w)

/-- The `err` of a Go result pair. -/
def errOf {α : Type} : Except GoError α → Option GoError
  | .error e => some e
  | .ok _ => none

/-- Login handler. -/
def doLogin (s : Store) (w : ResponseWriter) (r : Request) (_ps : Params) :
    ResponseWriter × Store :=
  let decoded := Profile.handleError w (errOf r.decodeUsername) "Invalid input" StatusBadRequest
  match r.decodeUsername with
  | .error _ => (decoded.2, s)
  | .ok username =>
    let checked := CheckUsernameRegex decoded.2 username.Username
    if !checked.1 then (ReturnBadRequestMessage checked.2 none, s)
    else
      match GetUserToken s username.Username with
      | .error err =>
        ((Profile.handleError checked.2 (some err) "" StatusInternalServerError).2, s)
      | .ok (token, s1) =>
        (respondWithJSON checked.2 StatusCreated (.token { Identifier := token }), s1)

/-- Set the current user's username. -/
def setMyUserName : Handler := fun s w r _ps pathToken =>
  let decoded := Profile.handleError w (errOf r.decodeUsername) "Invalid input" StatusBadRequest
  match r.decodeUsername with
  | .error _ => (decoded.2, s)
  | .ok username =>
    let checked := CheckUsernameRegex decoded.2 username.Username
    if !checked.1 then (ReturnBadRequestMessage checked.2 none, s)
    else
      let existence := CheckUsernameExistence s username.Username
      let handled := Profile.handleError checked.2 (errOf existence) ""
        StatusInternalServerError
      match existence with
      | .error _ => (ReturnConflictMessage handled.2, s)
      | .ok count =>
        if count != 0 then (ReturnConflictMessage handled.2, s)
        else
          match SetUserName s pathToken username.Username with
          | .error err =>
            ((Profile.handleError handled.2 (some err) "" StatusInternalServerError).2, s)
          | .ok s1 =>
            (respondWithJSON handled.2 StatusOK (.message { Message := "Username updated" }), s1)

/-- Get user profile by username. -/
def getUserProfile (scanTime : String → String) : Handler := fun s w _r p token =>
  let username := p.ByName "username"
  let checked := CheckUsernameRegex w username
  if !checked.1 then (ReturnBadRequestMessage checked.2 none, s)
  else
    let w := checked.2
    match GetUserTokenOnly s username with
    | .error err => ((Profile.handleError w (some err) "" StatusNotFound).2, s)
    | .ok profileToken =>
      let ban := CheckBan s profileToken token
      let handled := Profile.handleError w (errOf ban) "" StatusForbidden
      match ban with
      | .error _ => (ReturnForbiddenMessage handled.2, s)
      | .ok banned =>
        if banned then (ReturnForbiddenMessage handled.2, s)
        else
          match GetUserProfile scanTime s username token with
          | .error err =>
            ((Profile.handleError handled.2 (some err) "" StatusInternalServerError).2, s)
          | .ok profile => (respondWithJSON handled.2 StatusOK (.profile profile), s)

/-- Search for users by partial username. -/
def searchUser : Handler := fun s w _r p _token =>
  let username := p.ByName "username"
  let checked := CheckUsernameRegex w username
  if !checked.1 then (ReturnBadRequestMessage checked.2 none, s)
  else
    match GetUsersList s username with
    | .error err =>
      ((Profile.handleError checked.2 (some err) "" StatusInternalServerError).2, s)
    | .ok users => (respondWithJSON checked.2 StatusOK (.users users), s)

/-! ## photos-interactions.go (database) -/

/-- PostPhoto, `INSERT INTO photo (owner, img) VALUES (?, ?)`: the key is one more than the
largest key the table ever held, and `created_at` is the `CURRENT_TIMESTAMP` of the
database, passed in as `now`; the insert fails when the key range is used up. -/
def PostPhoto (now : String) (s : Store) (image : List Nat) (token : Int) :
    Except GoError Store :=
  let last := (s.photo.map (fun p => p.id)).foldl max s.photoSeq
  if last ≥ maxInt64 then .error (.constraintFailed "database or disk is full")
  else
    let id := (if last < 0 then 0 else last) + 1
    let row : PhotoRow := { id := id, owner := token, img := image, created_at := now }
    .ok { s with photo := s.photo ++ [row], photoSeq := id }

/-- DeletePhoto, `DELETE FROM photo WHERE owner=? AND id=?`. -/
def DeletePhoto (s : Store) (token : Int) (photoId : Int) : Except GoError Store :=
  let keep := fun (p : PhotoRow) => !(p.owner == token && p.id == photoId)
  .ok { s with photo := s.photo.filter keep }

/-- GetImage, `SELECT img FROM photo WHERE id=?`: the pair `(image, err)`. -/
def GetImage (s : Store) (photoId : Int) : List Nat × Option GoError :=
  match s.photo.find? (fun p => p.id == photoId) with
  | some p => (p.img, none)
  | none => ([], some .errNoRows)

/-- GetPhotoOwner, `SELECT owner FROM photo WHERE id=?`: the pair `(owner, err)`; without a
row the owner is the zero value and the error is `sql.ErrNoRows`. -/
def GetPhotoOwner (s : Store) (photoId : Int) : Int × Option GoError :=
  match s.photo.find? (fun p => p.id == photoId) with
  | some p => (p.owner, none)
  | none => (0, some .errNoRows)

/-- CheckPhotoOwner, through `checkExistence`: whether exactly one row of `photo` has this
id and owner. -/
def CheckPhotoOwner (s : Store) (token : Int) (photoId : Int) : Except GoError Bool :=
  .ok ((s.photo.filter (fun p => p.id == photoId && p.owner == token)).length == 1)

/-- LikePhoto, `INSERT INTO like (owner, photo) VALUES (?, ?)`. The database has no table
`like`, so the statement fails and nothing is stored. -/
def LikePhoto (_s : Store) (_token : Int) (_photoId : Int) : Except GoError Store :=
  .error (.noSuchTable "like")

/-- UnlikePhoto, `DELETE FROM like WHERE owner=? AND photo=?`. The database has no table
`like`, so the statement fails and nothing is deleted. -/
def UnlikePhoto (_s : Store) (_token : Int) (_photoId : Int) : Except GoError Store :=
  .error (.noSuchTable "like")

/-- GetCommentOwner, `SELECT owner FROM comment WHERE id=?`: the pair `(owner, err)`; without
a row the owner is the zero value and the error is `sql.ErrNoRows`. -/
def GetCommentOwner (s : Store) (commentId : Int) : Int × Option GoError :=
  match s.comment.find? (fun c => c.id == commentId) with
  | some c => (c.owner, none)
  | none => (0, some .errNoRows)

/-- DeleteComment, `DELETE FROM comment WHERE id=?`. -/
def DeleteComment (s : Store) (commentId : Int) : Except GoError Store :=
  let keep := fun (c : CommentRow) => !(c.id == commentId)
  .ok { s with comment := s.comment.filter keep }

/-- CheckPhotoExistence, through `checkExistence`: whether exactly one row of `photo` has
this id. -/
def CheckPhotoExistence (s : Store) (photoId : Int) : Except GoError Bool :=
  .ok ((s.photo.filter (fun p => p.id == photoId)).length == 1)

/-- The order of `ORDER BY created_at DESC` on the rows of `photo JOIN user`: a row comes
before every row whose `created_at` text is no greater than its own. The column holds the
text of `CURRENT_TIMESTAMP`, which SQLite compares character by character. -/
def newerFirst (a b : PhotoRow × UserRow) : Prop :=
  b.1.created_at.data ≤ a.1.created_at.data

instance newerFirstDecidable : DecidableRel newerFirst :=
  fun a b => inferInstanceAs (Decidable (b.1.created_at.data ≤ a.1.created_at.data))

/-- The `WHERE` clause of the stream query for caller `token`: the owner is not among the
users who banned the caller, is not the caller, and is among the users the caller follows. -/
def streamWhere (s : Store) (token : Int) (row : PhotoRow × UserRow) : Bool :=
  !(s.ban.any (fun b => b.banned == token && b.banning == row.1.owner)) &&
    row.1.owner != token &&
    s.follow.any (fun f => f.following == token && f.followed == row.1.owner)

/-- The result set of the stream query for caller `token`: the rows of
`photo JOIN user u ON u.token = photo.owner` that pass the `WHERE` clause, ordered by
`created_at` descending. -/
def streamQuery (s : Store) (token : Int) : List (PhotoRow × UserRow) :=
  let joined := s.photo.flatMap
    (fun p => (s.user.filter (fun u => u.token == p.owner)).map (fun u => (p, u)))
  (joined.filter (streamWhere s token)).insertionSort newerFirst

/-- GetMyStream: the rows of `photo JOIN user u ON u.token = photo.owner` that pass the
`WHERE` clause, ordered by `created_at` descending, each scanned and then completed by its
number of likes, its number of comments and whether the caller liked it; the first lookup
that fails ends the loop with its error. `scanTime` is the text in which the SQL driver
hands the column `created_at` to `rows.Scan`, as in `getListOfPhotos`. -/
def GetMyStream (scanTime : String → String) (s : Store) (token : Int) :
    Except GoError (List Photo) :=
  (streamQuery s token).mapM (fun row => do
    let likes ← GetNumberOfLikes s row.1.id
    let comments ← GetNumberOfComments s row.1.id
    let isLiked ← CheckLike s token row.1.id
    pure { Id := row.1.id, Owner := row.1.owner, OwnerUsername := row.2.username,
           CreatedAt := scanTime row.1.created_at, NumberOfLikes := likes,
           NumberOfComments := comments, IsLiked := isLiked })

/-! ## photos-interactions.go (api) -/

/-- Modelled from the spec: `ReturnCustomMessage`, which `handleError` of
photos-interactions.go calls and the sources do not define. By the transport contract a
failure is rendered as a status code and a JSON object with a `message`, so it answers
`status` with the message. -/
def ReturnCustomMessage (w : ResponseWriter) (message : String) (status : Nat) :
    ResponseWriter :=
  ReturnInternalServerError (sendJSONResponse w status message) none

/-- Utility to handle error response in a compact way (the `handleError` of
photos-interactions.go). -/
def Photos.handleError (w : ResponseWriter) (err : Option GoError) (defaultStatus : Nat)
    (customMessage : String) : Bool × ResponseWriter :=
  match err with
  | some e =>
    if customMessage != "" then (true, ReturnCustomMessage w customMessage defaultStatus)
    else (true, ReturnInternalServerError w (some e))
  | none => (false, w)

/-- The condition a handler of photos-interactions.go reads from a database check declared
to return `(bool, error)`: the call stands where a boolean is expected, so the boolean is
what counts; a check that fails returns `false`. -/
def boolOf : Except GoError Bool → Bool
  | .ok b => b
  | .error _ => false

/-- The handler uploadPhoto; `now` is the clock of the database at the insert. -/
def uploadPhoto (now : String) : Handler := fun s w r _ps token =>
  let w := w.setContentType "application/json"
  let photo := r.Body
  let read := Photos.handleError w none StatusBadRequest "Invalid photo data"
  if read.1 || photo.length == 0 then (read.2, s)
  else
    match PostPhoto now s photo token with
    | .error err =>
      ((Photos.handleError read.2 (some err) StatusInternalServerError "").2, s)
    | .ok s1 => (ReturnCreatedMessage read.2, s1)

/-- The handler deletePhoto. -/
def deletePhoto : Handler := fun s w _r p token =>
  let w := w.setContentType "application/json"
  match ParseInt (p.ByName "photoId") with
  | .error err => ((Photos.handleError w (some err) StatusBadRequest "Invalid photo ID").2, s)
  | .ok photoId =>
    if !boolOf (CheckPhotoExistence s photoId) then (ReturnNotFoundError w, s)
    else if !boolOf (CheckPhotoOwner s token photoId) then (ReturnForbiddenMessage w, s)
    else
      match DeletePhoto s token photoId with
      | .error err => ((Photos.handleError w (some err) StatusInternalServerError "").2, s)
      | .ok s1 => (w.WriteHeader StatusNoContent, s1)

/-- The handler getPhoto. -/
def getPhoto : Handler := fun s w _r p token =>
  let w := w.setContentType "application/json"
  match ParseInt (p.ByName "photoId") with
  | .error err => ((Photos.handleError w (some err) StatusBadRequest "Invalid photo ID").2, s)
  | .ok photoId =>
    let owned := GetPhotoOwner s photoId
    let handled := Photos.handleError w owned.2 StatusInternalServerError ""
    if handled.1 then (handled.2, s)
    else if !boolOf (CheckPhotoExistence s photoId) then (ReturnNotFoundError handled.2, s)
    else if boolOf (CheckBan s owned.1 token) then (ReturnForbiddenMessage handled.2, s)
    else
      let image := GetImage s photoId
      let got := Photos.handleError handled.2 image.2 StatusInternalServerError ""
      if got.1 then (got.2, s)
      else ((got.2.setContentType "image/png").Write (.bytes image.1), s)

/-- The handler likePhoto. -/
def likePhoto : Handler := fun s w _r p token =>
  let w := w.setContentType "application/json"
  match ParseInt (p.ByName "photoId") with
  | .error err => ((Photos.handleError w (some err) StatusBadRequest "Invalid photo ID").2, s)
  | .ok photoId =>
    match ParseInt (p.ByName "userId") with
    | .error err => ((Photos.handleError w (some err) StatusBadRequest "Invalid user ID").2, s)
    | .ok pathOwner =>
      if !boolOf (CheckPhotoExistence s photoId) then (ReturnNotFoundError w, s)
      else if (GetPhotoOwner s photoId).1 != pathOwner then
        (ReturnBadRequestCustomMessage w, s)
      else if boolOf (CheckBan s pathOwner token) then (ReturnForbiddenMessage w, s)
      else if boolOf (CheckLike s token photoId) then (ReturnConflictMessage w, s)
      else
        match LikePhoto s token photoId with
        | .error err => ((Photos.handleError w (some err) StatusInternalServerError "").2, s)
        | .ok s1 => (ReturnCreatedMessage w, s1)

/-- The handler unlikePhoto. -/
def unlikePhoto : Handler := fun s w _r p token =>
  let w := w.setContentType "application/json"
  match ParseInt (p.ByName "photoId") with
  | .error err => ((Photos.handleError w (some err) StatusBadRequest "Invalid photo ID").2, s)
  | .ok photoId =>
    match ParseInt (p.ByName "userId") with
    | .error err => ((Photos.handleError w (some err) StatusBadRequest "Invalid user ID").2, s)
    | .ok pathOwner =>
      if !boolOf (CheckPhotoExistence s photoId) then (ReturnNotFoundError w, s)
      else if (GetPhotoOwner s photoId).1 != pathOwner then
        (ReturnBadRequestCustomMessage w, s)
      else if boolOf (CheckBan s pathOwner token) then (ReturnForbiddenMessage w, s)
      else if !boolOf (CheckLike s token photoId) then (ReturnConflictMessage w, s)
      else
        match UnlikePhoto s token photoId with
        | .error err => ((Photos.handleError w (some err) StatusInternalServerError "").2, s)
        | .ok s1 => (w.WriteHeader StatusNoContent, s1)

/-- The handler deleteComment. -/
def deleteComment : Handler := fun s w _r p token =>
  let w := w.setContentType "application/json"
  match ParseInt (p.ByName "commentId") with
  | .error err =>
    ((Photos.handleError w (some err) StatusBadRequest "Invalid comment ID").2, s)
  | .ok commentId =>
    if (GetCommentOwner s commentId).1 != token then (ReturnForbiddenMessage w, s)
    else
      match DeleteComment s commentId with
      | .error err => ((Photos.handleError w (some err) StatusInternalServerError "").2, s)
      | .ok s1 => (w.WriteHeader StatusNoContent, s1)

/-- The handler getMyStream. -/
def getMyStream (scanTime : String → String) : Handler := fun s w _r _ps token =>
  let w := w.setContentType "application/json"
  match GetMyStream scanTime s token with
  | .error err => ((Photos.handleError w (some err) StatusInternalServerError "").2, s)
  | .ok photos => (w.Encode (.photos photos), s)

/-! ## api-context-wrapper.go: the array `pathParameters` -/

/-- The assignment `pathParameters[i] = v` on the array of type `[3]string`; `none` is the
run-time panic "index out of range". -/
def setPathParameter (a : List String) (i : Nat) (v : String) : Option (List String) :=
  if i < 3 then some (a.set i v) else none

/-- The loop `for i, param := range ps { pathParameters[i] = param.Key }`, entered at index
`i` with the array `a`. -/
def copyKeys : Params → Nat → List String → Option (List String)
  | [], _, a => some a
  | param :: rest, i, a =>
    match setPathParameter a i param.Key with
    | none => none
    | some a1 => copyKeys rest (i + 1) a1

/-- Lines 41 to 44 of `authWrapper`: the array starts as `{"", "", ""}` and receives the
names of the path parameters in order. -/
def pathParameters (ps : Params) : Option (List String) :=
  copyKeys ps 0 ["", "", ""]

/-! ## api-handler.go -/

/-- How a route hands its handler to the router: directly (`doLogin`), through `authWrapper`,
or through `authWrapperNoPath`. -/
inductive Wrapper where
  | direct
  | authWrapper
  | authWrapperNoPath
deriving DecidableEq, Repr

/-- One registration `rt.router.METHOD(path, wrapper(rt.handler))`. -/
structure Route where
  method : String
  path : String
  wrapper : Wrapper
  handler : String
deriving DecidableEq, Repr

/-- The registrations made by the method `Handler` of the router, in source order. -/
def Router.Handler : List Route :=
  [ -- PROFILE
    { method := "POST", path := "/session", wrapper := .direct, handler := "doLogin" },
    { method := "PUT", path := "/user/:userId/update-username", wrapper := .authWrapper,
      handler := "setMyUserName" },
    { method := "GET", path := "/user/:userId/profile-page/:username",
      wrapper := .authWrapper, handler := "getUserProfile" },
    { method := "GET", path := "/user/:userId/search/:username", wrapper := .authWrapper,
      handler := "searchUser" },
    -- SOCIAL ACTIONS
    { method := "PUT", path := "/user/:userId/follow/:username", wrapper := .authWrapper,
      handler := "followUser" },
    { method := "DELETE", path := "/user/:userId/follow/:username", wrapper := .authWrapper,
      handler := "unfollowUser" },
    { method := "PUT", path := "/user/:userId/ban/:username", wrapper := .authWrapper,
      handler := "banUser" },
    { method := "DELETE", path := "/user/:userId/ban/:username", wrapper := .authWrapper,
      handler := "unbanUser" },
    -- PHOTOS INTERACTIONS
    { method := "GET", path := "/user/:userId/photos/", wrapper := .authWrapper,
      handler := "getMyStream" },
    { method := "POST", path := "/user/:userId/photos/", wrapper := .authWrapper,
      handler := "uploadPhoto" },
    { method := "GET", path := "/user/:userId/photos/:photoId/", wrapper := .authWrapper,
      handler := "getPhoto" },
    { method := "DELETE", path := "/user/:userId/photos/:photoId/", wrapper := .authWrapper,
      handler := "deletePhoto" },
    { method := "PUT", path := "/user/:userId/photos/:photoId/likes/:authenticatedUserId",
      wrapper := .authWrapper, handler := "likePhoto" },
    { method := "DELETE", path := "/user/:userId/photos/:photoId/likes/:authenticatedUserId",
      wrapper := .authWrapper, handler := "unlikePhoto" },
    -- COMMENTS
    { method := "GET", path := "/user/:userId/photos/:photoId/comments/",
      wrapper := .authWrapperNoPath, handler := "getPhotoComments" },
    { method := "POST", path := "/user/:userId/photos/:photoId/comments/",
      wrapper := .authWrapperNoPath, handler := "commentPhoto" },
    { method := "DELETE", path := "/user/:userId/photos/:photoId/comments/:commentId",
      wrapper := .authWrapperNoPath, handler := "deleteComment" } ]

/-! ## httprouter: the parameters of a matched route -/

/-- Whether a segment of a registered pattern is a named parameter (`:name`). The patterns
of `Handler` have no catch-all segment (`*name`). -/
def isParamSegment (seg : String) : Bool :=
  seg.data.head? == some ':'

/-- The name a parameter segment declares: the text after the colon. -/
def paramName (seg : String) : String :=
  String.mk (seg.data.drop 1)

/-- The names of the path parameters of a registered pattern, in order. -/
def paramNames (pattern : String) : List String :=
  ((Split pattern "/").filter isParamSegment).map paramName

/-- Segment-wise match of a request path against a pattern, as httprouter does it: a static
segment matches itself, a named parameter matches the text up to the next `/` and binds one
`Param` whose key is the declared name. -/
def matchSegments : List String → List String → Option Params
  | [], [] => some []
  | seg :: segs, x :: xs =>
    if isParamSegment seg then
      match matchSegments segs xs with
      | some rest => some ({ Key := paramName seg, Value := x } :: rest)
      | none => none
    else if seg = x then matchSegments segs xs
    else none
  | _, _ => none

/-- The `httprouter.Params` a handler receives when the request path matches the pattern it
was registered under; `none` when the path does not match. The router is taken in its default
configuration, where the parameters bound are those of the pattern and no other. -/
def matchRoute (pattern path : String) : Option Params :=
  matchSegments (Split pattern "/") (Split path "/")

/-! ## Definitions used to state the contracts -/

/-- The number a string of decimal digits denotes. -/
def decimalValue (digits : List Char) : Nat :=
  digits.foldl (fun n c => n * 10 + (c.toNat - 48)) 0

/-- The words of the contract, "a valid base-10 64-bit integer": an optional sign, then at
least one character, all decimal digits, denoting a value `v` with `-2^63 ≤ v < 2^63`. -/
def IsInt64Literal (s : String) (v : Int) : Prop :=
  ∃ sign digits : List Char, s.data = sign ++ digits ∧
    (sign = [] ∨ sign = ['+'] ∨ sign = ['-']) ∧ digits ≠ [] ∧
    (∀ c ∈ digits, c.isDigit = true) ∧
    v = (if sign = ['-'] then -(decimalValue digits : Int) else (decimalValue digits : Int)) ∧
    -(2 ^ 63 : Int) ≤ v ∧ v < 2 ^ 63



/-- A handler run that answers `code` without reading or writing the database: on every
database the response is the same, its status is `code`, and the database is handed back as
it was. -/
def AnswersWithoutStore (run : Store → ResponseWriter × Store) (code : Nat) : Prop :=
  ∀ s, (run s).2 = s ∧ (run s).1.status = some code ∧ ∀ s2, (run s2).1 = (run s).1

/-! ## Example data for the witnesses -/

/-- A request with the given `Authorization` header whose body decodes to the given name. -/
def exampleRequest (authorization : String) (name : String) : Request :=
  { Authorization := authorization, Body := [], decodeUsername := .ok { Username := name },
    decodeComment := .error (.text "EOF") }

/-- Two registered users, `alice` (1) and `bob_1` (2), and nothing else. -/
def twoUsers : Store :=
  { Store.empty with
    user := [{ token := 1, username := "alice" }, { token := 2, username := "bob_1" }],
    userSeq := 2 }

/-- The path parameters of `/user/:userId/follow/:username` and of the ban route. -/
def socialParams (userId username : String) : Params :=
  [{ Key := "userId", Value := userId }, { Key := "username", Value := username }]

/-- The raw path value the guard reconciles with the credential, if any: on a route whose
first parameter is `userId`, the value of `authenticatedUserId` when that is the key of the
third parameter, and the value of `userId` otherwise. -/
def pathIdentity (ps : Params) : Option String :=
  if (ps.get? 0).map (fun p => p.Key) = some "userId" then
    if (ps.get? 2).map (fun p => p.Key) = some "authenticatedUserId" then
      some (ps.ByName "authenticatedUserId")
    else some (ps.ByName "userId")
  else none

/-- The guard hands the request to the wrapped handler with identity `token`: whatever the
handler, the outcome of the wrapper is the outcome of that handler on `token`. -/
def GuardPasses (s : Store) (w : ResponseWriter) (r : Request) (ps : Params) (token : Int) :
    Prop :=
  ∀ fn : Handler,
    authWrapper fn s w r ps = some (fn s (w.setContentType "application/json") r ps token)

/-- The guard answers the request itself with status `code`: whatever the handler, the
outcome of the wrapper is one and the same response, and the database is untouched; the
handler is not invoked. -/
def GuardRejects (s : Store) (w : ResponseWriter) (r : Request) (ps : Params) (code : Nat) :
    Prop :=
  ∃ w2 : ResponseWriter, w2.status = some code ∧
    ∀ fn : Handler, authWrapper fn s w r ps = some (w2, s)

/-- User 1 follows user 2. -/
def aliceFollowsBob : Store :=
  { twoUsers with follow := [{ following := 1, followed := 2 }] }

/-- User 2 has banned user 1. -/
def bobBannedAlice : Store :=
  { twoUsers with ban := [{ banning := 2, banned := 1 }] }

/-- User 1 follows user 2 and has banned user 2. -/
def aliceFollowsAndBannedBob : Store :=
  { twoUsers with follow := [{ following := 1, followed := 2 }],
                  ban := [{ banning := 1, banned := 2 }] }

/-- The conversion that hands a primitive the name `bob_1` for every target. -/
def toBob : Int → String := fun _ => "bob_1"

/-- The four requests of the relationship policy. -/
inductive SocialAction where
  | follow
  | unfollow
  | ban
  | unban
deriving DecidableEq, Repr

/-- A request that reached one of the four handlers: the handler, the verified identity of
the caller, and what the handler receives from the transport. -/
structure SocialRequest where
  action : SocialAction
  token : Int
  w : ResponseWriter
  r : Request
  p : Params

/-- The handler registered for each request kind. -/
def SocialAction.handler (targetArg : Int → String) : SocialAction → Handler
  | .follow => followUser targetArg
  | .unfollow => unfollowUser targetArg
  | .ban => banUser targetArg
  | .unban => unbanUser targetArg

/-- One request served on database `s`. -/
def serveSocial (targetArg : Int → String) (s : Store) (q : SocialRequest) :
    ResponseWriter × Store :=
  q.action.handler targetArg s q.w q.r q.p q.token

/-- The database after a sequence of requests, served one after the other. -/
def runSocial (targetArg : Int → String) (s : Store) (qs : List SocialRequest) : Store :=
  qs.foldl (fun st q => (serveSocial targetArg st q).2) s

/-- Four requests of user 1 on `bob_1`: follow, ban, unfollow, unban. -/
def exampleSession : List SocialRequest :=
  [SocialAction.follow, SocialAction.ban, SocialAction.unfollow, SocialAction.unban].map
    (fun a => { action := a, token := 1, w := ResponseWriter.fresh,
                r := exampleRequest "Bearer 1" "", p := socialParams "1" "bob_1" })

/-- No row of `follow` or of `ban` relates a user to itself. -/
def Irreflexive (s : Store) : Prop :=
  (∀ f ∈ s.follow, f.following ≠ f.followed) ∧ (∀ b ∈ s.ban, b.banning ≠ b.banned)

/-- The path parameters of `/user/:userId/photos/:photoId/likes/:authenticatedUserId`. -/
def likeParams (userId photoId authenticatedUserId : String) : Params :=
  [{ Key := "userId", Value := userId }, { Key := "photoId", Value := photoId },
    { Key := "authenticatedUserId", Value := authenticatedUserId }]

/-- The path parameters of `/user/:userId/photos/:photoId/`. -/
def photoParams (userId photoId : String) : Params :=
  [{ Key := "userId", Value := userId }, { Key := "photoId", Value := photoId }]

/-- The two users, and photo 100 posted by user 2. -/
def bobPosted : Store :=
  { twoUsers with
    photo := [{ id := 100, owner := 2, img := [137, 80, 78, 71],
                created_at := "2024-01-01 10:00:00" }],
    photoSeq := 100 }

/-- The two users and photo 100 of user 2, who has banned user 1. -/
def bobPostedAndBannedAlice : Store :=
  { bobPosted with ban := [{ banning := 2, banned := 1 }] }

/-- The status the client receives: the one written, or 200 when the handler returned
without writing the header (the server then writes it). -/
def ResponseWriter.finalStatus (w : ResponseWriter) : Nat :=
  w.status.getD StatusOK

/-- The two users, photo 100 of user 2, and comment 5 of user 1 on it. -/
def aliceCommented : Store :=
  { bobPosted with
    comment := [{ id := 5, content := "nice", created_at := "2024-01-01 11:00:00",
                  owner := 1, photo := 100 }],
    commentSeq := 5 }

/-- The path parameters of `/user/:userId/photos/:photoId/comments/:commentId`. -/
def commentParams (userId photoId commentId : String) : Params :=
  [{ Key := "userId", Value := userId }, { Key := "photoId", Value := photoId },
    { Key := "commentId", Value := commentId }]

/-- A request with the given `Authorization` header and body bytes. -/
def uploadRequest (authorization : String) (body : List Nat) : Request :=
  { Authorization := authorization, Body := body, decodeUsername := .error (.text "EOF"),
    decodeComment := .error (.text "EOF") }

/-- A login or a rename request that reached its handler, with what the handler receives
from the transport. -/
inductive ProfileRequest where
  | login (w : ResponseWriter) (r : Request) (ps : Params)
  | rename (w : ResponseWriter) (r : Request) (ps : Params) (pathToken : Int)

/-- One login or rename request served on database `s`. -/
def serveProfile (s : Store) : ProfileRequest → ResponseWriter × Store
  | .login w r ps => doLogin s w r ps
  | .rename w r ps pathToken => setMyUserName s w r ps pathToken

/-- The database after a sequence of login and rename requests, served one after the other. -/
def runProfile (s : Store) (qs : List ProfileRequest) : Store :=
  qs.foldl (fun st q => (serveProfile st q).2) s

/-- The keys of the table `user`: no two rows have the same token (`PRIMARY KEY`) and no two
rows have the same username (`UNIQUE`). -/
def UserKeys (s : Store) : Prop :=
  (s.user.map (fun u => u.token)).Nodup ∧ (s.user.map (fun u => u.username)).Nodup

/-- Every token of the table `user` is at least 1, as `AUTOINCREMENT` assigns them. -/
def TokensPositive (s : Store) : Prop :=
  ∀ u ∈ s.user, 1 ≤ u.token

/-- Three requests: `carol` logs in, `carol` logs in again, and user 1 asks for the name
`carol`. -/
def exampleLogins : List ProfileRequest :=
  [.login ResponseWriter.fresh (exampleRequest "" "carol") [],
   .login ResponseWriter.fresh (exampleRequest "" "carol") [],
   .rename ResponseWriter.fresh (exampleRequest "Bearer 1" "carol")
     [{ Key := "userId", Value := "1" }] 1]

/-- The path parameters of `/user/:userId/profile-page/:username`. -/
def profileParams (userId username : String) : Params :=
  [{ Key := "userId", Value := userId }, { Key := "username", Value := username }]

/-- The words of the stream contract for caller `A`: the owner of the photo is followed by
`A`, has not banned `A`, and is not `A`. -/
def inStreamOf (s : Store) (A : Int) (ph : PhotoRow) : Bool :=
  boolOf (CheckFollow s A ph.owner) && !boolOf (CheckBan s ph.owner A) && ph.owner != A

/-- Every photo is owned by a registered user (`owner ... REFERENCES user`). -/
def PhotoOwnersRegistered (s : Store) : Prop :=
  ∀ ph ∈ s.photo, ∃ u ∈ s.user, u.token = ph.owner

/-- Three users: user 1 follows users 2 and 3, and user 3 has banned user 1. User 2 posted
photos 100 and 102, user 3 photo 101, user 1 photo 103. -/
def streamStore : Store :=
  { Store.empty with
    user := [{ token := 1, username := "alice" }, { token := 2, username := "bob_1" },
             { token := 3, username := "carol" }],
    photo := [{ id := 100, owner := 2, img := [1], created_at := "2024-01-01 10:00:00" },
              { id := 101, owner := 3, img := [2], created_at := "2024-01-02 10:00:00" },
              { id := 102, owner := 2, img := [3], created_at := "2024-01-03 10:00:00" },
              { id := 103, owner := 1, img := [4], created_at := "2024-01-04 10:00:00" }],
    follow := [{ following := 1, followed := 2 }, { following := 1, followed := 3 }],
    ban := [{ banning := 3, banned := 1 }],
    userSeq := 3, photoSeq := 103 }

/-- The statuses of a request rejected by a precondition check: 400, 404, 403 or 409. -/
def PreconditionRejected (status : Option Nat) : Prop :=
  status = some StatusBadRequest ∨ status = some StatusNotFound ∨
    status = some StatusForbidden ∨ status = some StatusConflict

/-- The pattern under which `likePhoto` is registered. -/
def likeRoute : Route :=
  { method := "PUT", path := "/user/:userId/photos/:photoId/likes/:authenticatedUserId",
    wrapper := .authWrapper, handler := "likePhoto" }

/-- Four path parameters, one more than the array of the guard holds. -/
def fourParams : Params :=
  [{ Key := "userId", Value := "1" }, { Key := "photoId", Value := "100" },
   { Key := "commentId", Value := "7" }, { Key := "authenticatedUserId", Value := "1" }]

/-! ## Lemmas: the response writer -/

@[simp] theorem setContentType_status (w : ResponseWriter) (v : String) :
    (w.setContentType v).status = w.status := rfl

@[simp] theorem WriteHeader_status (w : ResponseWriter) (c : Nat) :
    (w.WriteHeader c).status = some (w.status.getD c) := by
  unfold ResponseWriter.WriteHeader
  cases h : w.status <;> simp [h]

@[simp] theorem Write_status (w : ResponseWriter) (p : Payload) :
    (w.Write p).status = some (w.status.getD 200) := by
  simp [ResponseWriter.Write]

@[simp] theorem Encode_status (w : ResponseWriter) (p : Payload) :
    (w.Encode p).status = some (w.status.getD 200) := by
  simp [ResponseWriter.Encode]

@[simp] theorem sendJSONResponse_status (w : ResponseWriter) (c : Nat) (m : String) :
    (sendJSONResponse w c m).status = some (w.status.getD c) := by
  simp [sendJSONResponse]

@[simp] theorem ReturnInternalServerError_none (w : ResponseWriter) :
    ReturnInternalServerError w none = w := rfl

@[simp] theorem ReturnBadRequestMessage_none (w : ResponseWriter) :
    ReturnBadRequestMessage w none = w := rfl

/-! ## Lemmas: the username pattern -/

theorem accepts_usernameClass (c : Char) :
    usernameClass.any (fun i => i.accepts c) = (c.isAlpha || c.isDigit || c == '_' || c == '-') := by
  have hge : ∀ k : UInt32, (c.val ≥ k) = (k.toNat ≤ c.toNat) := fun _ => rfl
  have hle : ∀ k : UInt32, (c.val ≤ k) = (c.toNat ≤ k.toNat) := fun _ => rfl
  have e1 : 'a'.toNat = 97 := rfl
  have e2 : 'z'.toNat = 122 := rfl
  have e3 : 'A'.toNat = 65 := rfl
  have e4 : 'Z'.toNat = 90 := rfl
  have e5 : '0'.toNat = 48 := rfl
  have e6 : '9'.toNat = 57 := rfl
  have n1 : (97 : UInt32).toNat = 97 := rfl
  have n2 : (122 : UInt32).toNat = 122 := rfl
  have n3 : (65 : UInt32).toNat = 65 := rfl
  have n4 : (90 : UInt32).toNat = 90 := rfl
  have n5 : (48 : UInt32).toNat = 48 := rfl
  have n6 : (57 : UInt32).toNat = 57 := rfl
  simp only [usernameClass, List.any_cons, List.any_nil, ClassItem.accepts, Char.isAlpha,
    Char.isUpper, Char.isLower, Char.isDigit, Bool.or_false, hge, hle, e1, e2, e3, e4, e5, e6,
    n1, n2, n3, n4, n5, n6]
  cases decide (97 ≤ c.toNat) && decide (c.toNat ≤ 122) <;>
    cases decide (65 ≤ c.toNat) && decide (c.toNat ≤ 90) <;>
    cases decide (48 ≤ c.toNat) && decide (c.toNat ≤ 57) <;>
    cases (c == '_') <;> cases (c == '-') <;> rfl

theorem matchRepeat_iff (cls : List ClassItem) (l : List Char) :
    ∀ lo hi : Nat, matchRepeat cls lo hi l = true ↔
      lo ≤ l.length ∧ l.length ≤ hi ∧ ∀ c ∈ l, cls.any (fun i => i.accepts c) = true := by
  induction l with
  | nil => intro lo hi; simp [matchRepeat]
  | cons c cs ih =>
    intro lo hi
    cases hi with
    | zero => simp [matchRepeat]
    | succ hi =>
      simp only [matchRepeat, Bool.and_eq_true, ih, List.length_cons, List.mem_cons,
        forall_eq_or_imp]
      constructor
      · rintro ⟨hc, h1, h2, h3⟩
        exact ⟨by omega, by omega, hc, h3⟩
      · rintro ⟨h1, h2, hc, h3⟩
        exact ⟨hc, by omega, by omega, h3⟩

theorem MatchString_iff (name : String) :
    MatchString name = true ↔
      3 ≤ name.length ∧ name.length ≤ 16 ∧
        ∀ c ∈ name.data, c.isAlpha = true ∨ c.isDigit = true ∨ c = '_' ∨ c = '-' := by
  unfold MatchString
  rw [matchRepeat_iff]
  simp only [accepts_usernameClass, Bool.or_eq_true, beq_iff_eq, String.length, or_assoc]

theorem CheckUsernameRegex_fst (w : ResponseWriter) (name : String) :
    (CheckUsernameRegex w name).1 = MatchString name := by
  unfold CheckUsernameRegex
  cases MatchString name <;> simp

theorem CheckUsernameRegex_reject (w : ResponseWriter) (name : String)
    (h : MatchString name = false) :
    CheckUsernameRegex w name =
      (false, sendJSONResponse w StatusBadRequest "Error matching Username regex") := by
  unfold CheckUsernameRegex
  simp [h]

theorem handleUserAction_reject (s : Store) (w : ResponseWriter) (r : Request) (p : Params)
    (token : Int) (action : Store → Int → Int → Except GoError Store) (rev : Bool)
    (msg : String) (h : MatchString (p.ByName "username") = false) :
    handleUserAction s w r p token action rev msg =
      (sendJSONResponse (w.setContentType "application/json") StatusBadRequest
        "Error matching Username regex", s) := by
  unfold handleUserAction
  simp [CheckUsernameRegex_reject _ _ h]

/-! ## Lemmas: `strings.Split` -/

theorem splitGo_skip (sep : List Char) (pre rest cur : List Char) :
    splitGo sep (pre ++ rest) pre.length cur = splitGo sep rest 0 cur := by
  induction pre with
  | nil => rfl
  | cons c pre ih => simpa [splitGo] using ih

theorem splitGo_ne_nil (sep : List Char) (s : List Char) :
    ∀ (k : Nat) (cur : List Char), splitGo sep s k cur ≠ [] := by
  induction s with
  | nil => intro k cur; simp [splitGo]
  | cons c cs ih =>
    intro k cur
    cases k with
    | succ k => simpa [splitGo] using ih k cur
    | zero =>
      simp only [splitGo]
      split
      · simp
      · exact ih 0 (c :: cur)

theorem intercalate_cons_of_ne_nil (sep a : List Char) (l : List (List Char)) (h : l ≠ []) :
    List.intercalate sep (a :: l) = a ++ sep ++ List.intercalate sep l := by
  cases l with
  | nil => exact absurd rfl h
  | cons b t => simp [List.intercalate, List.intersperse, List.append_assoc]

/-- The pieces of a split, joined again by the separator, give back the text. -/
theorem splitGo_join (sep : List Char) (hsep : sep ≠ []) :
    ∀ (n : Nat) (s : List Char), s.length ≤ n → ∀ cur : List Char,
      List.intercalate sep (splitGo sep s 0 cur) = cur.reverse ++ s := by
  intro n
  induction n with
  | zero =>
    intro s hs cur
    have : s = [] := List.length_eq_zero.1 (Nat.le_zero.1 hs)
    subst this
    simp [splitGo, List.intercalate]
  | succ n ih =>
    intro s hs cur
    cases s with
    | nil => simp [splitGo, List.intercalate]
    | cons c cs =>
      simp only [splitGo]
      by_cases hp : sep.isPrefixOf (c :: cs) = true
      · simp only [hp, if_true]
        obtain ⟨rest, hrest⟩ := List.isPrefixOf_iff_prefix.1 hp
        cases sep with
        | nil => exact absurd rfl hsep
        | cons d sep2 =>
          simp only [List.cons_append, List.cons.injEq] at hrest
          obtain ⟨rfl, rfl⟩ := hrest
          have hlen : (d :: sep2).length - 1 = sep2.length := by simp
          rw [hlen, splitGo_skip]
          rw [intercalate_cons_of_ne_nil _ _ _ (splitGo_ne_nil _ _ _ _)]
          have hr : rest.length ≤ n := by
            simp only [List.length_cons, List.length_append] at hs
            omega
          rw [ih rest hr []]
          simp
      · simp only [hp, Bool.false_eq_true, if_false]
        have hc : cs.length ≤ n := by
          simp only [List.length_cons] at hs
          omega
        rw [ih cs hc (c :: cur)]
        simp

/-- Model check of `Split`: for a non-empty separator, joining the pieces with the separator
gives back the string. -/
theorem Split_join (s sep : String) (hsep : sep.data ≠ []) :
    List.intercalate sep.data ((Split s sep).map String.data) = s.data := by
  unfold Split
  simp only [hsep, if_false, List.map_map]
  have : (String.data ∘ String.mk) = id := by
    funext l; rfl
  rw [this, List.map_id, splitGo_join sep.data hsep s.data.length s.data (Nat.le_refl _) []]
  simp

/-! ## Lemmas: `strconv.ParseInt` -/

theorem digitVal_eq (c : Char) :
    digitVal c = if c.isDigit then some (c.toNat - 48) else none := by
  have hge : ∀ k : UInt32, (c.val ≥ k) = (k.toNat ≤ c.toNat) := fun _ => rfl
  have hle : ∀ k : UInt32, (c.val ≤ k) = (c.toNat ≤ k.toNat) := fun _ => rfl
  have n5 : (48 : UInt32).toNat = 48 := rfl
  have n6 : (57 : UInt32).toNat = 57 := rfl
  simp only [digitVal, Char.isDigit, hge, hle, n5, n6, Bool.and_eq_true, decide_eq_true_eq]

theorem foldl_digits_ge (cs : List Char) (n : Nat) :
    n ≤ cs.foldl (fun n c => n * 10 + (c.toNat - 48)) n := by
  induction cs generalizing n with
  | nil => simp
  | cons c cs ih =>
    simp only [List.foldl_cons]
    exact Nat.le_trans (by omega) (ih _)

theorem parseUintLoop_ok (num : String) (cs : List Char) :
    ∀ n m : Nat, n < 2 ^ 64 →
      (parseUintLoop num cs n = .ok m ↔
        (∀ c ∈ cs, c.isDigit = true) ∧
          cs.foldl (fun n c => n * 10 + (c.toNat - 48)) n = m ∧ m < 2 ^ 64) := by
  induction cs with
  | nil =>
    intro n m hn
    simp only [parseUintLoop, Except.ok.injEq, List.not_mem_nil, false_implies, implies_true,
      List.foldl_nil, true_and]
    constructor
    · rintro rfl; exact ⟨rfl, hn⟩
    · rintro ⟨h, _⟩; exact h
  | cons c cs ih =>
    intro n m hn
    simp only [parseUintLoop, digitVal_eq, List.mem_cons, forall_eq_or_imp, List.foldl_cons]
    by_cases hc : c.isDigit = true
    · simp only [hc, if_true, true_and]
      by_cases hov : n * 10 + (c.toNat - 48) ≥ 2 ^ 64
      · simp only [hov, if_true]
        constructor
        · intro h; cases h
        · rintro ⟨_, h2, h3⟩
          have := foldl_digits_ge cs (n * 10 + (c.toNat - 48))
          omega
      · simp only [hov, if_false]
        exact ih _ _ (by omega)
    · have hc2 : c.isDigit = false := by simpa using hc
      simp only [hc2]
      constructor
      · intro h; cases h
      · rintro ⟨⟨h, _⟩, _⟩; cases h

theorem parseSigned_ok (s : String) (digits : List Char) (neg : Bool) (v : Int) :
    (match parseUintLoop s digits 0 with
      | .error e => (Except.error e : Except GoError Int)
      | .ok un =>
        if !neg && un ≥ 2 ^ 63 then .error (.numRange s)
        else if neg && un > 2 ^ 63 then .error (.numRange s)
        else .ok (if neg then -(un : Int) else (un : Int))) = .ok v ↔
      (∀ c ∈ digits, c.isDigit = true) ∧
        v = (if neg = true then -(decimalValue digits : Int) else (decimalValue digits : Int)) ∧
        -(2 ^ 63 : Int) ≤ v ∧ v < 2 ^ 63 := by
  have key := parseUintLoop_ok s digits 0
  have hpow : (2 : Nat) ^ 63 = 9223372036854775808 := by norm_num
  have hpow64 : (2 : Nat) ^ 64 = 18446744073709551616 := by norm_num
  have hpowz : (2 : Int) ^ 63 = 9223372036854775808 := by norm_num
  cases hloop : parseUintLoop s digits 0 with
  | error e =>
    constructor
    · intro h; cases h
    rintro ⟨hd, hv, hlo, hhi⟩
    have hm : decimalValue digits < 2 ^ 64 := by
      rw [hpowz] at hlo hhi
      rw [hpow64]
      cases neg <;> simp at hv <;> omega
    have := (key (decimalValue digits) (by norm_num)).2 ⟨hd, rfl, hm⟩
    rw [hloop] at this
    cases this
  | ok un =>
    obtain ⟨hd, hval, hlt⟩ := (key un (by norm_num)).1 hloop
    have hval2 : decimalValue digits = un := hval
    simp only [hval2]
    rw [hpowz, hpow]
    cases neg
    · simp only [Bool.not_false, Bool.true_and, Bool.false_and, Bool.false_eq_true, if_false,
        decide_eq_true_eq]
      by_cases h : un ≥ 9223372036854775808
      · simp only [h, if_true]
        constructor
        · intro h'; cases h'
        · rintro ⟨_, rfl, _, h3⟩; omega
      · simp only [h, if_false, Except.ok.injEq]
        constructor
        · rintro rfl; exact ⟨hd, rfl, by omega, by omega⟩
        · rintro ⟨_, rfl, _⟩; rfl
    · simp only [Bool.not_true, Bool.false_and, Bool.true_and, Bool.false_eq_true, if_false,
        if_true, decide_eq_true_eq]
      by_cases h : un > 9223372036854775808
      · simp only [h, if_true]
        constructor
        · intro h'; cases h'
        · rintro ⟨_, rfl, h2, _⟩; omega
      · simp only [h, if_false, Except.ok.injEq]
        constructor
        · rintro rfl; exact ⟨hd, rfl, by omega, by omega⟩
        · rintro ⟨_, rfl, _⟩; rfl

theorem literal_cons_iff (c : Char) (cs : List Char) (v : Int) :
    (∃ sign digits : List Char, c :: cs = sign ++ digits ∧
      (sign = [] ∨ sign = ['+'] ∨ sign = ['-']) ∧ digits ≠ [] ∧
      (∀ c ∈ digits, c.isDigit = true) ∧
      v = (if sign = ['-'] then -(decimalValue digits : Int) else (decimalValue digits : Int)) ∧
      -(2 ^ 63 : Int) ≤ v ∧ v < 2 ^ 63) ↔
    (if (c == '+' || c == '-') = true then cs else c :: cs) ≠ [] ∧
      (∀ d ∈ (if (c == '+' || c == '-') = true then cs else c :: cs), d.isDigit = true) ∧
      v = (if (c == '-') = true
            then -(decimalValue (if (c == '+' || c == '-') = true then cs else c :: cs) : Int)
            else (decimalValue (if (c == '+' || c == '-') = true then cs else c :: cs) : Int)) ∧
      -(2 ^ 63 : Int) ≤ v ∧ v < 2 ^ 63 := by
  have hplusd : ('+' : Char).isDigit = false := by decide
  have hminusd : ('-' : Char).isDigit = false := by decide
  constructor
  · rintro ⟨sign, digits, h, hsign, hne, hd, hv, hlo, hhi⟩
    rcases hsign with rfl | rfl | rfl
    · simp only [List.nil_append] at h
      subst h
      have hc := hd c (by simp)
      have hp : (c == '+') = false := by
        cases hcp : (c == '+')
        · rfl
        · have : c = '+' := by simpa using hcp
          rw [this, hplusd] at hc; cases hc
      have hm : (c == '-') = false := by
        cases hcm : (c == '-')
        · rfl
        · have : c = '-' := by simpa using hcm
          rw [this, hminusd] at hc; cases hc
      simp only [hp, hm, Bool.or_false, Bool.false_eq_true, if_false]
      exact ⟨hne, hd, by simpa using hv, hlo, hhi⟩
    · simp only [List.singleton_append, List.cons.injEq] at h
      obtain ⟨rfl, rfl⟩ := h
      have hm : (('+' : Char) == '-') = false := by decide
      simp only [beq_self_eq_true, Bool.true_or, if_true, hm, Bool.false_eq_true, if_false]
      exact ⟨hne, hd, by simpa using hv, hlo, hhi⟩
    · simp only [List.singleton_append, List.cons.injEq] at h
      obtain ⟨rfl, rfl⟩ := h
      simp only [beq_self_eq_true, Bool.or_true, if_true]
      exact ⟨hne, hd, by simpa using hv, hlo, hhi⟩
  · rintro ⟨hne, hd, hv, hlo, hhi⟩
    by_cases hp : c = '+'
    · subst hp
      have hm : (('+' : Char) == '-') = false := by decide
      simp only [beq_self_eq_true, Bool.true_or, if_true, hm, Bool.false_eq_true,
        if_false] at hne hd hv
      exact ⟨['+'], cs, rfl, Or.inr (Or.inl rfl), hne, hd, by simpa using hv, hlo, hhi⟩
    · by_cases hm : c = '-'
      · subst hm
        simp only [beq_self_eq_true, Bool.or_true, if_true] at hne hd hv
        exact ⟨['-'], cs, rfl, Or.inr (Or.inr rfl), hne, hd, by simpa using hv, hlo, hhi⟩
      · have e1 : (c == '+') = false := by simpa using hp
        have e2 : (c == '-') = false := by simpa using hm
        simp only [e1, e2, Bool.or_false, Bool.false_eq_true, if_false] at hne hd hv
        exact ⟨[], c :: cs, rfl, Or.inl rfl, hne, hd, by simpa using hv, hlo, hhi⟩

theorem ParseInt_ok_iff (s : String) (v : Int) :
    ParseInt s = .ok v ↔ IsInt64Literal s v := by
  unfold ParseInt IsInt64Literal
  cases hs : s.data with
  | nil =>
    simp only []
    constructor
    · intro h; cases h
    · rintro ⟨sign, digits, h, _, hne, _⟩
      have : digits = [] := (List.append_eq_nil.1 h.symm).2
      exact absurd this hne
  | cons c cs =>
    rw [literal_cons_iff]
    simp only []
    generalize (if (c == '+' || c == '-') = true then cs else c :: cs) = digits
    by_cases hd0 : digits = []
    · simp only [hd0, if_true, ne_eq, not_true_eq_false, false_and, iff_false]
      intro h; cases h
    · simp only [hd0, if_false, ne_eq, not_false_eq_true, true_and]
      exact parseSigned_ok s digits (c == '-') v

/-! ## C6: the Identity Resolver -/

/-- C6. For every `Authorization` header value `h`, ExtractToken fails, returning -1 and an
error, if `h` is empty, or if splitting `h` on "Bearer " does not give exactly two pieces, or
if the second piece is not a valid base-10 64-bit integer; in every other case it succeeds
and returns the integer value of the second piece. -/
theorem ExtractToken_contract (h : String) :
    ((h = "" ∨ (Split h "Bearer ").length ≠ 2 ∨
        ¬ ∃ v, IsInt64Literal ((Split h "Bearer ").getD 1 "") v) →
      (ExtractToken h).1 = -1 ∧ (ExtractToken h).2 ≠ none) ∧
    (∀ v, h ≠ "" → (Split h "Bearer ").length = 2 →
      IsInt64Literal ((Split h "Bearer ").getD 1 "") v → ExtractToken h = (v, none)) := by
  constructor
  · intro hbad
    unfold ExtractToken
    by_cases h0 : h = ""
    · simp [h0]
    · by_cases h2 : (Split h "Bearer ").length ≠ 2
      · simp [h0, h2]
      · rcases hbad with hb | hb | hb
        · exact absurd hb h0
        · exact absurd hb h2
        · cases hp : ParseInt ((Split h "Bearer ").getD 1 "") with
          | error e =>
            rw [if_neg h0]
            simp only []
            rw [if_neg h2, hp]
            exact ⟨rfl, by simp⟩
          | ok v => exact absurd ⟨v, (ParseInt_ok_iff _ _).1 hp⟩ hb
  · intro v h0 h2 hv
    unfold ExtractToken
    have hp := (ParseInt_ok_iff _ _).2 hv
    have h2n : ¬ (Split h "Bearer ").length ≠ 2 := by simp [h2]
    rw [if_neg h0]
    simp only []
    rw [if_neg h2n, hp]

/-- C6 at concrete headers: `Bearer 42` resolves to 42, and the empty header fails. -/
theorem ExtractToken_contract_witness :
    ("Bearer 42" ≠ "" ∧ (Split "Bearer 42" "Bearer ").length = 2 ∧
      ExtractToken "Bearer 42" = (42, none)) ∧
    ((ExtractToken "").1 = -1 ∧ (ExtractToken "").2 ≠ none) :=
  ⟨⟨by decide, by decide,
    (ExtractToken_contract "Bearer 42").2 42 (by decide) (by decide)
      ⟨[], ['4', '2'], by decide, Or.inl rfl, by decide, by decide, by decide, by decide,
        by decide⟩⟩,
   (ExtractToken_contract "").1 (Or.inl rfl)⟩

/-! ## C8: username validation -/

theorem answersWithoutStore_of_eq {run : Store → ResponseWriter × Store} {W : ResponseWriter}
    {code : Nat} (h : ∀ s, run s = (W, s)) (hs : W.status = some code) :
    AnswersWithoutStore run code := by
  intro s
  refine ⟨by rw [h], by rw [h]; exact hs, fun s2 => by rw [h, h]⟩

theorem doLogin_reject (s : Store) (w : ResponseWriter) (r : Request) (ps : Params)
    (name : String) (hr : r.decodeUsername = .ok { Username := name })
    (h : MatchString name = false) :
    doLogin s w r ps =
      (sendJSONResponse w StatusBadRequest "Error matching Username regex", s) := by
  unfold doLogin
  simp [hr, errOf, Profile.handleError, CheckUsernameRegex_reject _ _ h]

theorem setMyUserName_reject (s : Store) (w : ResponseWriter) (r : Request) (ps : Params)
    (token : Int) (name : String) (hr : r.decodeUsername = .ok { Username := name })
    (h : MatchString name = false) :
    setMyUserName s w r ps token =
      (sendJSONResponse w StatusBadRequest "Error matching Username regex", s) := by
  unfold setMyUserName
  simp [hr, errOf, Profile.handleError, CheckUsernameRegex_reject _ _ h]

theorem getUserProfile_reject (scanTime : String → String) (s : Store) (w : ResponseWriter)
    (r : Request) (p : Params) (token : Int)
    (h : MatchString (p.ByName "username") = false) :
    getUserProfile scanTime s w r p token =
      (sendJSONResponse w StatusBadRequest "Error matching Username regex", s) := by
  unfold getUserProfile
  simp [CheckUsernameRegex_reject _ _ h]

theorem searchUser_reject (s : Store) (w : ResponseWriter) (r : Request) (p : Params)
    (token : Int) (h : MatchString (p.ByName "username") = false) :
    searchUser s w r p token =
      (sendJSONResponse w StatusBadRequest "Error matching Username regex", s) := by
  unfold searchUser
  simp [CheckUsernameRegex_reject _ _ h]

/-- C8. CheckUsernameRegex accepts a string if and only if its length is between 3 and 16
and every character is an ASCII letter, an ASCII digit, `_` or `-`; "ab" and
"this_name_is_too_long_12345" are rejected and "valid_User-1" is accepted; and each handler
that takes a username (follow, unfollow, ban, unban, profile, search from the path; login and
rename from the body) answers 400 for a rejected username without reading or writing the
database. -/
theorem CheckUsernameRegex_contract :
    (∀ (w : ResponseWriter) (name : String),
      (CheckUsernameRegex w name).1 = true ↔
        3 ≤ name.length ∧ name.length ≤ 16 ∧
          ∀ c ∈ name.data, c.isAlpha = true ∨ c.isDigit = true ∨ c = '_' ∨ c = '-') ∧
    (∀ w : ResponseWriter,
      (CheckUsernameRegex w "ab").1 = false ∧
      (CheckUsernameRegex w "this_name_is_too_long_12345").1 = false ∧
      (CheckUsernameRegex w "valid_User-1").1 = true) ∧
    (∀ (targetArg : Int → String) (scanTime : String → String) (w : ResponseWriter)
        (r : Request) (p : Params) (token : Int),
      w.status = none → (CheckUsernameRegex w (p.ByName "username")).1 = false →
        AnswersWithoutStore (fun s => followUser targetArg s w r p token) StatusBadRequest ∧
        AnswersWithoutStore (fun s => unfollowUser targetArg s w r p token) StatusBadRequest ∧
        AnswersWithoutStore (fun s => banUser targetArg s w r p token) StatusBadRequest ∧
        AnswersWithoutStore (fun s => unbanUser targetArg s w r p token) StatusBadRequest ∧
        AnswersWithoutStore (fun s => getUserProfile scanTime s w r p token)
          StatusBadRequest ∧
        AnswersWithoutStore (fun s => searchUser s w r p token) StatusBadRequest) ∧
    (∀ (w : ResponseWriter) (r : Request) (ps : Params) (token : Int) (name : String),
      w.status = none → r.decodeUsername = .ok { Username := name } →
        (CheckUsernameRegex w name).1 = false →
        AnswersWithoutStore (fun s => doLogin s w r ps) StatusBadRequest ∧
        AnswersWithoutStore (fun s => setMyUserName s w r ps token) StatusBadRequest) := by
  refine ⟨fun w name => ?_, fun w => ?_, ?_, ?_⟩
  · rw [CheckUsernameRegex_fst]
    exact MatchString_iff name
  · simp only [CheckUsernameRegex_fst]
    exact ⟨by decide, by decide, by decide⟩
  · intro targetArg scanTime w r p token hw hrej
    rw [CheckUsernameRegex_fst] at hrej
    have hst : (sendJSONResponse (w.setContentType "application/json") StatusBadRequest
        "Error matching Username regex").status = some StatusBadRequest := by
      simp [hw]
    have hst2 : (sendJSONResponse w StatusBadRequest
        "Error matching Username regex").status = some StatusBadRequest := by
      simp [hw]
    refine ⟨?_, ?_, ?_, ?_, ?_, ?_⟩
    · exact answersWithoutStore_of_eq
        (fun s => handleUserAction_reject s w r p token _ _ _ hrej) hst
    · exact answersWithoutStore_of_eq
        (fun s => handleUserAction_reject s w r p token _ _ _ hrej) hst
    · exact answersWithoutStore_of_eq
        (fun s => handleUserAction_reject s w r p token _ _ _ hrej) hst
    · exact answersWithoutStore_of_eq
        (fun s => handleUserAction_reject s w r p token _ _ _ hrej) hst
    · exact answersWithoutStore_of_eq
        (fun s => getUserProfile_reject scanTime s w r p token hrej) hst2
    · exact answersWithoutStore_of_eq (fun s => searchUser_reject s w r p token hrej) hst2
  · intro w r ps token name hw hr hrej
    rw [CheckUsernameRegex_fst] at hrej
    have hst2 : (sendJSONResponse w StatusBadRequest
        "Error matching Username regex").status = some StatusBadRequest := by
      simp [hw]
    exact ⟨answersWithoutStore_of_eq (fun s => doLogin_reject s w r ps name hr hrej) hst2,
      answersWithoutStore_of_eq (fun s => setMyUserName_reject s w r ps token name hr hrej)
        hst2⟩

/-- C8 at concrete requests: a follow request naming "ab" and a login as "ab" are answered
400 without touching the database. -/
theorem CheckUsernameRegex_contract_witness :
    (ResponseWriter.fresh.status = none ∧
      (CheckUsernameRegex ResponseWriter.fresh ((socialParams "1" "ab").ByName "username")).1
        = false ∧
      AnswersWithoutStore (fun s => followUser toString s ResponseWriter.fresh
        (exampleRequest "Bearer 1" "") (socialParams "1" "ab") 1) StatusBadRequest) ∧
    ((exampleRequest "" "ab").decodeUsername = .ok { Username := "ab" } ∧
      AnswersWithoutStore (fun s => doLogin s ResponseWriter.fresh (exampleRequest "" "ab") [])
        StatusBadRequest) :=
  ⟨⟨rfl, by decide,
    (CheckUsernameRegex_contract.2.2.1 toString id ResponseWriter.fresh
      (exampleRequest "Bearer 1" "") (socialParams "1" "ab") 1 rfl (by decide)).1⟩,
   ⟨rfl,
    (CheckUsernameRegex_contract.2.2.2 ResponseWriter.fresh (exampleRequest "" "ab") [] 0 "ab"
      rfl rfl (by decide)).1⟩⟩

/-! ## The Access Guard -/

theorem getD_key_eq (o : Option String) (k : String) (hk : k ≠ "") :
    (o.getD "" == k) = decide (o = some k) := by
  cases o with
  | none => simp [Ne.symm hk]
  | some v => by_cases h : v = k <;> simp [h]

theorem authWrapper_checked (fn : Handler) (s : Store) (w : ResponseWriter) (r : Request)
    (ps : Params) (t : Int) (hE : ExtractToken r.Authorization = (t, none)) (ht : t ≠ -1)
    (hC : CheckToken s t = true) (hl : ps.length ≤ 3) :
    authWrapper fn s w r ps =
      match pathIdentity ps with
      | none => some (fn s (w.setContentType "application/json") r ps t)
      | some v =>
        match ParseInt v with
        | .ok t2 =>
          if t2 = t then some (fn s (w.setContentType "application/json") r ps t)
          else
            some (sendJSONResponse (w.setContentType "application/json") StatusForbidden
              "The path tokens and the auth token aren't equal", s)
        | .error e =>
          some (sendJSONResponse
            (ReturnInternalServerError
              (sendJSONResponse (w.setContentType "application/json") StatusUnauthorized
                "Invalid token in the path") (some e))
            StatusForbidden "The path tokens and the auth token aren't equal", s) := by
  have hl2 : ¬ ps.length > 3 := by omega
  have ht2 : ¬ (-1 = t) := fun h => ht h.symm
  have e1 : ("userId" : String) ≠ "" := by decide
  have e2 : ("authenticatedUserId" : String) ≠ "" := by decide
  unfold authWrapper pathIdentity
  simp only [hE, Option.isSome_none, Bool.false_or, beq_iff_eq, ht, if_false, hC, Bool.not_true,
    Bool.false_eq_true, hl2, bne, getD_key_eq _ _ e1, getD_key_eq _ _ e2]
  by_cases h0 : (ps.get? 0).map (fun p => p.Key) = some "userId"
  · by_cases h2 : (ps.get? 2).map (fun p => p.Key) = some "authenticatedUserId"
    · simp only [h0, h2, decide_True, Bool.not_true, Bool.false_eq_true, if_true, if_false]
      unfold ExtractTokenFromPath
      cases hp : ParseInt (ps.ByName "authenticatedUserId") with
      | error e => simp [sendJSONResponse, ht2]
      | ok t2 =>
        by_cases h : t2 = t
        · simp [h]
        · simp [h, sendJSONResponse]
    · simp only [h0, h2, decide_True, decide_False, Bool.not_false, if_true, if_false]
      unfold ExtractTokenFromPath
      cases hp : ParseInt (ps.ByName "userId") with
      | error e => simp [sendJSONResponse, ht2]
      | ok t2 =>
        by_cases h : t2 = t
        · simp [h]
        · simp [h, sendJSONResponse]
  · simp only [h0, decide_False, Bool.false_eq_true, if_false, if_true]
    simp

theorem guardPasses_of (s : Store) (w : ResponseWriter) (r : Request) (ps : Params) (t : Int)
    (hE : ExtractToken r.Authorization = (t, none)) (ht : t ≠ -1)
    (hC : CheckToken s t = true) (hl : ps.length ≤ 3)
    (h : pathIdentity ps = none ∨ ∃ v, pathIdentity ps = some v ∧ ParseInt v = .ok t) :
    GuardPasses s w r ps t := by
  intro fn
  rw [authWrapper_checked fn s w r ps t hE ht hC hl]
  rcases h with h | ⟨v, h, hp⟩
  · simp only [h]
  · simp only [h, hp, if_true]

theorem guardRejects_forbidden (s : Store) (w : ResponseWriter) (r : Request) (ps : Params)
    (t : Int) (hw : w.status = none) (hE : ExtractToken r.Authorization = (t, none))
    (ht : t ≠ -1) (hC : CheckToken s t = true) (hl : ps.length ≤ 3) (v : String) (t2 : Int)
    (h : pathIdentity ps = some v) (hp : ParseInt v = .ok t2) (hne : t2 ≠ t) :
    GuardRejects s w r ps StatusForbidden := by
  refine ⟨sendJSONResponse (w.setContentType "application/json") StatusForbidden
    "The path tokens and the auth token aren't equal", by simp [hw], fun fn => ?_⟩
  rw [authWrapper_checked fn s w r ps t hE ht hC hl]
  simp only [h, hp, hne, if_false]

theorem guardRejects_unauthorized (s : Store) (w : ResponseWriter) (r : Request) (ps : Params)
    (t : Int) (hw : w.status = none) (hE : ExtractToken r.Authorization = (t, none))
    (ht : t ≠ -1) (hC : CheckToken s t = true) (hl : ps.length ≤ 3) (v : String) (e : GoError)
    (h : pathIdentity ps = some v) (hp : ParseInt v = .error e) :
    GuardRejects s w r ps StatusUnauthorized := by
  refine ⟨sendJSONResponse
      (ReturnInternalServerError
        (sendJSONResponse (w.setContentType "application/json") StatusUnauthorized
          "Invalid token in the path") (some e))
      StatusForbidden "The path tokens and the auth token aren't equal",
    by simp [hw, ReturnInternalServerError], fun fn => ?_⟩
  rw [authWrapper_checked fn s w r ps t hE ht hC hl]
  simp only [h, hp]

/-- The identity the guard hands to the handler is determined by the request. -/
theorem guardPasses_token_unique (s : Store) (w : ResponseWriter) (r : Request) (ps : Params)
    (a b : Int) (ha : GuardPasses s w r ps a) (hb : GuardPasses s w r ps b) : a = b := by
  have h1 := ha (fun st _ _ _ tok => (ResponseWriter.fresh.Write (.token { Identifier := tok }), st))
  have h2 := hb (fun st _ _ _ tok => (ResponseWriter.fresh.Write (.token { Identifier := tok }), st))
  rw [h1] at h2
  simpa [ResponseWriter.Write, ResponseWriter.WriteHeader, ResponseWriter.fresh] using h2

theorem not_guardPasses_of_rejects (s : Store) (w : ResponseWriter) (r : Request) (ps : Params)
    (code : Nat) (token : Int) (hr : GuardRejects s w r ps code) :
    ¬ GuardPasses s w r ps token := by
  intro hp
  obtain ⟨w2, _, h⟩ := hr
  have h1 := hp (fun st _ _ _ _ => (ResponseWriter.fresh, st))
  have h2 := hp (fun st _ _ _ _ => (ResponseWriter.fresh.WriteHeader 0, st))
  rw [h] at h1 h2
  rw [h1] at h2
  simp [ResponseWriter.WriteHeader, ResponseWriter.fresh] at h2

theorem guardRejects_code_unique (s : Store) (w : ResponseWriter) (r : Request) (ps : Params)
    (a b : Nat) (ha : GuardRejects s w r ps a) (hb : GuardRejects s w r ps b) : a = b := by
  obtain ⟨wa, hsa, ha⟩ := ha
  obtain ⟨wb, hsb, hb⟩ := hb
  have h := ha (fun st wr _ _ _ => (wr, st))
  rw [hb] at h
  simp only [Option.some.injEq, Prod.mk.injEq, and_true] at h
  subst h
  rw [hsb] at hsa
  exact (Option.some.inj hsa).symm

theorem guardRejects_header (s : Store) (w : ResponseWriter) (r : Request) (ps : Params)
    (hw : w.status = none)
    (h : (ExtractToken r.Authorization).2 ≠ none ∨ (ExtractToken r.Authorization).1 = -1) :
    GuardRejects s w r ps StatusUnauthorized := by
  refine ⟨((w.setContentType "application/json").WriteHeader StatusUnauthorized).Encode
    (.message { Message := "No Token in the Header" }), by simp [hw], fun fn => ?_⟩
  unfold authWrapper
  have hc : ((ExtractToken r.Authorization).2.isSome ||
      (ExtractToken r.Authorization).1 == -1) = true := by
    rcases h with h | h
    · cases h2 : (ExtractToken r.Authorization).2 with
      | none => exact absurd h2 h
      | some e => simp
    · simp [h]
  simp only [hc, if_true, ReturnInternalServerError_none]

theorem guardRejects_unknown (s : Store) (w : ResponseWriter) (r : Request) (ps : Params)
    (hw : w.status = none) (h1 : (ExtractToken r.Authorization).2 = none)
    (h2 : (ExtractToken r.Authorization).1 ≠ -1)
    (h3 : CheckToken s (ExtractToken r.Authorization).1 = false) :
    GuardRejects s w r ps StatusNotFound := by
  refine ⟨((w.setContentType "application/json").WriteHeader StatusNotFound).Encode
    (.message { Message := "Not Active Token" }), by simp [hw], fun fn => ?_⟩
  unfold authWrapper
  simp [h1, h2, h3]

/-- C5, as the code has it. For every request to a guarded route: if the Authorization header
cannot be resolved to an identity (ExtractToken fails, or yields -1) the guard answers 401;
if the resolved identity does not exist in the store (CheckToken is false) the guard answers
404; in both cases the handler is not invoked and the database is untouched. -/
theorem authWrapper_unauthenticated (s : Store) (w : ResponseWriter) (r : Request)
    (ps : Params) (hw : w.status = none) :
    (((ExtractToken r.Authorization).2 ≠ none ∨ (ExtractToken r.Authorization).1 = -1) →
      GuardRejects s w r ps StatusUnauthorized) ∧
    ((ExtractToken r.Authorization).2 = none → (ExtractToken r.Authorization).1 ≠ -1 →
      CheckToken s (ExtractToken r.Authorization).1 = false →
      GuardRejects s w r ps StatusNotFound) :=
  ⟨guardRejects_header s w r ps hw, guardRejects_unknown s w r ps hw⟩

/-- C5 at concrete requests: a header without the `Bearer` separator is answered 401, and the
credential 7, unknown to a database of two users, is answered 404. -/
theorem authWrapper_unauthenticated_witness :
    (ResponseWriter.fresh.status = none ∧
      (ExtractToken (exampleRequest "7" "").Authorization).2 ≠ none ∧
      GuardRejects twoUsers ResponseWriter.fresh (exampleRequest "7" "")
        (socialParams "7" "bob_1") StatusUnauthorized) ∧
    ((ExtractToken (exampleRequest "Bearer 7" "").Authorization).2 = none ∧
      (ExtractToken (exampleRequest "Bearer 7" "").Authorization).1 ≠ -1 ∧
      CheckToken twoUsers (ExtractToken (exampleRequest "Bearer 7" "").Authorization).1 = false ∧
      GuardRejects twoUsers ResponseWriter.fresh (exampleRequest "Bearer 7" "")
        (socialParams "7" "bob_1") StatusNotFound) :=
  ⟨⟨rfl, by decide,
    (authWrapper_unauthenticated twoUsers ResponseWriter.fresh (exampleRequest "7" "")
      (socialParams "7" "bob_1") rfl).1 (Or.inl (by decide))⟩,
   ⟨by decide, by decide, by decide,
    (authWrapper_unauthenticated twoUsers ResponseWriter.fresh (exampleRequest "Bearer 7" "")
      (socialParams "7" "bob_1") rfl).2 (by decide) (by decide) (by decide)⟩⟩

/-- C5 as stated fails: the header `Bearer 7` resolves to the identity 7, which does not
exist in a database of two users, and the guard does not answer 401: it answers 404. -/
theorem authWrapper_unknown_token_counterexample :
    ExtractToken (exampleRequest "Bearer 7" "").Authorization = (7, none) ∧
    CheckToken twoUsers 7 = false ∧
    ¬ GuardRejects twoUsers ResponseWriter.fresh (exampleRequest "Bearer 7" "")
        (socialParams "7" "bob_1") StatusUnauthorized ∧
    (authWrapper (followUser toString) twoUsers ResponseWriter.fresh
        (exampleRequest "Bearer 7" "") (socialParams "7" "bob_1")).map
      (fun out => out.1.status) = some (some StatusNotFound) := by
  refine ⟨by decide, by decide, ?_, by decide⟩
  intro h
  have h404 := guardRejects_unknown twoUsers ResponseWriter.fresh (exampleRequest "Bearer 7" "")
    (socialParams "7" "bob_1") rfl (by decide) (by decide) (by decide)
  have := guardRejects_code_unique _ _ _ _ _ _ h h404
  exact absurd this (by decide)

/-- C4, as the code has it. On a request whose credential resolves to an existing identity
`t` (and with at most three path parameters): the guard invokes the wrapped handler only when
the path identity it extracted, if any, parses to `t`, and then passes exactly `t`; when the
extracted path value is an integer different from `t` the handler is not invoked and the
status is 403; when the extracted path value is not an integer the handler is not invoked
and the status is 401, the status ExtractTokenFromPath writes first. -/
theorem authWrapper_reconciliation (s : Store) (w : ResponseWriter) (r : Request)
    (ps : Params) (t : Int) (hw : w.status = none)
    (hE : ExtractToken r.Authorization = (t, none)) (ht : t ≠ -1)
    (hC : CheckToken s t = true) (hl : ps.length ≤ 3) :
    (∀ token, GuardPasses s w r ps token →
      token = t ∧ ∀ v, pathIdentity ps = some v → ParseInt v = .ok t) ∧
    ((pathIdentity ps = none ∨ ∃ v, pathIdentity ps = some v ∧ ParseInt v = .ok t) →
      GuardPasses s w r ps t) ∧
    (∀ v t2, pathIdentity ps = some v → ParseInt v = .ok t2 → t2 ≠ t →
      GuardRejects s w r ps StatusForbidden) ∧
    (∀ v e, pathIdentity ps = some v → ParseInt v = .error e →
      GuardRejects s w r ps StatusUnauthorized) := by
  have hforb := guardRejects_forbidden s w r ps t hw hE ht hC hl
  have hunauth := guardRejects_unauthorized s w r ps t hw hE ht hC hl
  have hpass := guardPasses_of s w r ps t hE ht hC hl
  refine ⟨fun token hp => ?_, hpass, hforb, hunauth⟩
  have hv : ∀ v, pathIdentity ps = some v → ParseInt v = .ok t := by
    intro v h
    cases hpv : ParseInt v with
    | error e =>
      exact absurd hp (not_guardPasses_of_rejects _ _ _ _ _ _ (hunauth v e h hpv))
    | ok t2 =>
      by_cases h2 : t2 = t
      · rw [h2]
      · exact absurd hp (not_guardPasses_of_rejects _ _ _ _ _ _ (hforb v t2 h hpv h2))
  refine ⟨?_, hv⟩
  have hpt : GuardPasses s w r ps t := by
    cases hpi : pathIdentity ps with
    | none => exact hpass (Or.inl hpi)
    | some v => exact hpass (Or.inr ⟨v, hpi, hv v hpi⟩)
  exact guardPasses_token_unique s w r ps token t hp hpt

/-- C4 at concrete requests of user 1 on the follow route: the path identity "1" passes, "2"
is answered 403, and "abc" is answered 401. -/
theorem authWrapper_reconciliation_witness :
    (ResponseWriter.fresh.status = none ∧
      ExtractToken (exampleRequest "Bearer 1" "").Authorization = (1, none) ∧
      CheckToken twoUsers 1 = true) ∧
    GuardPasses twoUsers ResponseWriter.fresh (exampleRequest "Bearer 1" "")
      (socialParams "1" "bob_1") 1 ∧
    GuardRejects twoUsers ResponseWriter.fresh (exampleRequest "Bearer 1" "")
      (socialParams "2" "bob_1") StatusForbidden ∧
    GuardRejects twoUsers ResponseWriter.fresh (exampleRequest "Bearer 1" "")
      (socialParams "abc" "bob_1") StatusUnauthorized :=
  ⟨⟨rfl, by decide, by decide⟩,
   (authWrapper_reconciliation twoUsers ResponseWriter.fresh (exampleRequest "Bearer 1" "")
      (socialParams "1" "bob_1") 1 rfl (by decide) (by decide) (by decide)
      (by decide)).2.1 (Or.inr ⟨"1", by decide, by decide⟩),
   (authWrapper_reconciliation twoUsers ResponseWriter.fresh (exampleRequest "Bearer 1" "")
      (socialParams "2" "bob_1") 1 rfl (by decide) (by decide) (by decide)
      (by decide)).2.2.1 "2" 2 (by decide) (by decide) (by decide),
   (authWrapper_reconciliation twoUsers ResponseWriter.fresh (exampleRequest "Bearer 1" "")
      (socialParams "abc" "bob_1") 1 rfl (by decide) (by decide) (by decide)
      (by decide)).2.2.2 "abc" (.numSyntax "abc") (by decide) (by decide)⟩

/-- C4 as stated fails: user 1 sends the path identity "abc", which is not an integer and so
differs from the credential; the handler is not invoked, but the guard does not answer 403:
the status of the response is 401. -/
theorem authWrapper_path_not_integer_counterexample :
    ExtractToken (exampleRequest "Bearer 1" "").Authorization = (1, none) ∧
    CheckToken twoUsers 1 = true ∧
    pathIdentity (socialParams "abc" "bob_1") = some "abc" ∧
    ParseInt "abc" = .error (.numSyntax "abc") ∧
    ¬ GuardRejects twoUsers ResponseWriter.fresh (exampleRequest "Bearer 1" "")
        (socialParams "abc" "bob_1") StatusForbidden ∧
    (authWrapper (followUser toString) twoUsers ResponseWriter.fresh
        (exampleRequest "Bearer 1" "") (socialParams "abc" "bob_1")).map
      (fun out => out.1.status) = some (some StatusUnauthorized) := by
  refine ⟨by decide, by decide, by decide, by decide, ?_, by decide⟩
  intro h
  have h401 := guardRejects_unauthorized twoUsers ResponseWriter.fresh
    (exampleRequest "Bearer 1" "") (socialParams "abc" "bob_1") 1 rfl (by decide) (by decide)
    (by decide) (by decide) "abc" (.numSyntax "abc") (by decide) (by decide)
  have := guardRejects_code_unique _ _ _ _ _ _ h h401
  exact absurd this (by decide)

/-- C7. For a credential resolving to an existing identity `t`: on a route with the path
parameters (userId, photoId, authenticatedUserId) the request passes the guard if and only
if the authenticatedUserId value is the integer `t`, whatever the userId value, and is
answered by the guard itself otherwise; on a route whose first parameter is userId and whose
third parameter is not authenticatedUserId the same holds with the userId value. -/
theorem authWrapper_acting_user (s : Store) (w : ResponseWriter) (r : Request) (t : Int)
    (hw : w.status = none) (hE : ExtractToken r.Authorization = (t, none)) (ht : t ≠ -1)
    (hC : CheckToken s t = true) :
    (∀ u p a : String,
      (GuardPasses s w r
          [{ Key := "userId", Value := u }, { Key := "photoId", Value := p },
            { Key := "authenticatedUserId", Value := a }] t ↔ ParseInt a = .ok t) ∧
      (ParseInt a ≠ .ok t → ∃ code, GuardRejects s w r
          [{ Key := "userId", Value := u }, { Key := "photoId", Value := p },
            { Key := "authenticatedUserId", Value := a }] code)) ∧
    (∀ (u : String) (rest : Params), rest.length ≤ 2 →
      (rest.get? 1).map (fun q => q.Key) ≠ some "authenticatedUserId" →
      (GuardPasses s w r ({ Key := "userId", Value := u } :: rest) t ↔ ParseInt u = .ok t) ∧
      (ParseInt u ≠ .ok t →
        ∃ code, GuardRejects s w r ({ Key := "userId", Value := u } :: rest) code)) := by
  have main : ∀ (ps : Params) (v : String), ps.length ≤ 3 → pathIdentity ps = some v →
      (GuardPasses s w r ps t ↔ ParseInt v = .ok t) ∧
      (ParseInt v ≠ .ok t → ∃ code, GuardRejects s w r ps code) := by
    intro ps v hl hpi
    have hrej : ParseInt v ≠ .ok t → ∃ code, GuardRejects s w r ps code := by
      intro hne
      cases hpv : ParseInt v with
      | error e =>
        exact ⟨_, guardRejects_unauthorized s w r ps t hw hE ht hC hl v e hpi hpv⟩
      | ok t2 =>
        have h2 : t2 ≠ t := fun h => hne (by rw [hpv, h])
        exact ⟨_, guardRejects_forbidden s w r ps t hw hE ht hC hl v t2 hpi hpv h2⟩
    refine ⟨⟨fun hp => ?_, fun hv => guardPasses_of s w r ps t hE ht hC hl
      (Or.inr ⟨v, hpi, hv⟩)⟩, hrej⟩
    by_contra hne
    obtain ⟨code, hr⟩ := hrej hne
    exact not_guardPasses_of_rejects _ _ _ _ _ _ hr hp
  constructor
  · intro u p a
    exact main _ a (by simp) (by simp [pathIdentity, Params.ByName, List.find?])
  · intro u rest hlen hkey
    refine main _ u (by simp; omega) ?_
    have h2 : ((({ Key := "userId", Value := u } : Param) :: rest).get? 2).map (fun q => q.Key)
        = (rest.get? 1).map (fun q => q.Key) := rfl
    simp only [pathIdentity, h2, hkey, if_false]
    simp [Params.ByName, List.find?]

/-- C7 at concrete requests of user 1 on the like route: with authenticatedUserId "1" the
request passes whatever the userId ("2" here), and with authenticatedUserId "2" and userId
"1" it does not. -/
theorem authWrapper_acting_user_witness :
    (ResponseWriter.fresh.status = none ∧
      ExtractToken (exampleRequest "Bearer 1" "").Authorization = (1, none) ∧
      CheckToken twoUsers 1 = true) ∧
    GuardPasses twoUsers ResponseWriter.fresh (exampleRequest "Bearer 1" "")
      [{ Key := "userId", Value := "2" }, { Key := "photoId", Value := "100" },
        { Key := "authenticatedUserId", Value := "1" }] 1 ∧
    (∃ code, GuardRejects twoUsers ResponseWriter.fresh (exampleRequest "Bearer 1" "")
      [{ Key := "userId", Value := "1" }, { Key := "photoId", Value := "100" },
        { Key := "authenticatedUserId", Value := "2" }] code) :=
  ⟨⟨rfl, by decide, by decide⟩,
   ((authWrapper_acting_user twoUsers ResponseWriter.fresh (exampleRequest "Bearer 1" "") 1
      rfl (by decide) (by decide) (by decide)).1 "2" "100" "1").1.2 (by decide),
   ((authWrapper_acting_user twoUsers ResponseWriter.fresh (exampleRequest "Bearer 1" "") 1
      rfl (by decide) (by decide) (by decide)).1 "1" "100" "2").2 (by decide)⟩

/-! ## Relationship policy: follow, unfollow, ban, unban -/

theorem CheckUsernameRegex_accept (w : ResponseWriter) (name : String)
    (h : MatchString name = true) : CheckUsernameRegex w name = (true, w) := by
  unfold CheckUsernameRegex
  simp [h]

/-- On a valid target name that resolves to another user who has not banned the caller,
`handleUserAction` is decided by the follow relation alone. -/
theorem handleUserAction_resolved (s : Store) (w : ResponseWriter) (r : Request) (p : Params)
    (token B : Int) (action : Store → Int → Int → Except GoError Store) (rev : Bool)
    (msg : String) (c : Bool) (hname : MatchString (p.ByName "username") = true)
    (hB : GetUserTokenOnly s (p.ByName "username") = .ok B) (hne : token ≠ B)
    (hban : CheckBan s B token = .ok false) (hfol : CheckFollow s token B = .ok c) :
    handleUserAction s w r p token action rev msg =
      if c = rev then
        if rev = true then (ReturnForbiddenMessage (w.setContentType "application/json"), s)
        else (ReturnConflictMessage (w.setContentType "application/json"), s)
      else
        match action s token B with
        | .error err =>
          (ReturnInternalServerError (w.setContentType "application/json") (some err), s)
        | .ok s1 =>
          if rev = true then ((w.setContentType "application/json").WriteHeader StatusNoContent, s1)
          else (ReturnCreatedMessage (w.setContentType "application/json"), s1) := by
  unfold handleUserAction
  simp only [CheckUsernameRegex_accept _ _ hname, Bool.not_true, Bool.false_eq_true, if_false,
    hB, hne, hban, hfol, beq_iff_eq]

theorem handleUserAction_self (s : Store) (w : ResponseWriter) (r : Request) (p : Params)
    (token : Int) (action : Store → Int → Int → Except GoError Store) (rev : Bool)
    (msg : String) (hname : MatchString (p.ByName "username") = true)
    (hB : GetUserTokenOnly s (p.ByName "username") = .ok token) :
    handleUserAction s w r p token action rev msg =
      (ReturnForbiddenMessage (w.setContentType "application/json"), s) := by
  unfold handleUserAction
  simp only [CheckUsernameRegex_accept _ _ hname, Bool.not_true, Bool.false_eq_true, if_false,
    hB, beq_self_eq_true, if_true]

theorem handleUserAction_banned (s : Store) (w : ResponseWriter) (r : Request) (p : Params)
    (token B : Int) (action : Store → Int → Int → Except GoError Store) (rev : Bool)
    (msg : String) (hname : MatchString (p.ByName "username") = true)
    (hB : GetUserTokenOnly s (p.ByName "username") = .ok B)
    (hban : CheckBan s B token = .ok true) :
    handleUserAction s w r p token action rev msg =
      (ReturnForbiddenMessage (w.setContentType "application/json"), s) := by
  unfold handleUserAction
  simp only [CheckUsernameRegex_accept _ _ hname, Bool.not_true, Bool.false_eq_true, if_false,
    hB, hban, if_true]
  split <;> rfl

/-- The database after `handleUserAction` is the one before, or the one `action` returned for
the caller and some target. -/
theorem handleUserAction_store (s : Store) (w : ResponseWriter) (r : Request) (p : Params)
    (token : Int) (action : Store → Int → Int → Except GoError Store) (rev : Bool)
    (msg : String) :
    (handleUserAction s w r p token action rev msg).2 = s ∨
      ∃ B, action s token B = .ok (handleUserAction s w r p token action rev msg).2 := by
  unfold handleUserAction
  simp only []
  split
  · exact Or.inl rfl
  · split
    · exact Or.inl rfl
    · rename_i token2 _
      split
      · exact Or.inl rfl
      · split
        · exact Or.inl rfl
        · split
          · exact Or.inl rfl
          · split
            · exact Or.inl rfl
            · split
              · split <;> exact Or.inl rfl
              · split
                · exact Or.inl rfl
                · rename_i s1 hs1
                  refine Or.inr ⟨token2, ?_⟩
                  rw [hs1]
                  split <;> rfl

theorem status_ReturnForbiddenMessage (w : ResponseWriter) (hw : w.status = none) :
    (ReturnForbiddenMessage (w.setContentType "application/json")).status
      = some StatusForbidden := by
  simp [ReturnForbiddenMessage, hw]

theorem status_ReturnConflictMessage (w : ResponseWriter) (hw : w.status = none) :
    (ReturnConflictMessage (w.setContentType "application/json")).status
      = some StatusConflict := by
  simp [ReturnConflictMessage, hw]

theorem status_ReturnCreatedMessage (w : ResponseWriter) (hw : w.status = none) :
    (ReturnCreatedMessage (w.setContentType "application/json")).status
      = some StatusCreated := by
  simp [ReturnCreatedMessage, hw]

theorem status_ReturnInternalServerError (w : ResponseWriter) (e : GoError)
    (hw : w.status = none) :
    (ReturnInternalServerError (w.setContentType "application/json") (some e)).status
      = some StatusInternalServerError := by
  simp [ReturnInternalServerError, hw]

theorem status_NoContent (w : ResponseWriter) (hw : w.status = none) :
    ((w.setContentType "application/json").WriteHeader StatusNoContent).status
      = some StatusNoContent := by
  simp [hw]

/-- When the follow relation differs from `rev`, the action is invoked and the answer is 500
or the success status of the direction. -/
theorem handleUserAction_invokes (s : Store) (w : ResponseWriter) (r : Request) (p : Params)
    (token B : Int) (action : Store → Int → Int → Except GoError Store) (rev : Bool)
    (msg : String) (hw : w.status = none)
    (hname : MatchString (p.ByName "username") = true)
    (hB : GetUserTokenOnly s (p.ByName "username") = .ok B) (hne : token ≠ B)
    (hban : CheckBan s B token = .ok false) (hfol : CheckFollow s token B = .ok (!rev)) :
    (handleUserAction s w r p token action rev msg).1.status
        = some StatusInternalServerError ∨
      (handleUserAction s w r p token action rev msg).1.status
        = some (if rev = true then StatusNoContent else StatusCreated) := by
  rw [handleUserAction_resolved s w r p token B action rev msg (!rev) hname hB hne hban hfol]
  have hc : ¬ ((!rev) = rev) := by cases rev <;> simp
  simp only [hc, if_false]
  cases action s token B with
  | error e => exact Or.inl (status_ReturnInternalServerError w e hw)
  | ok s1 =>
    right
    cases rev
    · exact status_ReturnCreatedMessage w hw
    · exact status_NoContent w hw

/-- C1 fails on the code. For a valid target name resolving to another user B who has not
banned the caller: when the caller already follows B a follow request is not answered 409
(AddFollow is invoked; the answer is 500, or 201), and when the caller does not follow B an
unfollow request is not answered 403 (RemoveFollow is invoked; the answer is 204, or 500). -/
theorem followUser_existing_relation_not_rejected (targetArg : Int → String) (s : Store)
    (w : ResponseWriter) (r : Request) (p : Params) (token B : Int) (hw : w.status = none)
    (hname : (CheckUsernameRegex w (p.ByName "username")).1 = true)
    (hB : GetUserTokenOnly s (p.ByName "username") = .ok B) (hne : B ≠ token)
    (hban : CheckBan s B token = .ok false) :
    (CheckFollow s token B = .ok true →
      (followUser targetArg s w r p token).1.status ≠ some StatusConflict ∧
      ((followUser targetArg s w r p token).1.status = some StatusInternalServerError ∨
        (followUser targetArg s w r p token).1.status = some StatusCreated)) ∧
    (CheckFollow s token B = .ok false →
      (unfollowUser targetArg s w r p token).1.status ≠ some StatusForbidden ∧
      ((unfollowUser targetArg s w r p token).1.status = some StatusInternalServerError ∨
        (unfollowUser targetArg s w r p token).1.status = some StatusNoContent)) := by
  rw [CheckUsernameRegex_fst] at hname
  constructor
  · intro hfol
    have h := handleUserAction_invokes s w r p token B
      (fun st a b => AddFollow st a (targetArg b)) false "Already following" hw hname hB
      (Ne.symm hne) hban hfol
    refine ⟨?_, h⟩
    rcases h with h | h <;> (unfold followUser; rw [h]; decide)
  · intro hfol
    have h := handleUserAction_invokes s w r p token B
      (fun st a b => RemoveFollow st a (targetArg b)) true "Not following" hw hname hB
      (Ne.symm hne) hban hfol
    refine ⟨?_, h⟩
    rcases h with h | h <;> (unfold unfollowUser; rw [h]; decide)

/-- C1 at the failing inputs: user 1 already follows user 2 and asks to follow `bob_1`: the
answer is 500, not 409; user 1 does not follow user 2 and asks to unfollow `bob_1`: the
answer is 204, not 403 (here the primitive is handed the name `bob_1`). -/
theorem followUser_existing_relation_not_rejected_witness :
    (CheckFollow aliceFollowsBob 1 2 = .ok true ∧
      (followUser toBob aliceFollowsBob ResponseWriter.fresh (exampleRequest "Bearer 1" "")
        (socialParams "1" "bob_1") 1).1.status ≠ some StatusConflict ∧
      (followUser toBob aliceFollowsBob ResponseWriter.fresh (exampleRequest "Bearer 1" "")
        (socialParams "1" "bob_1") 1).1.status = some StatusInternalServerError) ∧
    (CheckFollow twoUsers 1 2 = .ok false ∧
      (unfollowUser toBob twoUsers ResponseWriter.fresh (exampleRequest "Bearer 1" "")
        (socialParams "1" "bob_1") 1).1.status ≠ some StatusForbidden ∧
      (unfollowUser toBob twoUsers ResponseWriter.fresh (exampleRequest "Bearer 1" "")
        (socialParams "1" "bob_1") 1).1.status = some StatusNoContent) :=
  ⟨⟨by decide,
    ((followUser_existing_relation_not_rejected toBob aliceFollowsBob ResponseWriter.fresh
      (exampleRequest "Bearer 1" "") (socialParams "1" "bob_1") 1 2 rfl (by decide)
      (by decide) (by decide) (by decide)).1 (by decide)).1,
    by decide⟩,
   ⟨by decide,
    ((followUser_existing_relation_not_rejected toBob twoUsers ResponseWriter.fresh
      (exampleRequest "Bearer 1" "") (socialParams "1" "bob_1") 1 2 rfl (by decide)
      (by decide) (by decide) (by decide)).2 (by decide)).1,
    by decide⟩⟩

/-- When the follow relation equals `rev`, the request is rejected before `action` is
looked at: whatever the action, the answer is 403 for a removal and 409 for an addition, and
the database is handed back as it was. -/
theorem handleUserAction_rejects (s : Store) (w : ResponseWriter) (r : Request) (p : Params)
    (token B : Int) (action : Store → Int → Int → Except GoError Store) (rev : Bool)
    (msg : String) (hname : MatchString (p.ByName "username") = true)
    (hB : GetUserTokenOnly s (p.ByName "username") = .ok B) (hne : token ≠ B)
    (hban : CheckBan s B token = .ok false) (hfol : CheckFollow s token B = .ok rev) :
    handleUserAction s w r p token action rev msg =
      (if rev = true then ReturnForbiddenMessage (w.setContentType "application/json")
        else ReturnConflictMessage (w.setContentType "application/json"), s) := by
  rw [handleUserAction_resolved s w r p token B action rev msg rev hname hB hne hban hfol]
  cases rev <;> simp

/-- C2 fails on the code. For a valid target name resolving to another user B who has not
banned the caller: when the caller does not yet follow B, a follow request is answered 409,
no mutation is invoked (the outcome is the same for every action handed to
handleUserAction) and the database is unchanged, so the caller still does not follow B; when
the caller follows B, an unfollow request is answered 403 and the caller still follows B. -/
theorem followUser_new_relation_rejected (targetArg : Int → String) (s : Store)
    (w : ResponseWriter) (r : Request) (p : Params) (token B : Int) (hw : w.status = none)
    (hname : (CheckUsernameRegex w (p.ByName "username")).1 = true)
    (hB : GetUserTokenOnly s (p.ByName "username") = .ok B) (hne : B ≠ token)
    (hban : CheckBan s B token = .ok false) :
    (CheckFollow s token B = .ok false →
      (followUser targetArg s w r p token).1.status = some StatusConflict ∧
      (followUser targetArg s w r p token).2 = s ∧
      CheckFollow (followUser targetArg s w r p token).2 token B = .ok false ∧
      ∀ action msg, handleUserAction s w r p token action false msg =
        (ReturnConflictMessage (w.setContentType "application/json"), s)) ∧
    (CheckFollow s token B = .ok true →
      (unfollowUser targetArg s w r p token).1.status = some StatusForbidden ∧
      (unfollowUser targetArg s w r p token).2 = s ∧
      CheckFollow (unfollowUser targetArg s w r p token).2 token B = .ok true ∧
      ∀ action msg, handleUserAction s w r p token action true msg =
        (ReturnForbiddenMessage (w.setContentType "application/json"), s)) := by
  rw [CheckUsernameRegex_fst] at hname
  constructor
  · intro hfol
    have h := fun action msg => handleUserAction_rejects s w r p token B action false msg
      hname hB (Ne.symm hne) hban hfol
    simp only [Bool.false_eq_true, if_false] at h
    have hf : followUser targetArg s w r p token =
        (ReturnConflictMessage (w.setContentType "application/json"), s) := h _ _
    rw [hf]
    exact ⟨status_ReturnConflictMessage w hw, rfl, hfol, h⟩
  · intro hfol
    have h := fun action msg => handleUserAction_rejects s w r p token B action true msg
      hname hB (Ne.symm hne) hban hfol
    simp only [if_true] at h
    have hf : unfollowUser targetArg s w r p token =
        (ReturnForbiddenMessage (w.setContentType "application/json"), s) := h _ _
    rw [hf]
    exact ⟨status_ReturnForbiddenMessage w hw, rfl, hfol, h⟩

/-- C2 at the failing inputs: user 1 does not follow user 2 and asks to follow `bob_1`: the
answer is 409 and no follow pair is stored; user 1 follows user 2 and asks to unfollow
`bob_1`: the answer is 403 and the follow pair stays. -/
theorem followUser_new_relation_rejected_witness :
    (CheckFollow twoUsers 1 2 = .ok false ∧
      (followUser toBob twoUsers ResponseWriter.fresh (exampleRequest "Bearer 1" "")
        (socialParams "1" "bob_1") 1).1.status = some StatusConflict ∧
      (followUser toBob twoUsers ResponseWriter.fresh (exampleRequest "Bearer 1" "")
        (socialParams "1" "bob_1") 1).2 = twoUsers) ∧
    (CheckFollow aliceFollowsBob 1 2 = .ok true ∧
      (unfollowUser toBob aliceFollowsBob ResponseWriter.fresh (exampleRequest "Bearer 1" "")
        (socialParams "1" "bob_1") 1).1.status = some StatusForbidden ∧
      (unfollowUser toBob aliceFollowsBob ResponseWriter.fresh (exampleRequest "Bearer 1" "")
        (socialParams "1" "bob_1") 1).2 = aliceFollowsBob) :=
  have h1 := (followUser_new_relation_rejected toBob twoUsers ResponseWriter.fresh
    (exampleRequest "Bearer 1" "") (socialParams "1" "bob_1") 1 2 rfl (by decide) (by decide)
    (by decide) (by decide)).1 (by decide)
  have h2 := (followUser_new_relation_rejected toBob aliceFollowsBob ResponseWriter.fresh
    (exampleRequest "Bearer 1" "") (socialParams "1" "bob_1") 1 2 rfl (by decide) (by decide)
    (by decide) (by decide)).2 (by decide)
  ⟨⟨by decide, h1.1, h1.2.1⟩, ⟨by decide, h2.1, h2.2.1⟩⟩

/-- C3 fails on the code. For a valid target name resolving to another user B who has not
banned the caller, ban and unban are decided by the follow relation and not by the ban
relation: whatever the caller's ban on B, a ban request is answered 409 with the database
unchanged when the caller does not follow B and is passed on to AddBan when the caller
follows B; an unban request is answered 403 with the database unchanged when the caller
follows B and is passed on to RemoveBan when the caller does not follow B. -/
theorem banUser_decided_by_follow (targetArg : Int → String) (s : Store)
    (w : ResponseWriter) (r : Request) (p : Params) (token B : Int) (hw : w.status = none)
    (hname : (CheckUsernameRegex w (p.ByName "username")).1 = true)
    (hB : GetUserTokenOnly s (p.ByName "username") = .ok B) (hne : B ≠ token)
    (hban : CheckBan s B token = .ok false) :
    (CheckFollow s token B = .ok false →
      (banUser targetArg s w r p token).1.status = some StatusConflict ∧
      (banUser targetArg s w r p token).2 = s ∧
      ((unbanUser targetArg s w r p token).1.status = some StatusInternalServerError ∨
        (unbanUser targetArg s w r p token).1.status = some StatusNoContent)) ∧
    (CheckFollow s token B = .ok true →
      (unbanUser targetArg s w r p token).1.status = some StatusForbidden ∧
      (unbanUser targetArg s w r p token).2 = s ∧
      ((banUser targetArg s w r p token).1.status = some StatusInternalServerError ∨
        (banUser targetArg s w r p token).1.status = some StatusCreated)) := by
  rw [CheckUsernameRegex_fst] at hname
  constructor
  · intro hfol
    have hf : banUser targetArg s w r p token =
        (ReturnConflictMessage (w.setContentType "application/json"), s) := by
      have h := handleUserAction_rejects s w r p token B
        (fun st a b => AddBan st a (targetArg b)) false "Already banned" hname hB
        (Ne.symm hne) hban hfol
      simpa using h
    rw [hf]
    exact ⟨status_ReturnConflictMessage w hw, rfl,
      handleUserAction_invokes s w r p token B (fun st a b => RemoveBan st a (targetArg b))
        true "Not banned" hw hname hB (Ne.symm hne) hban hfol⟩
  · intro hfol
    have hf : unbanUser targetArg s w r p token =
        (ReturnForbiddenMessage (w.setContentType "application/json"), s) := by
      have h := handleUserAction_rejects s w r p token B
        (fun st a b => RemoveBan st a (targetArg b)) true "Not banned" hname hB
        (Ne.symm hne) hban hfol
      simpa using h
    rw [hf]
    exact ⟨status_ReturnForbiddenMessage w hw, rfl,
      handleUserAction_invokes s w r p token B (fun st a b => AddBan st a (targetArg b))
        false "Already banned" hw hname hB (Ne.symm hne) hban hfol⟩

/-- C3 at the failing inputs: user 1 has not banned user 2 and does not follow them, and the
ban request is answered 409 with no ban stored; user 1 has banned user 2 and follows them,
and the unban request is answered 403 with the ban still stored. -/
theorem banUser_decided_by_follow_witness :
    (CheckBan twoUsers 1 2 = .ok false ∧ CheckFollow twoUsers 1 2 = .ok false ∧
      (banUser toBob twoUsers ResponseWriter.fresh (exampleRequest "Bearer 1" "")
        (socialParams "1" "bob_1") 1).1.status = some StatusConflict ∧
      (banUser toBob twoUsers ResponseWriter.fresh (exampleRequest "Bearer 1" "")
        (socialParams "1" "bob_1") 1).2 = twoUsers) ∧
    (CheckBan aliceFollowsAndBannedBob 1 2 = .ok true ∧
      CheckFollow aliceFollowsAndBannedBob 1 2 = .ok true ∧
      (unbanUser toBob aliceFollowsAndBannedBob ResponseWriter.fresh
        (exampleRequest "Bearer 1" "") (socialParams "1" "bob_1") 1).1.status
          = some StatusForbidden ∧
      (unbanUser toBob aliceFollowsAndBannedBob ResponseWriter.fresh
        (exampleRequest "Bearer 1" "") (socialParams "1" "bob_1") 1).2
          = aliceFollowsAndBannedBob) :=
  have h1 := (banUser_decided_by_follow toBob twoUsers ResponseWriter.fresh
    (exampleRequest "Bearer 1" "") (socialParams "1" "bob_1") 1 2 rfl (by decide) (by decide)
    (by decide) (by decide)).1 (by decide)
  have h2 := (banUser_decided_by_follow toBob aliceFollowsAndBannedBob ResponseWriter.fresh
    (exampleRequest "Bearer 1" "") (socialParams "1" "bob_1") 1 2 rfl (by decide) (by decide)
    (by decide) (by decide)).2 (by decide)
  ⟨⟨by decide, by decide, h1.1, h1.2.1⟩, ⟨by decide, by decide, h2.1, h2.2.1⟩⟩

/-- C10. For each of follow, unfollow, ban and unban: if the target name is valid and
resolves to a user B other than the caller, and B has banned the caller (CheckBan in the
(target, caller) direction), the request is answered 403 and the database, so the follow and
ban relations, is left unchanged. -/
theorem handleUserAction_banned_caller (targetArg : Int → String) (s : Store)
    (w : ResponseWriter) (r : Request) (p : Params) (token B : Int) (hw : w.status = none)
    (hname : (CheckUsernameRegex w (p.ByName "username")).1 = true)
    (hB : GetUserTokenOnly s (p.ByName "username") = .ok B) (_hne : B ≠ token)
    (hban : CheckBan s B token = .ok true) :
    ∀ a : SocialAction,
      (a.handler targetArg s w r p token).1.status = some StatusForbidden ∧
      (a.handler targetArg s w r p token).2 = s ∧
      (a.handler targetArg s w r p token).2.follow = s.follow ∧
      (a.handler targetArg s w r p token).2.ban = s.ban := by
  rw [CheckUsernameRegex_fst] at hname
  intro a
  have h : a.handler targetArg s w r p token =
      (ReturnForbiddenMessage (w.setContentType "application/json"), s) := by
    cases a
    · exact handleUserAction_banned s w r p token B (fun st a b => AddFollow st a (targetArg b))
        false "Already following" hname hB hban
    · exact handleUserAction_banned s w r p token B
        (fun st a b => RemoveFollow st a (targetArg b)) true "Not following" hname hB hban
    · exact handleUserAction_banned s w r p token B (fun st a b => AddBan st a (targetArg b))
        false "Already banned" hname hB hban
    · exact handleUserAction_banned s w r p token B (fun st a b => RemoveBan st a (targetArg b))
        true "Not banned" hname hB hban
  rw [h]
  exact ⟨status_ReturnForbiddenMessage w hw, rfl, rfl, rfl⟩

/-- C10 at a concrete request: user 2 has banned user 1, and the four requests of user 1 on
`bob_1` are answered 403 with the database unchanged. -/
theorem handleUserAction_banned_caller_witness :
    (ResponseWriter.fresh.status = none ∧
      GetUserTokenOnly bobBannedAlice ((socialParams "1" "bob_1").ByName "username") = .ok 2 ∧
      CheckBan bobBannedAlice 2 1 = .ok true) ∧
    ∀ a : SocialAction,
      (a.handler toString bobBannedAlice ResponseWriter.fresh (exampleRequest "Bearer 1" "")
        (socialParams "1" "bob_1") 1).1.status = some StatusForbidden ∧
      (a.handler toString bobBannedAlice ResponseWriter.fresh (exampleRequest "Bearer 1" "")
        (socialParams "1" "bob_1") 1).2 = bobBannedAlice :=
  ⟨⟨rfl, by decide, by decide⟩, fun a =>
    have h := handleUserAction_banned_caller toString bobBannedAlice ResponseWriter.fresh
      (exampleRequest "Bearer 1" "") (socialParams "1" "bob_1") 1 2 rfl (by decide)
      (by decide) (by decide) (by decide) a
    ⟨h.1, h.2.1⟩⟩

/-! ## C9: irreflexivity of follow and ban -/

theorem AddFollow_irreflexive (s s1 : Store) (a : Int) (name : String)
    (h : AddFollow s a name = .ok s1) (hs : Irreflexive s) : Irreflexive s1 := by
  unfold AddFollow at h
  split at h
  · cases h
  · rename_i u _
    simp only [] at h
    split at h
    · cases h
    · rename_i hneq
      split at h
      · cases h
      · cases h
        refine ⟨?_, hs.2⟩
        intro f hf
        simp only [List.mem_append, List.mem_singleton] at hf
        rcases hf with hf | rfl
        · exact hs.1 f hf
        · simpa using hneq

theorem RemoveFollow_irreflexive (s s1 : Store) (a : Int) (name : String)
    (h : RemoveFollow s a name = .ok s1) (hs : Irreflexive s) : Irreflexive s1 := by
  unfold RemoveFollow at h
  split at h
  · cases h
  · cases h
    exact ⟨fun f hf => hs.1 f (List.mem_filter.1 hf).1, hs.2⟩

theorem AddBan_irreflexive (s s1 : Store) (a : Int) (name : String)
    (h : AddBan s a name = .ok s1) (hs : Irreflexive s) : Irreflexive s1 := by
  unfold AddBan at h
  split at h
  · cases h
  · rename_i u _
    simp only [] at h
    split at h
    · cases h
    · rename_i hneq
      split at h
      · cases h
      · cases h
        refine ⟨hs.1, ?_⟩
        intro b hb
        simp only [List.mem_append, List.mem_singleton] at hb
        rcases hb with hb | rfl
        · exact hs.2 b hb
        · simpa using hneq

theorem RemoveBan_irreflexive (s s1 : Store) (a : Int) (name : String)
    (h : RemoveBan s a name = .ok s1) (hs : Irreflexive s) : Irreflexive s1 := by
  unfold RemoveBan at h
  split at h
  · cases h
  · cases h
    exact ⟨hs.1, fun b hb => hs.2 b (List.mem_filter.1 hb).1⟩

theorem handleUserAction_irreflexive (s : Store) (w : ResponseWriter) (r : Request)
    (p : Params) (token : Int) (action : Store → Int → Int → Except GoError Store)
    (rev : Bool) (msg : String)
    (hact : ∀ a b s1, action s a b = .ok s1 → Irreflexive s → Irreflexive s1)
    (hs : Irreflexive s) :
    Irreflexive (handleUserAction s w r p token action rev msg).2 := by
  rcases handleUserAction_store s w r p token action rev msg with h | ⟨B, h⟩
  · rw [h]; exact hs
  · exact hact token B _ h hs

theorem serveSocial_irreflexive (targetArg : Int → String) (s : Store) (q : SocialRequest)
    (hs : Irreflexive s) : Irreflexive (serveSocial targetArg s q).2 := by
  unfold serveSocial
  cases q.action
  · exact handleUserAction_irreflexive s q.w q.r q.p q.token
      (fun st a b => AddFollow st a (targetArg b)) false "Already following"
      (fun a b s1 h => AddFollow_irreflexive s s1 a (targetArg b) h) hs
  · exact handleUserAction_irreflexive s q.w q.r q.p q.token
      (fun st a b => RemoveFollow st a (targetArg b)) true "Not following"
      (fun a b s1 h => RemoveFollow_irreflexive s s1 a (targetArg b) h) hs
  · exact handleUserAction_irreflexive s q.w q.r q.p q.token
      (fun st a b => AddBan st a (targetArg b)) false "Already banned"
      (fun a b s1 h => AddBan_irreflexive s s1 a (targetArg b) h) hs
  · exact handleUserAction_irreflexive s q.w q.r q.p q.token
      (fun st a b => RemoveBan st a (targetArg b)) true "Not banned"
      (fun a b s1 h => RemoveBan_irreflexive s s1 a (targetArg b) h) hs

theorem runSocial_irreflexive (targetArg : Int → String) (qs : List SocialRequest) :
    ∀ s : Store, Irreflexive s → Irreflexive (runSocial targetArg s qs) := by
  induction qs with
  | nil => intro s hs; exact hs
  | cons q qs ih =>
    intro s hs
    exact ih _ (serveSocial_irreflexive targetArg s q hs)

theorem irreflexive_of_empty (s : Store) (hf : s.follow = []) (hb : s.ban = []) :
    Irreflexive s := by
  constructor
  · intro f h; rw [hf] at h; cases h
  · intro b h; rw [hb] at h; cases h

theorem CheckFollow_self (s : Store) (hs : Irreflexive s) (A : Int) :
    CheckFollow s A A = .ok false := by
  unfold CheckFollow
  have : s.follow.filter (fun f => f.following == A && f.followed == A) = [] := by
    rw [List.filter_eq_nil_iff]
    intro f hf
    have := hs.1 f hf
    simp only [Bool.and_eq_true, beq_iff_eq, not_and]
    intro h1 h2
    exact this (h1.trans h2.symm)
  simp [this]

theorem CheckBan_self (s : Store) (hs : Irreflexive s) (A : Int) :
    CheckBan s A A = .ok false := by
  unfold CheckBan
  have : s.ban.filter (fun b => b.banning == A && b.banned == A) = [] := by
    rw [List.filter_eq_nil_iff]
    intro b hb
    have := hs.2 b hb
    simp only [Bool.and_eq_true, beq_iff_eq, not_and]
    intro h1 h2
    exact this (h1.trans h2.symm)
  simp [this]

/-- C9. Irreflexivity is an invariant of the store under the handlers: starting from a store
with no follow and no ban pairs (and, more generally, from any store whose follow and ban
rows are irreflexive), after any sequence of follow, unfollow, ban and unban requests
CheckFollow(A,A) and CheckBan(A,A) are false for every identity A; and a follow or ban
request whose valid target name resolves to the caller's own identity is answered 403 and
leaves the database unchanged. -/
theorem social_irreflexivity (targetArg : Int → String) :
    (∀ (s : Store) (qs : List SocialRequest), s.follow = [] → s.ban = [] → ∀ A : Int,
      CheckFollow (runSocial targetArg s qs) A A = .ok false ∧
      CheckBan (runSocial targetArg s qs) A A = .ok false) ∧
    (∀ (s : Store) (qs : List SocialRequest), Irreflexive s →
      Irreflexive (runSocial targetArg s qs) ∧ ∀ A : Int,
        CheckFollow (runSocial targetArg s qs) A A = .ok false ∧
        CheckBan (runSocial targetArg s qs) A A = .ok false) ∧
    (∀ (s : Store) (w : ResponseWriter) (r : Request) (p : Params) (token : Int),
      w.status = none → (CheckUsernameRegex w (p.ByName "username")).1 = true →
      GetUserTokenOnly s (p.ByName "username") = .ok token →
        (followUser targetArg s w r p token).1.status = some StatusForbidden ∧
        (followUser targetArg s w r p token).2 = s ∧
        (banUser targetArg s w r p token).1.status = some StatusForbidden ∧
        (banUser targetArg s w r p token).2 = s) := by
  have gen : ∀ (s : Store) (qs : List SocialRequest), Irreflexive s →
      Irreflexive (runSocial targetArg s qs) ∧ ∀ A : Int,
        CheckFollow (runSocial targetArg s qs) A A = .ok false ∧
        CheckBan (runSocial targetArg s qs) A A = .ok false := by
    intro s qs hs
    have h := runSocial_irreflexive targetArg qs s hs
    exact ⟨h, fun A => ⟨CheckFollow_self _ h A, CheckBan_self _ h A⟩⟩
  refine ⟨fun s qs hf hb A => (gen s qs (irreflexive_of_empty s hf hb)).2 A, gen, ?_⟩
  intro s w r p token hw hname hB
  rw [CheckUsernameRegex_fst] at hname
  have h1 : followUser targetArg s w r p token =
      (ReturnForbiddenMessage (w.setContentType "application/json"), s) :=
    handleUserAction_self s w r p token (fun st a b => AddFollow st a (targetArg b)) false
      "Already following" hname hB
  have h2 : banUser targetArg s w r p token =
      (ReturnForbiddenMessage (w.setContentType "application/json"), s) :=
    handleUserAction_self s w r p token (fun st a b => AddBan st a (targetArg b)) false
      "Already banned" hname hB
  rw [h1, h2]
  exact ⟨status_ReturnForbiddenMessage w hw, rfl, status_ReturnForbiddenMessage w hw, rfl⟩

/-- C9 at concrete requests: after four requests of user 1 on a database with no follow and
no ban rows nobody follows or has banned themselves, and user 1 asking to follow or ban
`alice`, their own name, is answered 403 with the database unchanged. -/
theorem social_irreflexivity_witness :
    (twoUsers.follow = [] ∧ twoUsers.ban = [] ∧
      CheckFollow (runSocial toBob twoUsers exampleSession) 1 1 = .ok false ∧
      CheckBan (runSocial toBob twoUsers exampleSession) 1 1 = .ok false) ∧
    (GetUserTokenOnly twoUsers ((socialParams "1" "alice").ByName "username") = .ok 1 ∧
      (followUser toBob twoUsers ResponseWriter.fresh (exampleRequest "Bearer 1" "")
        (socialParams "1" "alice") 1).1.status = some StatusForbidden ∧
      (banUser toBob twoUsers ResponseWriter.fresh (exampleRequest "Bearer 1" "")
        (socialParams "1" "alice") 1).2 = twoUsers) :=
  have h := (social_irreflexivity toBob).2.2 twoUsers ResponseWriter.fresh
    (exampleRequest "Bearer 1" "") (socialParams "1" "alice") 1 rfl (by decide) (by decide)
  ⟨⟨rfl, rfl, (social_irreflexivity toBob).1 twoUsers exampleSession rfl rfl 1⟩,
   ⟨by decide, h.1, h.2.2.2⟩⟩

/-! ## C11, C12: like and unlike -/

theorem status_ReturnNotFoundError (w : ResponseWriter) (hw : w.status = none) :
    (ReturnNotFoundError (w.setContentType "application/json")).status
      = some StatusNotFound := by
  simp [ReturnNotFoundError, hw]

theorem status_ReturnBadRequestCustomMessage (w : ResponseWriter) (hw : w.status = none) :
    (ReturnBadRequestCustomMessage (w.setContentType "application/json")).status
      = some StatusBadRequest := by
  simp [ReturnBadRequestCustomMessage, hw]

/-- Past the checks on the path, the photo, its owner and the ban, likePhoto is decided by
the like lookup and the insert. -/
theorem likePhoto_resolved (s : Store) (w : ResponseWriter) (r : Request) (p : Params)
    (A B P : Int) (hP : ParseInt (p.ByName "photoId") = .ok P)
    (hB : ParseInt (p.ByName "userId") = .ok B)
    (hex : CheckPhotoExistence s P = .ok true) (hown : (GetPhotoOwner s P).1 = B)
    (hban : CheckBan s B A = .ok false) :
    likePhoto s w r p A =
      if boolOf (CheckLike s A P) = true then
        (ReturnConflictMessage (w.setContentType "application/json"), s)
      else
        match LikePhoto s A P with
        | .error err =>
          (ReturnInternalServerError (w.setContentType "application/json") (some err), s)
        | .ok s1 => (ReturnCreatedMessage (w.setContentType "application/json"), s1) := by
  unfold likePhoto
  simp only [hP, hB, hex, hown, hban, boolOf, Bool.not_true, Bool.false_eq_true, if_false,
    bne_self_eq_false, Photos.handleError]

/-- Past the checks on the path, the photo, its owner and the ban, unlikePhoto is decided by
the like lookup and the delete. -/
theorem unlikePhoto_resolved (s : Store) (w : ResponseWriter) (r : Request) (p : Params)
    (A B P : Int) (hP : ParseInt (p.ByName "photoId") = .ok P)
    (hB : ParseInt (p.ByName "userId") = .ok B)
    (hex : CheckPhotoExistence s P = .ok true) (hown : (GetPhotoOwner s P).1 = B)
    (hban : CheckBan s B A = .ok false) :
    unlikePhoto s w r p A =
      if boolOf (CheckLike s A P) = true then
        match UnlikePhoto s A P with
        | .error err =>
          (ReturnInternalServerError (w.setContentType "application/json") (some err), s)
        | .ok s1 => ((w.setContentType "application/json").WriteHeader StatusNoContent, s1)
      else (ReturnConflictMessage (w.setContentType "application/json"), s) := by
  unfold unlikePhoto
  simp only [hP, hB, hex, hown, hban, boolOf, Bool.not_true, Bool.false_eq_true, if_false,
    bne_self_eq_false, Photos.handleError]
  split
  · rename_i h
    have h2 : boolOf (CheckLike s A P) = false := by simpa using h
    simp only [boolOf] at h2
    simp [h2]
  · rename_i h
    have h2 : boolOf (CheckLike s A P) = true := by simpa using h
    simp only [boolOf] at h2
    simp only [h2, if_true]

/-- Every statement on the table `like` fails, on every database. -/
theorem like_statements_fail (s : Store) (A P : Int) :
    CheckLike s A P = .error (.noSuchTable "like") ∧
    LikePhoto s A P = .error (.noSuchTable "like") ∧
    UnlikePhoto s A P = .error (.noSuchTable "like") ∧
    GetNumberOfLikes s P = .error (.noSuchTable "like") :=
  ⟨rfl, rfl, rfl, rfl⟩

/-- C11, as the code has it. For a photo P that exists, whose owner is the path owner B and
has not banned the caller A, on every database: the requests like, like, unlike, unlike by A
on P are answered 500, 500, 409, 409 in that order, not 201, 409, 204, 409. The like lookup
fails on the missing table `like` and counts as "not liked", so each like request goes on to
the insert, which fails with `no such table: like`, and each unlike request is refused as a
conflict. Every one of the four requests leaves the database as it was, and the lookup of the
like (A,P) still fails after the first request: no like is recorded. -/
theorem like_unlike_sequence_no_table (s : Store) (p : Params) (A B P : Int)
    (w1 w2 w3 w4 : ResponseWriter) (r1 r2 r3 r4 : Request)
    (hw1 : w1.status = none) (hw2 : w2.status = none) (hw3 : w3.status = none)
    (hw4 : w4.status = none)
    (hP : ParseInt (p.ByName "photoId") = .ok P) (hB : ParseInt (p.ByName "userId") = .ok B)
    (hex : CheckPhotoExistence s P = .ok true) (hown : (GetPhotoOwner s P).1 = B)
    (hban : CheckBan s B A = .ok false) :
    let o1 := likePhoto s w1 r1 p A
    let o2 := likePhoto o1.2 w2 r2 p A
    let o3 := unlikePhoto o2.2 w3 r3 p A
    let o4 := unlikePhoto o3.2 w4 r4 p A
    o1.1.status = some StatusInternalServerError ∧
    o2.1.status = some StatusInternalServerError ∧
    o3.1.status = some StatusConflict ∧ o4.1.status = some StatusConflict ∧
    o1.1.body = w1.body ++ [.message { Message := "Internal Server Error: no such table: like" }] ∧
    o1.2 = s ∧ o2.2 = s ∧ o3.2 = s ∧ o4.2 = s ∧
    CheckLike o1.2 A P = .error (.noSuchTable "like") ∧
    boolOf (CheckLike o1.2 A P) = false := by
  have e1 : ∀ (w : ResponseWriter) (r : Request), likePhoto s w r p A =
      (ReturnInternalServerError (w.setContentType "application/json")
        (some (.noSuchTable "like")), s) := by
    intro w r
    rw [likePhoto_resolved s w r p A B P hP hB hex hown hban]
    simp [boolOf, CheckLike, LikePhoto]
  have e3 : ∀ (w : ResponseWriter) (r : Request), unlikePhoto s w r p A =
      (ReturnConflictMessage (w.setContentType "application/json"), s) := by
    intro w r
    rw [unlikePhoto_resolved s w r p A B P hP hB hex hown hban]
    simp [boolOf, CheckLike]
  simp only [e1, e3]
  refine ⟨status_ReturnInternalServerError w1 _ hw1, status_ReturnInternalServerError w2 _ hw2,
    status_ReturnConflictMessage w3 hw3, status_ReturnConflictMessage w4 hw4, ?_,
    ?_, ?_, ?_, ?_, ?_, ?_⟩
  · simp [ReturnInternalServerError, sendJSONResponse, ResponseWriter.Encode,
      ResponseWriter.Write, ResponseWriter.WriteHeader, ResponseWriter.setContentType, hw1,
      GoError.Error]
  all_goals trivial

/-- C11 at a concrete photo: user 1 likes, likes, unlikes and unlikes photo 100 of user 2, on
the database of two users and one photo; the first like is answered 500 and the first unlike
409. -/
theorem like_unlike_sequence_no_table_witness :
    (CheckPhotoExistence bobPosted 100 = .ok true ∧ (GetPhotoOwner bobPosted 100).1 = 2 ∧
      CheckBan bobPosted 2 1 = .ok false) ∧
    (likePhoto bobPosted ResponseWriter.fresh (exampleRequest "Bearer 1" "")
      (likeParams "2" "100" "1") 1).1.status = some StatusInternalServerError ∧
    (unlikePhoto (likePhoto (likePhoto bobPosted ResponseWriter.fresh
          (exampleRequest "Bearer 1" "") (likeParams "2" "100" "1") 1).2 ResponseWriter.fresh
        (exampleRequest "Bearer 1" "") (likeParams "2" "100" "1") 1).2 ResponseWriter.fresh
      (exampleRequest "Bearer 1" "") (likeParams "2" "100" "1") 1).1.status
      = some StatusConflict ∧
    (likePhoto bobPosted ResponseWriter.fresh (exampleRequest "Bearer 1" "")
      (likeParams "2" "100" "1") 1).2 = bobPosted :=
  have h := like_unlike_sequence_no_table bobPosted (likeParams "2" "100" "1") 1 2 100
    ResponseWriter.fresh ResponseWriter.fresh ResponseWriter.fresh ResponseWriter.fresh
    (exampleRequest "Bearer 1" "") (exampleRequest "Bearer 1" "")
    (exampleRequest "Bearer 1" "") (exampleRequest "Bearer 1" "") rfl rfl rfl rfl
    (by decide) (by decide) (by decide) (by decide) (by decide)
  ⟨⟨by decide, by decide, by decide⟩, h.1, h.2.2.1, h.2.2.2.2.2.1⟩

/-- C12. For a photo P that exists, whose owner is the path owner B, when B has banned the
caller A, a like request by A on P is answered 403 and the database, so the like relation,
is unchanged: the pair (A,P) is stored after the request only if it was before. -/
theorem likePhoto_banned (s : Store) (w : ResponseWriter) (r : Request) (p : Params)
    (A B P : Int) (hw : w.status = none)
    (hP : ParseInt (p.ByName "photoId") = .ok P) (hB : ParseInt (p.ByName "userId") = .ok B)
    (hex : CheckPhotoExistence s P = .ok true) (hown : (GetPhotoOwner s P).1 = B)
    (hban : CheckBan s B A = .ok true) :
    (likePhoto s w r p A).1.status = some StatusForbidden ∧
    (likePhoto s w r p A).2 = s ∧
    (likePhoto s w r p A).2.likes = s.likes ∧
    CheckLike (likePhoto s w r p A).2 A P = CheckLike s A P := by
  have e : likePhoto s w r p A =
      (ReturnForbiddenMessage (w.setContentType "application/json"), s) := by
    unfold likePhoto
    simp only [hP, hB, hex, hown, hban, boolOf, Bool.not_true, Bool.false_eq_true, if_false,
      bne_self_eq_false, if_true]
  rw [e]
  exact ⟨status_ReturnForbiddenMessage w hw, rfl, rfl, rfl⟩

/-- C12 at a concrete photo: user 2 has banned user 1, and the like of user 1 on photo 100
is answered 403 and not stored. -/
theorem likePhoto_banned_witness :
    (CheckPhotoExistence bobPostedAndBannedAlice 100 = .ok true ∧
      (GetPhotoOwner bobPostedAndBannedAlice 100).1 = 2 ∧
      CheckBan bobPostedAndBannedAlice 2 1 = .ok true) ∧
    (likePhoto bobPostedAndBannedAlice ResponseWriter.fresh (exampleRequest "Bearer 1" "")
      (likeParams "2" "100" "1") 1).1.status = some StatusForbidden ∧
    (likePhoto bobPostedAndBannedAlice ResponseWriter.fresh (exampleRequest "Bearer 1" "")
      (likeParams "2" "100" "1") 1).2.likes = [] :=
  have h := likePhoto_banned bobPostedAndBannedAlice ResponseWriter.fresh
    (exampleRequest "Bearer 1" "") (likeParams "2" "100" "1") 1 2 100 rfl (by decide)
    (by decide) (by decide) (by decide) (by decide)
  ⟨⟨by decide, by decide, by decide⟩, h.1, h.2.2.1⟩

/-! ## C16, C17, C18: get photo, upload photo, delete comment -/

theorem find_none_of_absent {α : Type} (l : List α) (q : α → Bool)
    (h : ∀ x ∈ l, q x = false) : l.find? q = none := by
  rw [List.find?_eq_none]
  intro x hx
  simp [h x hx]

/-- C16 fails on the code. For a photo id that no row of `photo` has, getPhoto looks up the
owner first; the lookup fails with `sql.ErrNoRows` and the request is answered 500, before
the existence check that would answer 404. -/
theorem getPhoto_missing_photo (s : Store) (w : ResponseWriter) (r : Request) (p : Params)
    (token P : Int) (hw : w.status = none) (hP : ParseInt (p.ByName "photoId") = .ok P)
    (hmiss : ∀ ph ∈ s.photo, ph.id ≠ P) :
    CheckPhotoExistence s P = .ok false ∧
    (getPhoto s w r p token).1.status = some StatusInternalServerError ∧
    (getPhoto s w r p token).1.status ≠ some StatusNotFound ∧
    (getPhoto s w r p token).2 = s := by
  have hfind : s.photo.find? (fun ph => ph.id == P) = none :=
    find_none_of_absent _ _ (fun ph h => by simpa using hmiss ph h)
  have hfil : s.photo.filter (fun ph => ph.id == P) = [] := by
    rw [List.filter_eq_nil_iff]
    intro ph h
    simpa using hmiss ph h
  have e : getPhoto s w r p token =
      (ReturnInternalServerError (w.setContentType "application/json") (some .errNoRows),
        s) := by
    unfold getPhoto
    simp [hP, GetPhotoOwner, hfind, Photos.handleError]
  refine ⟨by simp [CheckPhotoExistence, hfil], ?_, ?_, by rw [e]⟩
  · rw [e]; exact status_ReturnInternalServerError w _ hw
  · rw [e, status_ReturnInternalServerError w _ hw]; decide

/-- C16 at the failing input: user 1 asks for photo 999, which does not exist, and is
answered 500. -/
theorem getPhoto_missing_photo_witness :
    ParseInt ((photoParams "2" "999").ByName "photoId") = .ok 999 ∧
    CheckPhotoExistence bobPosted 999 = .ok false ∧
    (getPhoto bobPosted ResponseWriter.fresh (exampleRequest "Bearer 1" "")
      (photoParams "2" "999") 1).1.status = some StatusInternalServerError :=
  have h := getPhoto_missing_photo bobPosted ResponseWriter.fresh
    (exampleRequest "Bearer 1" "") (photoParams "2" "999") 1 999 rfl (by decide) (by decide)
  ⟨by decide, h.1, h.2.1⟩

/-- C17 fails on the code for the empty body. An upload with an empty body stores no photo,
but the handler returns without writing a status or a body, so the client receives 200 with
an empty body, not 400 with a message. An upload with a non-empty body, while the key range
of `photo` is not used up, appends one photo owned by the caller and is answered 201. -/
theorem uploadPhoto_contract (now : String) (s : Store) (w : ResponseWriter) (r : Request)
    (ps : Params) (token : Int) (hw : w.status = none) :
    (r.Body = [] →
      uploadPhoto now s w r ps token = (w.setContentType "application/json", s) ∧
      (uploadPhoto now s w r ps token).1.status = none ∧
      (uploadPhoto now s w r ps token).1.body = w.body ∧
      (uploadPhoto now s w r ps token).1.finalStatus = StatusOK ∧
      (uploadPhoto now s w r ps token).2.photo = s.photo) ∧
    (r.Body ≠ [] → (s.photo.map (fun ph => ph.id)).foldl max s.photoSeq < maxInt64 →
      (uploadPhoto now s w r ps token).1.status = some StatusCreated ∧
      ∃ row : PhotoRow, row.owner = token ∧ row.img = r.Body ∧ row.created_at = now ∧
        (uploadPhoto now s w r ps token).2.photo = s.photo ++ [row]) := by
  constructor
  · intro hb
    have e : uploadPhoto now s w r ps token = (w.setContentType "application/json", s) := by
      unfold uploadPhoto
      simp [hb, Photos.handleError]
    rw [e]
    exact ⟨rfl, hw, rfl, by simp [ResponseWriter.finalStatus, hw], rfl⟩
  · intro hb hkey
    have hlen : (r.Body.length == 0) = false := by
      cases hr : r.Body with
      | nil => exact absurd hr hb
      | cons a t => simp
    have hk : ¬ ((s.photo.map (fun ph => ph.id)).foldl max s.photoSeq ≥ maxInt64) :=
      not_le.2 hkey
    unfold uploadPhoto
    simp only [Photos.handleError, hlen, Bool.or_false, Bool.false_eq_true, if_false, PostPhoto,
      hk]
    exact ⟨status_ReturnCreatedMessage w hw, _, rfl, rfl, rfl, rfl⟩

/-- C17 at the failing input: user 1 uploads an empty body; nothing is written to the
response, so the client receives 200, and no photo is stored. The same user uploading four
bytes is answered 201. -/
theorem uploadPhoto_contract_witness :
    ((uploadRequest "Bearer 1" []).Body = [] ∧
      (uploadPhoto "2024-01-02 10:00:00" bobPosted ResponseWriter.fresh
        (uploadRequest "Bearer 1" []) [] 1).1.finalStatus = StatusOK ∧
      (uploadPhoto "2024-01-02 10:00:00" bobPosted ResponseWriter.fresh
        (uploadRequest "Bearer 1" []) [] 1).1.body = []) ∧
    ((uploadRequest "Bearer 1" [137, 80, 78, 71]).Body ≠ [] ∧
      (uploadPhoto "2024-01-02 10:00:00" bobPosted ResponseWriter.fresh
        (uploadRequest "Bearer 1" [137, 80, 78, 71]) [] 1).1.status = some StatusCreated) :=
  have h1 := (uploadPhoto_contract "2024-01-02 10:00:00" bobPosted ResponseWriter.fresh
    (uploadRequest "Bearer 1" []) [] 1 rfl).1 rfl
  have h2 := (uploadPhoto_contract "2024-01-02 10:00:00" bobPosted ResponseWriter.fresh
    (uploadRequest "Bearer 1" [137, 80, 78, 71]) [] 1 rfl).2 (by decide) (by decide)
  ⟨⟨rfl, h1.2.2.2.1, h1.2.2.1⟩, ⟨by decide, h2.1⟩⟩

/-! ## C19: display names and identities -/

theorem le_foldl_max (l : List Int) :
    ∀ a : Int, a ≤ l.foldl max a ∧ ∀ x ∈ l, x ≤ l.foldl max a := by
  induction l with
  | nil => intro a; simp
  | cons y l ih =>
    intro a
    simp only [List.foldl_cons, List.mem_cons, forall_eq_or_imp]
    have h := ih (max a y)
    exact ⟨le_trans (le_max_left a y) h.1, le_trans (le_max_right a y) h.1, h.2⟩

/-- What a successful `addUser` does: one row is appended, its name is new, and its token is
at least 1 and above every token in the table. -/
theorem addUser_ok (s s1 : Store) (name : String) (t : Int)
    (h : addUser s name = .ok (t, s1)) :
    s1.user = s.user ++ [{ token := t, username := name }] ∧
    (∀ u ∈ s.user, u.username ≠ name) ∧ (∀ u ∈ s.user, u.token < t) ∧ 1 ≤ t ∧
    s1 = { s with user := s.user ++ [{ token := t, username := name }], userSeq := t } := by
  unfold addUser at h
  simp only [] at h
  split at h
  · cases h
  · rename_i hany
    split at h
    · cases h
    · simp only [Except.ok.injEq, Prod.mk.injEq] at h
      obtain ⟨ht, hs⟩ := h
      have hmax := le_foldl_max (s.user.map (fun u => u.token)) s.userSeq
      refine ⟨by rw [← hs, ← ht], ?_, ?_, ?_, by rw [← hs, ← ht]⟩
      · intro u hu hname
        apply hany
        rw [List.any_eq_true]
        exact ⟨u, hu, by simpa using hname⟩
      · intro u hu
        have := hmax.2 u.token (List.mem_map.2 ⟨u, hu, rfl⟩)
        rw [← ht]
        split <;> omega
      · rw [← ht]
        split <;> omega

theorem addUser_userKeys (s s1 : Store) (name : String) (t : Int)
    (h : addUser s name = .ok (t, s1)) (hk : UserKeys s) : UserKeys s1 := by
  obtain ⟨hu, hname, htok, _, _⟩ := addUser_ok s s1 name t h
  unfold UserKeys
  rw [hu]
  simp only [List.map_append, List.map_cons, List.map_nil]
  constructor
  · rw [List.nodup_append]
    refine ⟨hk.1, by simp, ?_⟩
    intro x hx hx2
    simp only [List.mem_singleton] at hx2
    obtain ⟨u, hu2, rfl⟩ := List.mem_map.1 hx
    have := htok u hu2
    omega
  · rw [List.nodup_append]
    refine ⟨hk.2, by simp, ?_⟩
    intro x hx hx2
    simp only [List.mem_singleton] at hx2
    obtain ⟨u, hu2, rfl⟩ := List.mem_map.1 hx
    exact hname u hu2 hx2

theorem addUser_tokensPositive (s s1 : Store) (name : String) (t : Int)
    (h : addUser s name = .ok (t, s1)) (hp : TokensPositive s) : TokensPositive s1 := by
  obtain ⟨hu, _, _, ht, _⟩ := addUser_ok s s1 name t h
  intro u hmem
  rw [hu] at hmem
  simp only [List.mem_append, List.mem_singleton] at hmem
  rcases hmem with hmem | rfl
  · exact hp u hmem
  · exact ht

theorem rename_names_nodup (l : List UserRow) (t : Int) (name : String)
    (htok : (l.map (fun u => u.token)).Nodup) (hnames : (l.map (fun u => u.username)).Nodup)
    (hfree : ∀ u ∈ l, u.token ≠ t → u.username ≠ name) :
    ((l.map (fun u => if u.token == t then { u with username := name } else u)).map
      (fun u => u.username)).Nodup := by
  induction l with
  | nil => simp
  | cons u l ih =>
    simp only [List.map_cons, List.nodup_cons, List.mem_map, not_exists, not_and] at htok hnames
    have hfree2 : ∀ v ∈ l, v.token ≠ t → v.username ≠ name :=
      fun v hv => hfree v (List.mem_cons_of_mem _ hv)
    have ih2 := ih htok.2 hnames.2 hfree2
    simp only [List.map_cons, List.nodup_cons]
    refine ⟨?_, ih2⟩
    simp only [List.mem_map, not_exists, not_and]
    rintro x ⟨y, hy, rfl⟩ hx
    by_cases hut : u.token = t
    · have hyt : y.token ≠ t := fun h => htok.1 y hy (h.trans hut.symm)
      have e1 : (y.token == t) = false := by simpa using hyt
      simp only [hut, beq_self_eq_true, if_true, e1, Bool.false_eq_true, if_false] at hx
      exact hfree2 y hy hyt hx
    · have e0 : (u.token == t) = false := by simpa using hut
      simp only [e0, Bool.false_eq_true, if_false] at hx
      by_cases hyt : y.token = t
      · simp only [hyt, beq_self_eq_true, if_true] at hx
        exact hfree u (List.mem_cons_self _ _) hut hx.symm
      · have e1 : (y.token == t) = false := by simpa using hyt
        simp only [e1, Bool.false_eq_true, if_false] at hx
        exact hnames.1 y hy hx

theorem rename_tokens (l : List UserRow) (t : Int) (name : String) :
    (l.map (fun u => if u.token == t then { u with username := name } else u)).map
      (fun u => u.token) = l.map (fun u => u.token) := by
  induction l with
  | nil => rfl
  | cons u l ih =>
    simp only [List.map_cons, ih, List.cons.injEq, and_true]
    split <;> rfl

theorem SetUserName_userKeys (s s1 : Store) (t : Int) (name : String)
    (h : SetUserName s t name = .ok s1) (hk : UserKeys s) : UserKeys s1 := by
  unfold SetUserName at h
  split at h
  · cases h
  · rename_i hcond
    simp only [Except.ok.injEq] at h
    subst h
    unfold UserKeys
    simp only []
    refine ⟨by rw [rename_tokens]; exact hk.1, ?_⟩
    by_cases hex : ∃ u ∈ s.user, u.token = t
    · have hfree : ∀ u ∈ s.user, u.token ≠ t → u.username ≠ name := by
        intro u hu hut hun
        apply hcond
        simp only [Bool.and_eq_true, List.any_eq_true, beq_iff_eq, bne_iff_ne]
        exact ⟨hex, u, hu, hut, hun⟩
      exact rename_names_nodup s.user t name hk.1 hk.2 hfree
    · have hid : s.user.map (fun u => if u.token == t then { u with username := name } else u)
          = s.user := by
        conv => rhs; rw [← List.map_id s.user]
        apply List.map_congr_left
        intro u hu
        have : (u.token == t) = false := by
          simpa using fun h => hex ⟨u, hu, h⟩
        simp [this]
      rw [hid]
      exact hk.2

theorem SetUserName_tokensPositive (s s1 : Store) (t : Int) (name : String)
    (h : SetUserName s t name = .ok s1) (hp : TokensPositive s) : TokensPositive s1 := by
  unfold SetUserName at h
  split at h
  · cases h
  · simp only [Except.ok.injEq] at h
    subst h
    intro u hu
    simp only [List.mem_map] at hu
    obtain ⟨v, hv, rfl⟩ := hu
    have := hp v hv
    split <;> exact this

/-- The database after doLogin is the one before, or the one `addUser` returned. -/
theorem doLogin_store (s : Store) (w : ResponseWriter) (r : Request) (ps : Params) :
    (doLogin s w r ps).2 = s ∨
      ∃ name t, addUser s name = .ok (t, (doLogin s w r ps).2) := by
  unfold doLogin
  simp only []
  split
  · exact Or.inl rfl
  · rename_i username _
    split
    · exact Or.inl rfl
    · unfold GetUserToken
      cases hlook : GetUserTokenOnly s username.Username with
      | ok t => exact Or.inl rfl
      | error e =>
        cases e with
        | errNoRows =>
          cases hadd : addUser s username.Username with
          | error e2 => exact Or.inl rfl
          | ok out => exact Or.inr ⟨username.Username, out.1, by simp [hadd]⟩
        | constraintFailed m => exact Or.inl rfl
        | noSuchTable m => exact Or.inl rfl
        | numSyntax m => exact Or.inl rfl
        | numRange m => exact Or.inl rfl
        | text m => exact Or.inl rfl

/-- The database after setMyUserName is the one before, or the one `SetUserName` returned. -/
theorem setMyUserName_store (s : Store) (w : ResponseWriter) (r : Request) (ps : Params)
    (pathToken : Int) :
    (setMyUserName s w r ps pathToken).2 = s ∨
      ∃ name, SetUserName s pathToken name = .ok (setMyUserName s w r ps pathToken).2 := by
  unfold setMyUserName
  simp only []
  split
  · exact Or.inl rfl
  · rename_i username _
    split
    · exact Or.inl rfl
    · split
      · exact Or.inl rfl
      · split
        · exact Or.inl rfl
        · split
          · exact Or.inl rfl
          · rename_i s1 hs1
            exact Or.inr ⟨username.Username, hs1⟩

theorem serveProfile_invariant (P : Store → Prop)
    (hadd : ∀ s s1 name t, addUser s name = .ok (t, s1) → P s → P s1)
    (hset : ∀ s s1 t name, SetUserName s t name = .ok s1 → P s → P s1)
    (s : Store) (q : ProfileRequest) (hs : P s) : P (serveProfile s q).2 := by
  cases q with
  | login w r ps =>
    rcases doLogin_store s w r ps with h | ⟨name, t, h⟩
    · simp only [serveProfile]; rw [h]; exact hs
    · exact hadd s _ name t h hs
  | rename w r ps pathToken =>
    rcases setMyUserName_store s w r ps pathToken with h | ⟨name, h⟩
    · simp only [serveProfile]; rw [h]; exact hs
    · exact hset s _ pathToken name h hs

theorem runProfile_invariant (P : Store → Prop)
    (hadd : ∀ s s1 name t, addUser s name = .ok (t, s1) → P s → P s1)
    (hset : ∀ s s1 t name, SetUserName s t name = .ok s1 → P s → P s1)
    (qs : List ProfileRequest) : ∀ s : Store, P s → P (runProfile s qs) := by
  induction qs with
  | nil => intro s hs; exact hs
  | cons q qs ih =>
    intro s hs
    exact ih _ (serveProfile_invariant P hadd hset s q hs)

theorem runProfile_userKeys (s : Store) (qs : List ProfileRequest) (hs : UserKeys s) :
    UserKeys (runProfile s qs) :=
  runProfile_invariant UserKeys addUser_userKeys SetUserName_userKeys qs s hs

theorem runProfile_tokensPositive (s : Store) (qs : List ProfileRequest)
    (hs : TokensPositive s) : TokensPositive (runProfile s qs) :=
  runProfile_invariant TokensPositive addUser_tokensPositive SetUserName_tokensPositive qs s hs

theorem find_username_append (l : List UserRow) (name : String) (t : Int)
    (h : ∀ u ∈ l, u.username ≠ name) :
    (l ++ [({ token := t, username := name } : UserRow)]).find?
        (fun u => u.username == name)
      = some { token := t, username := name } := by
  rw [List.find?_append, find_none_of_absent l _ (fun u hu => by simpa using h u hu)]
  simp

/-- A login with a valid name answers 201 with the identity `GetUserToken` returns, and a
second login with that name on the resulting database answers the same identity and leaves
the database as it is. -/
theorem doLogin_twice (s s1 : Store) (name : String) (t : Int)
    (w w2 : ResponseWriter) (r r2 : Request) (ps ps2 : Params)
    (hr : r.decodeUsername = .ok { Username := name })
    (hr2 : r2.decodeUsername = .ok { Username := name })
    (hname : MatchString name = true) (hg : GetUserToken s name = .ok (t, s1)) :
    doLogin s w r ps = (respondWithJSON w StatusCreated (.token { Identifier := t }), s1) ∧
    doLogin s1 w2 r2 ps2 =
      (respondWithJSON w2 StatusCreated (.token { Identifier := t }), s1) := by
  have hg1 : GetUserToken s1 name = .ok (t, s1) := by
    unfold GetUserToken at hg ⊢
    cases hlook : GetUserTokenOnly s name with
    | ok t0 =>
      simp only [hlook, Except.ok.injEq, Prod.mk.injEq] at hg
      obtain ⟨rfl, rfl⟩ := hg
      simp [hlook]
    | error e =>
      cases e with
      | errNoRows =>
        simp only [hlook] at hg
        cases hadd : addUser s name with
        | error e2 => simp [hadd] at hg
        | ok out =>
          simp only [hadd, Except.ok.injEq, Prod.mk.injEq] at hg
          obtain ⟨h1, h2⟩ := hg
          have hout : addUser s name = .ok (t, s1) := by rw [hadd, ← h1, ← h2]
          obtain ⟨hu, hfree, _, _, _⟩ := addUser_ok s s1 name t hout
          have : GetUserTokenOnly s1 name = .ok t := by
            unfold GetUserTokenOnly
            rw [hu, find_username_append s.user name t hfree]
          simp [this]
      | constraintFailed m => simp [hlook] at hg
      | noSuchTable m => simp [hlook] at hg
      | numSyntax m => simp [hlook] at hg
      | numRange m => simp [hlook] at hg
      | text m => simp [hlook] at hg
  constructor
  · unfold doLogin
    simp [hr, errOf, Profile.handleError, CheckUsernameRegex_accept _ _ hname, hg]
  · unfold doLogin
    simp [hr2, errOf, Profile.handleError, CheckUsernameRegex_accept _ _ hname, hg1]

/-- A rename to a valid name that some row of `user` holds is answered with the conflict
message and changes nothing. -/
theorem setMyUserName_taken (s : Store) (w : ResponseWriter) (r : Request) (ps : Params)
    (pathToken : Int) (name : String) (hr : r.decodeUsername = .ok { Username := name })
    (hname : MatchString name = true) (hex : ∃ u ∈ s.user, u.username = name) :
    setMyUserName s w r ps pathToken = (ReturnConflictMessage w, s) := by
  have hcount : (s.user.filter (fun u => u.username == name)).length ≠ 0 := by
    obtain ⟨u, hu, hun⟩ := hex
    have : u ∈ s.user.filter (fun u => u.username == name) :=
      List.mem_filter.2 ⟨hu, by simpa using hun⟩
    intro h0
    rw [List.length_eq_zero] at h0
    rw [h0] at this
    cases this
  unfold setMyUserName
  simp only [hr, errOf, Profile.handleError, CheckUsernameRegex_accept _ _ hname,
    CheckUsernameExistence, Bool.not_true, Bool.false_eq_true, if_false]
  have hc : (((s.user.filter (fun u => u.username == name)).length : Int) != 0) = true := by
    simp only [bne_iff_ne, ne_eq, Int.natCast_eq_zero]
    exact hcount
  simp only [hc, if_true]

/-- C19. Display names stay unique: starting from a store with no users (and, more
generally, from any store whose tokens and names are pairwise distinct), after any sequence
of login and rename requests no two rows of `user` have the same display name; a login with
a valid name already in use answers 201 with the existing identity and creates no user; two
logins with the same valid name return the same identifier; and a rename to a valid name
already in use is answered 409 and changes nothing. -/
theorem display_names_unique :
    (∀ (s : Store) (qs : List ProfileRequest), s.user = [] →
      ((runProfile s qs).user.map (fun u => u.username)).Nodup) ∧
    (∀ (s : Store) (qs : List ProfileRequest), UserKeys s → UserKeys (runProfile s qs)) ∧
    (∀ (s : Store) (w : ResponseWriter) (r : Request) (ps : Params) (name : String) (t : Int),
      r.decodeUsername = .ok { Username := name } → (CheckUsernameRegex w name).1 = true →
      GetUserTokenOnly s name = .ok t →
        doLogin s w r ps = (respondWithJSON w StatusCreated (.token { Identifier := t }), s)) ∧
    (∀ (s s1 : Store) (name : String) (t : Int) (w w2 : ResponseWriter) (r r2 : Request)
        (ps ps2 : Params),
      r.decodeUsername = .ok { Username := name } →
      r2.decodeUsername = .ok { Username := name } →
      (CheckUsernameRegex w name).1 = true → GetUserToken s name = .ok (t, s1) →
        doLogin s w r ps = (respondWithJSON w StatusCreated (.token { Identifier := t }), s1) ∧
        doLogin s1 w2 r2 ps2 =
          (respondWithJSON w2 StatusCreated (.token { Identifier := t }), s1)) ∧
    (∀ (s : Store) (w : ResponseWriter) (r : Request) (ps : Params) (pathToken : Int)
        (name : String),
      w.status = none → r.decodeUsername = .ok { Username := name } →
      (CheckUsernameRegex w name).1 = true → (∃ u ∈ s.user, u.username = name) →
        (setMyUserName s w r ps pathToken).1.status = some StatusConflict ∧
        (setMyUserName s w r ps pathToken).2 = s) := by
  refine ⟨?_, runProfile_userKeys, ?_, ?_, ?_⟩
  · intro s qs hs
    have hk : UserKeys s := by
      unfold UserKeys
      rw [hs]
      exact ⟨List.nodup_nil, List.nodup_nil⟩
    exact (runProfile_userKeys s qs hk).2
  · intro s w r ps name t hr hname hlook
    rw [CheckUsernameRegex_fst] at hname
    have hg : GetUserToken s name = .ok (t, s) := by
      unfold GetUserToken
      simp [hlook]
    exact (doLogin_twice s s name t w w r r ps ps hr hr hname hg).1
  · intro s s1 name t w w2 r r2 ps ps2 hr hr2 hname hg
    rw [CheckUsernameRegex_fst] at hname
    exact doLogin_twice s s1 name t w w2 r r2 ps ps2 hr hr2 hname hg
  · intro s w r ps pathToken name hw hr hname hex
    rw [CheckUsernameRegex_fst] at hname
    rw [setMyUserName_taken s w r ps pathToken name hr hname hex]
    exact ⟨by simp [ReturnConflictMessage, hw], rfl⟩

/-- C19 at concrete requests: on a database without users the names are distinct after
three requests, and `carol` logging in twice gets identity 1 both times; on the database of
two users, user 2 asking for the name `alice` is answered 409 and nothing changes. -/
theorem display_names_unique_witness :
    (Store.empty.user = [] ∧
      ((runProfile Store.empty exampleLogins).user.map (fun u => u.username)).Nodup) ∧
    ((exampleRequest "" "carol").decodeUsername = .ok { Username := "carol" } ∧
      (doLogin Store.empty ResponseWriter.fresh (exampleRequest "" "carol") []).1.body
        = [.token { Identifier := 1 }] ∧
      (doLogin (doLogin Store.empty ResponseWriter.fresh (exampleRequest "" "carol") []).2
        ResponseWriter.fresh (exampleRequest "" "carol") []).1.body
        = [.token { Identifier := 1 }]) ∧
    ((∃ u ∈ twoUsers.user, u.username = "alice") ∧
      (setMyUserName twoUsers ResponseWriter.fresh (exampleRequest "Bearer 2" "alice")
        [{ Key := "userId", Value := "2" }] 2).1.status = some StatusConflict ∧
      (setMyUserName twoUsers ResponseWriter.fresh (exampleRequest "Bearer 2" "alice")
        [{ Key := "userId", Value := "2" }] 2).2 = twoUsers) :=
  ⟨⟨rfl, display_names_unique.1 Store.empty exampleLogins rfl⟩,
   ⟨rfl, by decide, by decide⟩,
   ⟨by decide,
    display_names_unique.2.2.2.2 twoUsers ResponseWriter.fresh
      (exampleRequest "Bearer 2" "alice") [{ Key := "userId", Value := "2" }] 2 "alice" rfl
      rfl (by decide) (by decide)⟩⟩

/-! ## C18: delete comment -/

theorem CheckToken_mem (s : Store) (T : Int) (h : CheckToken s T = true) :
    ∃ u ∈ s.user, u.token = T := by
  unfold CheckToken at h
  have hlen : (s.user.filter (fun u => u.token == T)).length = 1 := by simpa using h
  cases hf : s.user.filter (fun u => u.token == T) with
  | nil => rw [hf] at hlen; cases hlen
  | cons u l =>
    have hu : u ∈ s.user.filter (fun u => u.token == T) := by rw [hf]; exact List.mem_cons_self _ _
    have := List.mem_filter.1 hu
    exact ⟨u, this.1, by simpa using this.2⟩

/-- C18. For a caller identity T and a comment id C: deleteComment deletes the rows of
comment C and answers 204 when the owner lookup for C returns T; when the lookup returns
another value the request is answered 403 and the database is unchanged. An identity that
is verified on a store filled by logins and renames is never 0, and for such a T a comment
id that does not exist (the lookup then yields 0) is answered 403 with nothing deleted. -/
theorem deleteComment_owner_only (s : Store) (w : ResponseWriter) (r : Request) (p : Params)
    (T C : Int) (hw : w.status = none) (hC : ParseInt (p.ByName "commentId") = .ok C) :
    ((GetCommentOwner s C).1 = T →
      (deleteComment s w r p T).1.status = some StatusNoContent ∧
      (deleteComment s w r p T).2.comment = s.comment.filter (fun c => !(c.id == C)) ∧
      ∀ c ∈ (deleteComment s w r p T).2.comment, c.id ≠ C) ∧
    ((GetCommentOwner s C).1 ≠ T →
      (deleteComment s w r p T).1.status = some StatusForbidden ∧
      (deleteComment s w r p T).2 = s) ∧
    (T ≠ 0 → (∀ c ∈ s.comment, c.id ≠ C) →
      (GetCommentOwner s C).1 = 0 ∧
      (deleteComment s w r p T).1.status = some StatusForbidden ∧
      (deleteComment s w r p T).2 = s) ∧
    (∀ (s0 : Store) (qs : List ProfileRequest), s0.user = [] →
      CheckToken (runProfile s0 qs) T = true → T ≠ 0) := by
  have hforb : (GetCommentOwner s C).1 ≠ T →
      (deleteComment s w r p T).1.status = some StatusForbidden ∧
      (deleteComment s w r p T).2 = s := by
    intro hne
    have e : deleteComment s w r p T =
        (ReturnForbiddenMessage (w.setContentType "application/json"), s) := by
      unfold deleteComment
      have hb : ((GetCommentOwner s C).1 != T) = true := by simpa using hne
      simp only [hC, hb, if_true]
    rw [e]
    exact ⟨status_ReturnForbiddenMessage w hw, rfl⟩
  refine ⟨?_, hforb, ?_, ?_⟩
  · intro hown
    have e : deleteComment s w r p T =
        ((w.setContentType "application/json").WriteHeader StatusNoContent,
          { s with comment := s.comment.filter (fun c => !(c.id == C)) }) := by
      unfold deleteComment
      have hb : ((GetCommentOwner s C).1 != T) = false := by simpa using hown
      simp only [hC, hb, Bool.false_eq_true, if_false, DeleteComment]
    rw [e]
    refine ⟨status_NoContent w hw, rfl, ?_⟩
    intro c hc
    have := (List.mem_filter.1 hc).2
    simpa using this
  · intro hT hmiss
    have hfind : s.comment.find? (fun c => c.id == C) = none :=
      find_none_of_absent _ _ (fun c h => by simpa using hmiss c h)
    have h0 : (GetCommentOwner s C).1 = 0 := by simp [GetCommentOwner, hfind]
    exact ⟨h0, hforb (by rw [h0]; exact Ne.symm hT)⟩
  · intro s0 qs hs0 hck
    have hpos : TokensPositive s0 := by
      intro u hu
      rw [hs0] at hu
      cases hu
    obtain ⟨u, hu, rfl⟩ := CheckToken_mem _ T hck
    have := runProfile_tokensPositive s0 qs hpos u hu
    omega

/-- C18 at concrete requests: user 1 deletes their own comment 5; user 2 asking to delete
comment 5, and user 1 asking to delete comment 9, which does not exist, are answered 403
with the comment table unchanged. -/
theorem deleteComment_owner_only_witness :
    ((GetCommentOwner aliceCommented 5).1 = 1 ∧
      (deleteComment aliceCommented ResponseWriter.fresh (exampleRequest "Bearer 1" "")
        (commentParams "2" "100" "5") 1).1.status = some StatusNoContent ∧
      (deleteComment aliceCommented ResponseWriter.fresh (exampleRequest "Bearer 1" "")
        (commentParams "2" "100" "5") 1).2.comment = []) ∧
    ((GetCommentOwner aliceCommented 5).1 ≠ 2 ∧
      (deleteComment aliceCommented ResponseWriter.fresh (exampleRequest "Bearer 2" "")
        (commentParams "2" "100" "5") 2).1.status = some StatusForbidden ∧
      (deleteComment aliceCommented ResponseWriter.fresh (exampleRequest "Bearer 2" "")
        (commentParams "2" "100" "5") 2).2 = aliceCommented) ∧
    ((1 : Int) ≠ 0 ∧ (∀ c ∈ aliceCommented.comment, c.id ≠ 9) ∧
      (deleteComment aliceCommented ResponseWriter.fresh (exampleRequest "Bearer 1" "")
        (commentParams "2" "100" "9") 1).1.status = some StatusForbidden ∧
      (deleteComment aliceCommented ResponseWriter.fresh (exampleRequest "Bearer 1" "")
        (commentParams "2" "100" "9") 1).2 = aliceCommented) :=
  have h1 := (deleteComment_owner_only aliceCommented ResponseWriter.fresh
    (exampleRequest "Bearer 1" "") (commentParams "2" "100" "5") 1 5 rfl (by decide)).1
    (by decide)
  have h2 := (deleteComment_owner_only aliceCommented ResponseWriter.fresh
    (exampleRequest "Bearer 2" "") (commentParams "2" "100" "5") 2 5 rfl (by decide)).2.1
    (by decide)
  have h3 := (deleteComment_owner_only aliceCommented ResponseWriter.fresh
    (exampleRequest "Bearer 1" "") (commentParams "2" "100" "9") 1 9 rfl (by decide)).2.2.1
    (by decide) (by decide)
  ⟨⟨by decide, h1.1, by rw [h1.2.1]; decide⟩, ⟨by decide, h2.1, h2.2⟩,
   ⟨by decide, by decide, h3.2.1, h3.2.2⟩⟩

/-! ## C14, C15: the profile gate and the profile flags -/

/-- A loop whose body fails on every row fails as soon as there is a row. -/
theorem mapM_error {α β : Type} (f : α → Except GoError β) (e : GoError)
    (hf : ∀ x, f x = .error e) (l : List α) (hl : l ≠ []) : l.mapM f = .error e := by
  cases l with
  | nil => exact absurd rfl hl
  | cons a l =>
    rw [List.mapM_cons, hf a]
    rfl

/-- The gate of getUserProfile: a valid name resolving to a user who has banned the
requester is answered with the forbidden message, whatever else the database holds. -/
theorem getUserProfile_gate (scanTime : String → String) (s : Store) (w : ResponseWriter)
    (r : Request) (p : Params) (A B : Int)
    (hname : MatchString (p.ByName "username") = true)
    (hB : GetUserTokenOnly s (p.ByName "username") = .ok B)
    (hban : CheckBan s B A = .ok true) :
    getUserProfile scanTime s w r p A = (ReturnForbiddenMessage w, s) := by
  unfold getUserProfile
  simp only [CheckUsernameRegex_accept _ _ hname, Bool.not_true, Bool.false_eq_true, if_false,
    hB, hban, errOf, Profile.handleError, if_true]

/-- C15. For a requester A and a valid target name resolving to a user B who has banned A,
the profile request is answered 403 with the forbidden message alone; the answer is the
same on every database with the same `user` and `ban` tables, so no profile detail enters
it, and the database is unchanged. -/
theorem getUserProfile_banned (scanTime : String → String) (s : Store) (w : ResponseWriter)
    (r : Request) (p : Params) (A B : Int) (hw : w.status = none)
    (hname : (CheckUsernameRegex w (p.ByName "username")).1 = true)
    (hB : GetUserTokenOnly s (p.ByName "username") = .ok B)
    (hban : CheckBan s B A = .ok true) :
    (getUserProfile scanTime s w r p A).1.status = some StatusForbidden ∧
    (getUserProfile scanTime s w r p A).1.body
      = w.body ++ [.message { Message := "Forbidden Action" }] ∧
    (getUserProfile scanTime s w r p A).2 = s ∧
    (∀ s2 : Store, s2.user = s.user → s2.ban = s.ban →
      (getUserProfile scanTime s2 w r p A).1 = (getUserProfile scanTime s w r p A).1) := by
  rw [CheckUsernameRegex_fst] at hname
  rw [getUserProfile_gate scanTime s w r p A B hname hB hban]
  refine ⟨by simp [ReturnForbiddenMessage, hw], ?_, rfl, ?_⟩
  · simp [ReturnForbiddenMessage, sendJSONResponse, ResponseWriter.Encode,
      ResponseWriter.Write, ResponseWriter.WriteHeader, hw]
  · intro s2 hu hb
    have hB2 : GetUserTokenOnly s2 (p.ByName "username") = .ok B := by
      unfold GetUserTokenOnly at hB ⊢
      rw [hu]; exact hB
    have hban2 : CheckBan s2 B A = .ok true := by
      unfold CheckBan at hban ⊢
      rw [hb]; exact hban
    rw [getUserProfile_gate scanTime s2 w r p A B hname hB2 hban2]

/-- C15 at a concrete request: user 2 has banned user 1, and user 1 asking for the profile
of `bob_1` is answered 403. -/
theorem getUserProfile_banned_witness :
    (GetUserTokenOnly bobBannedAlice ((profileParams "1" "bob_1").ByName "username") = .ok 2 ∧
      CheckBan bobBannedAlice 2 1 = .ok true) ∧
    (getUserProfile id bobBannedAlice ResponseWriter.fresh (exampleRequest "Bearer 1" "")
      (profileParams "1" "bob_1") 1).1.status = some StatusForbidden ∧
    (getUserProfile id bobBannedAlice ResponseWriter.fresh (exampleRequest "Bearer 1" "")
      (profileParams "1" "bob_1") 1).1.body = [.message { Message := "Forbidden Action" }] :=
  have h := getUserProfile_banned id bobBannedAlice ResponseWriter.fresh
    (exampleRequest "Bearer 1" "") (profileParams "1" "bob_1") 1 2 rfl (by decide)
    (by decide) (by decide)
  ⟨⟨by decide, by decide⟩, h.1, h.2.1⟩

theorem any_eq_filter_length {α : Type} (l : List α) (q : α → Bool) :
    l.any q = decide ((l.filter q).length > 0) := by
  induction l with
  | nil => simp
  | cons a l ih =>
    simp only [List.any_cons, List.filter_cons, ih]
    cases q a <;> simp

/-- The `WHERE` clause of the stream query says what the contract says. -/
theorem streamWhere_eq (s : Store) (A : Int) (row : PhotoRow × UserRow) :
    streamWhere s A row = inStreamOf s A row.1 := by
  unfold streamWhere inStreamOf CheckFollow CheckBan boolOf
  simp only [any_eq_filter_length]
  have hb : (fun b : BanRow => b.banned == A && b.banning == row.1.owner)
      = (fun b : BanRow => b.banning == row.1.owner && b.banned == A) := by
    funext b; exact Bool.and_comm _ _
  rw [hb]
  cases decide ((s.ban.filter
      (fun b => b.banning == row.1.owner && b.banned == A)).length > 0) <;>
    cases (row.1.owner != A) <;>
    cases decide ((s.follow.filter
      (fun f => f.following == A && f.followed == row.1.owner)).length > 0) <;> rfl

theorem filter_key_singleton {α : Type} (l : List α) (f : α → Int) (k : Int)
    (hn : (l.map f).Nodup) (hex : ∃ u ∈ l, f u = k) :
    ∃ u, l.filter (fun x => f x == k) = [u] := by
  induction l with
  | nil => obtain ⟨u, hu, _⟩ := hex; cases hu
  | cons a l ih =>
    simp only [List.map_cons, List.nodup_cons, List.mem_map, not_exists, not_and] at hn
    by_cases ha : f a = k
    · refine ⟨a, ?_⟩
      have hrest : l.filter (fun x => f x == k) = [] := by
        rw [List.filter_eq_nil_iff]
        intro x hx
        have := hn.1 x hx
        simpa using fun h => this (h.trans ha.symm)
      simp [List.filter_cons, ha, hrest]
    · obtain ⟨u, hu, huk⟩ := hex
      have hul : u ∈ l := by
        rcases List.mem_cons.1 hu with h | h
        · exact absurd (h ▸ huk) ha
        · exact h
      obtain ⟨v, hv⟩ := ih hn.2 ⟨u, hul, huk⟩
      exact ⟨v, by simp [List.filter_cons, ha, hv]⟩

/-- With distinct tokens and registered owners, `photo JOIN user` has one row per photo. -/
theorem joined_fst (users : List UserRow) (photos : List PhotoRow)
    (hn : (users.map (fun u => u.token)).Nodup)
    (hreg : ∀ ph ∈ photos, ∃ u ∈ users, u.token = ph.owner) :
    (photos.flatMap (fun ph =>
      (users.filter (fun u => u.token == ph.owner)).map (fun u => (ph, u)))).map Prod.fst
      = photos := by
  induction photos with
  | nil => rfl
  | cons ph photos ih =>
    obtain ⟨u, hu⟩ := filter_key_singleton users (fun u => u.token) ph.owner hn
      (hreg ph (List.mem_cons_self _ _))
    have ih2 := ih (fun q hq => hreg q (List.mem_cons_of_mem _ hq))
    simp only [List.flatMap_cons, List.map_append, hu, List.map_cons, List.map_nil, ih2]
    rfl

/-- The rows of the stream query: a photo joined with a user row of its owner, where the
owner passes the words of the contract. -/
theorem mem_streamQuery (s : Store) (A : Int) (row : PhotoRow × UserRow) :
    row ∈ streamQuery s A ↔
      (row.1 ∈ s.photo ∧ row.2 ∈ s.user ∧ row.2.token = row.1.owner ∧
        inStreamOf s A row.1 = true) := by
  unfold streamQuery
  simp only []
  rw [(List.perm_insertionSort newerFirst _).mem_iff, List.mem_filter, streamWhere_eq,
    List.mem_flatMap]
  constructor
  · rintro ⟨⟨ph, hph, hin⟩, hw⟩
    obtain ⟨u, hu, rfl⟩ := List.mem_map.1 hin
    obtain ⟨hu1, hu2⟩ := List.mem_filter.1 hu
    exact ⟨hph, hu1, by simpa using hu2, hw⟩
  · rintro ⟨hph, hu, ht, hw⟩
    exact ⟨⟨row.1, hph, List.mem_map.2 ⟨row.2, List.mem_filter.2 ⟨hu, by simp [ht]⟩, rfl⟩⟩,
      hw⟩

/-- What the stream query selects. With the keys of the schema in force (distinct user
tokens, every photo owned by a registered user) its rows are, up to order, the photos whose
owner is followed by the caller, has not banned the caller and is not the caller, each once;
the rows are ordered by `created_at` descending. -/
theorem streamQuery_rows (s : Store) (A : Int) :
    ((s.user.map (fun u => u.token)).Nodup → PhotoOwnersRegistered s →
      ((streamQuery s A).map Prod.fst).Perm (s.photo.filter (inStreamOf s A))) ∧
    (streamQuery s A).Pairwise (fun a b => b.1.created_at.data ≤ a.1.created_at.data) := by
  constructor
  · intro hn hreg
    have hperm := List.perm_insertionSort newerFirst
      ((s.photo.flatMap (fun ph =>
        (s.user.filter (fun u => u.token == ph.owner)).map (fun u => (ph, u)))).filter
          (streamWhere s A))
    have hsw : streamWhere s A = (inStreamOf s A) ∘ Prod.fst := by
      funext row; exact streamWhere_eq s A row
    have hfst : ((s.photo.flatMap (fun ph =>
        (s.user.filter (fun u => u.token == ph.owner)).map (fun u => (ph, u)))).filter
          (streamWhere s A)).map Prod.fst = s.photo.filter (inStreamOf s A) := by
      rw [hsw, ← List.filter_map, joined_fst s.user s.photo hn hreg]
    rw [← hfst]
    exact (hperm.map _)
  · exact @List.sorted_insertionSort _ newerFirst _
      ⟨fun a b => le_total b.1.created_at.data a.1.created_at.data⟩
      ⟨fun a b c hab hbc => le_trans hbc hab⟩
      ((s.photo.flatMap (fun ph =>
        (s.user.filter (fun u => u.token == ph.owner)).map (fun u => (ph, u)))).filter
          (streamWhere s A))

/-- The stream query has a row exactly when some photo is owned by a registered user who
passes the words of the contract. -/
theorem streamQuery_ne_nil (s : Store) (A : Int) :
    streamQuery s A ≠ [] ↔
      ∃ ph ∈ s.photo, inStreamOf s A ph = true ∧ ∃ u ∈ s.user, u.token = ph.owner := by
  constructor
  · intro h
    obtain ⟨row, hrow⟩ := List.exists_mem_of_ne_nil _ h
    obtain ⟨hph, hu, ht, hw⟩ := (mem_streamQuery s A row).1 hrow
    exact ⟨row.1, hph, hw, row.2, hu, ht⟩
  · rintro ⟨ph, hph, hw, u, hu, ht⟩
    exact List.ne_nil_of_mem ((mem_streamQuery s A (ph, u)).2 ⟨hph, hu, ht, hw⟩)

/-- The loop of `GetMyStream` returns the empty list when the query has no row, and the
error of the first lookup on the table `like` otherwise. -/
theorem GetMyStream_eq (scanTime : String → String) (s : Store) (A : Int) :
    GetMyStream scanTime s A =
      if streamQuery s A = [] then .ok [] else .error (.noSuchTable "like") := by
  unfold GetMyStream
  by_cases h : streamQuery s A = []
  · rw [if_pos h, h]
    rfl
  · rw [if_neg h]
    exact mapM_error _ _ (fun _ => rfl) _ h

/-- C13, as the code has it. On every database, for every caller A: when some photo is owned
by a registered user O whom A follows, who has not banned A and who is not A, GetMyStream
returns the error `no such table: like` in place of the photos, and the stream request is
answered 500; when there is no such photo it returns the empty list. So the stream never has
an entry: it contains no photo of a user who has banned A, and none of those the contract
puts in it either. The request leaves the database, so the follow relation, as it was. -/
theorem GetMyStream_no_table (scanTime : String → String) (s : Store) (A : Int) :
    ((∃ ph ∈ s.photo, inStreamOf s A ph = true ∧ ∃ u ∈ s.user, u.token = ph.owner) →
      GetMyStream scanTime s A = .error (.noSuchTable "like") ∧
      ∀ (w : ResponseWriter) (r : Request) (ps : Params), w.status = none →
        (getMyStream scanTime s w r ps A).1.status = some StatusInternalServerError ∧
        (getMyStream scanTime s w r ps A).1.body = w.body ++
          [.message { Message := "Internal Server Error: no such table: like" }]) ∧
    ((¬ ∃ ph ∈ s.photo, inStreamOf s A ph = true ∧ ∃ u ∈ s.user, u.token = ph.owner) →
      GetMyStream scanTime s A = .ok []) ∧
    (∀ entries : List Photo, GetMyStream scanTime s A = .ok entries → entries = []) ∧
    (∀ (w : ResponseWriter) (r : Request) (ps : Params),
      (getMyStream scanTime s w r ps A).2 = s ∧
      (getMyStream scanTime s w r ps A).2.follow = s.follow) := by
  have heq := GetMyStream_eq scanTime s A
  refine ⟨?_, ?_, ?_, ?_⟩
  · intro hex
    have hne := (streamQuery_ne_nil s A).2 hex
    rw [if_neg hne] at heq
    refine ⟨heq, fun w r ps hw => ?_⟩
    unfold getMyStream
    simp only [heq, Photos.handleError]
    constructor
    · simp [ReturnInternalServerError, hw]
    · simp [ReturnInternalServerError, sendJSONResponse, ResponseWriter.Encode,
        ResponseWriter.Write, ResponseWriter.WriteHeader, ResponseWriter.setContentType, hw,
        GoError.Error]
  · intro hno
    have hnil : streamQuery s A = [] := by
      by_contra h
      exact hno ((streamQuery_ne_nil s A).1 h)
    rw [if_pos hnil] at heq
    exact heq
  · intro entries he
    rw [heq] at he
    by_cases h : streamQuery s A = []
    · rw [if_pos h] at he
      simp only [Except.ok.injEq] at he
      exact he.symm
    · rw [if_neg h] at he
      cases he
  · intro w r ps
    unfold getMyStream
    simp only []
    split <;> exact ⟨rfl, rfl⟩

/-- C13 at a concrete database: user 1 follows users 2 and 3, user 3 has banned user 1, and
user 2 has posted photos 100 and 102. The query selects photos 102 and 100, in that order;
GetMyStream returns the error on the table `like`, and the stream request of user 1 is
answered 500. -/
theorem GetMyStream_no_table_witness :
    (∃ ph ∈ streamStore.photo, inStreamOf streamStore 1 ph = true ∧
      ∃ u ∈ streamStore.user, u.token = ph.owner) ∧
    (streamQuery streamStore 1).map (fun row => row.1.id) = [102, 100] ∧
    GetMyStream id streamStore 1 = .error (.noSuchTable "like") ∧
    (getMyStream id streamStore ResponseWriter.fresh (exampleRequest "Bearer 1" "")
      [{ Key := "userId", Value := "1" }] 1).1.status = some StatusInternalServerError :=
  have h := (GetMyStream_no_table id streamStore 1).1 (by decide)
  ⟨by decide, by decide, h.1,
   (h.2 ResponseWriter.fresh (exampleRequest "Bearer 1" "")
     [{ Key := "userId", Value := "1" }] rfl).1⟩

/-! ## C20: no mutation before a rejection -/

/-- Either `handleUserAction` answers without looking at `action`, with the database as it
was, or it hands the caller and one resolved target to `action` and answers from its
result. -/
theorem handleUserAction_cases (s : Store) (w : ResponseWriter) (r : Request) (p : Params)
    (token : Int) (rev : Bool) (msg : String) :
    (∃ out : ResponseWriter, ∀ action : Store → Int → Int → Except GoError Store,
      handleUserAction s w r p token action rev msg = (out, s)) ∨
    (∃ B : Int, ∀ action : Store → Int → Int → Except GoError Store,
      handleUserAction s w r p token action rev msg =
        match action s token B with
        | .error err =>
          (ReturnInternalServerError (w.setContentType "application/json") (some err), s)
        | .ok s1 =>
          if rev = true then ((w.setContentType "application/json").WriteHeader StatusNoContent, s1)
          else (ReturnCreatedMessage (w.setContentType "application/json"), s1)) := by
  cases h1 : MatchString (p.ByName "username") with
  | false => exact Or.inl ⟨_, fun action => handleUserAction_reject s w r p token action rev msg h1⟩
  | true =>
    cases h2 : GetUserTokenOnly s (p.ByName "username") with
    | error e =>
      refine Or.inl ⟨ReturnNotFoundError (w.setContentType "application/json"), fun action => ?_⟩
      unfold handleUserAction
      simp only [CheckUsernameRegex_accept _ _ h1, Bool.not_true, Bool.false_eq_true, if_false,
        h2]
    | ok B =>
      by_cases h3 : token = B
      · subst h3
        exact Or.inl ⟨_, fun action => handleUserAction_self s w r p token action rev msg h1 h2⟩
      · have h4 : ∃ ban, CheckBan s B token = .ok ban := ⟨_, rfl⟩
        obtain ⟨ban, h4⟩ := h4
        cases ban with
        | true =>
          exact Or.inl ⟨_, fun action =>
            handleUserAction_banned s w r p token B action rev msg h1 h2 h4⟩
        | false =>
          have h5 : ∃ c, CheckFollow s token B = .ok c := ⟨_, rfl⟩
          obtain ⟨c, h5⟩ := h5
          by_cases h6 : c = rev
          · refine Or.inl ⟨if rev = true
                then ReturnForbiddenMessage (w.setContentType "application/json")
                else ReturnConflictMessage (w.setContentType "application/json"),
              fun action => ?_⟩
            rw [handleUserAction_resolved s w r p token B action rev msg c h1 h2 h3 h4 h5]
            simp only [h6, if_true]
            cases rev <;> rfl
          · refine Or.inr ⟨B, fun action => ?_⟩
            rw [handleUserAction_resolved s w r p token B action rev msg c h1 h2 h3 h4 h5]
            simp only [h6, if_false]

theorem not_rejected_of_success (st : Option Nat)
    (h : st = some StatusInternalServerError ∨ st = some StatusCreated ∨
      st = some StatusNoContent) : ¬ PreconditionRejected st := by
  intro hr
  rcases h with h | h | h <;> rcases hr with hr | hr | hr | hr <;>
    (rw [h] at hr; exact absurd hr (by decide))

/-- A rejection by `handleUserAction` does not depend on the action, and the database is
the one before. -/
theorem handleUserAction_rejected (s : Store) (w : ResponseWriter) (r : Request) (p : Params)
    (token : Int) (rev : Bool) (msg : String) (hw : w.status = none)
    (action : Store → Int → Int → Except GoError Store)
    (hrej : PreconditionRejected (handleUserAction s w r p token action rev msg).1.status) :
    (handleUserAction s w r p token action rev msg).2 = s ∧
    ∀ action2 : Store → Int → Int → Except GoError Store,
      handleUserAction s w r p token action2 rev msg
        = handleUserAction s w r p token action rev msg := by
  rcases handleUserAction_cases s w r p token rev msg with ⟨out, h⟩ | ⟨B, h⟩
  · exact ⟨by rw [h action], fun action2 => by rw [h action, h action2]⟩
  · exfalso
    rw [h action] at hrej
    revert hrej
    apply not_rejected_of_success
    cases action s token B with
    | error e => exact Or.inl (status_ReturnInternalServerError w e hw)
    | ok s1 =>
      cases rev
      · exact Or.inr (Or.inl (status_ReturnCreatedMessage w hw))
      · exact Or.inr (Or.inr (status_NoContent w hw))

theorem likePhoto_store (s : Store) (w : ResponseWriter) (r : Request) (p : Params)
    (token : Int) (hw : w.status = none) :
    (likePhoto s w r p token).2 = s ∨
      (likePhoto s w r p token).1.status = some StatusCreated := by
  unfold likePhoto
  simp only []
  repeat' split
  all_goals first
    | exact Or.inl rfl
    | exact Or.inr (status_ReturnCreatedMessage w hw)

theorem unlikePhoto_store (s : Store) (w : ResponseWriter) (r : Request) (p : Params)
    (token : Int) (hw : w.status = none) :
    (unlikePhoto s w r p token).2 = s ∨
      (unlikePhoto s w r p token).1.status = some StatusNoContent := by
  unfold unlikePhoto
  simp only []
  repeat' split
  all_goals first
    | exact Or.inl rfl
    | exact Or.inr (status_NoContent w hw)

theorem deletePhoto_store (s : Store) (w : ResponseWriter) (r : Request) (p : Params)
    (token : Int) (hw : w.status = none) :
    (deletePhoto s w r p token).2 = s ∨
      (deletePhoto s w r p token).1.status = some StatusNoContent := by
  unfold deletePhoto
  simp only []
  repeat' split
  all_goals first
    | exact Or.inl rfl
    | exact Or.inr (status_NoContent w hw)

theorem deleteComment_store (s : Store) (w : ResponseWriter) (r : Request) (p : Params)
    (token : Int) (hw : w.status = none) :
    (deleteComment s w r p token).2 = s ∨
      (deleteComment s w r p token).1.status = some StatusNoContent := by
  unfold deleteComment
  simp only []
  repeat' split
  all_goals first
    | exact Or.inl rfl
    | exact Or.inr (status_NoContent w hw)

/-- C20. No partial mutation: for follow, unfollow, ban, unban, like, unlike, delete-photo
and delete-comment, whenever the request is answered 400, 404, 403 or 409 the database after
the request is the database before it; for the four handlers built on handleUserAction the
outcome is then the same whatever mutation primitive is passed in, so none was invoked. -/
theorem no_partial_mutation (targetArg : Int → String) (s : Store) (w : ResponseWriter)
    (r : Request) (p : Params) (token : Int) (hw : w.status = none) :
    (∀ a : SocialAction,
      PreconditionRejected (a.handler targetArg s w r p token).1.status →
        (a.handler targetArg s w r p token).2 = s) ∧
    (∀ (action : Store → Int → Int → Except GoError Store) (rev : Bool) (msg : String),
      PreconditionRejected (handleUserAction s w r p token action rev msg).1.status →
        (handleUserAction s w r p token action rev msg).2 = s ∧
        ∀ action2 : Store → Int → Int → Except GoError Store,
          handleUserAction s w r p token action2 rev msg
            = handleUserAction s w r p token action rev msg) ∧
    (PreconditionRejected (likePhoto s w r p token).1.status →
      (likePhoto s w r p token).2 = s) ∧
    (PreconditionRejected (unlikePhoto s w r p token).1.status →
      (unlikePhoto s w r p token).2 = s) ∧
    (PreconditionRejected (deletePhoto s w r p token).1.status →
      (deletePhoto s w r p token).2 = s) ∧
    (PreconditionRejected (deleteComment s w r p token).1.status →
      (deleteComment s w r p token).2 = s) := by
  have key : ∀ (out : ResponseWriter × Store) (code : Nat),
      (out.2 = s ∨ out.1.status = some code) →
      (code = StatusCreated ∨ code = StatusNoContent) →
      PreconditionRejected out.1.status → out.2 = s := by
    intro out code h hc hrej
    rcases h with h | h
    · exact h
    · exfalso
      refine not_rejected_of_success _ ?_ hrej
      rcases hc with rfl | rfl
      · exact Or.inr (Or.inl h)
      · exact Or.inr (Or.inr h)
  refine ⟨?_, fun action rev msg hrej =>
      handleUserAction_rejected s w r p token rev msg hw action hrej,
    key _ _ (likePhoto_store s w r p token hw) (Or.inl rfl),
    key _ _ (unlikePhoto_store s w r p token hw) (Or.inr rfl),
    key _ _ (deletePhoto_store s w r p token hw) (Or.inr rfl),
    key _ _ (deleteComment_store s w r p token hw) (Or.inr rfl)⟩
  intro a hrej
  cases a
  · exact (handleUserAction_rejected s w r p token false "Already following" hw
      (fun st a b => AddFollow st a (targetArg b)) hrej).1
  · exact (handleUserAction_rejected s w r p token true "Not following" hw
      (fun st a b => RemoveFollow st a (targetArg b)) hrej).1
  · exact (handleUserAction_rejected s w r p token false "Already banned" hw
      (fun st a b => AddBan st a (targetArg b)) hrej).1
  · exact (handleUserAction_rejected s w r p token true "Not banned" hw
      (fun st a b => RemoveBan st a (targetArg b)) hrej).1

/-- C20 at concrete requests: the follow of user 1 on `bob_1` is answered 409 and the like of
user 1 on the missing photo 999 is answered 404, both with the database unchanged. -/
theorem no_partial_mutation_witness :
    (PreconditionRejected (SocialAction.follow.handler toBob bobPosted ResponseWriter.fresh
        (exampleRequest "Bearer 1" "") (socialParams "1" "bob_1") 1).1.status ∧
      (SocialAction.follow.handler toBob bobPosted ResponseWriter.fresh
        (exampleRequest "Bearer 1" "") (socialParams "1" "bob_1") 1).2 = bobPosted) ∧
    (PreconditionRejected (likePhoto bobPosted ResponseWriter.fresh
        (exampleRequest "Bearer 1" "") (likeParams "2" "999" "1") 1).1.status ∧
      (likePhoto bobPosted ResponseWriter.fresh (exampleRequest "Bearer 1" "")
        (likeParams "2" "999" "1") 1).2 = bobPosted) :=
  have h1 : PreconditionRejected (SocialAction.follow.handler toBob bobPosted
      ResponseWriter.fresh (exampleRequest "Bearer 1" "") (socialParams "1" "bob_1")
      1).1.status := Or.inr (Or.inr (Or.inr (by decide)))
  have h2 : PreconditionRejected (likePhoto bobPosted ResponseWriter.fresh
      (exampleRequest "Bearer 1" "") (likeParams "2" "999" "1") 1).1.status :=
    Or.inr (Or.inl (by decide))
  ⟨⟨h1, (no_partial_mutation toBob bobPosted ResponseWriter.fresh
      (exampleRequest "Bearer 1" "") (socialParams "1" "bob_1") 1 rfl).1 .follow h1⟩,
   ⟨h2, (no_partial_mutation toBob bobPosted ResponseWriter.fresh
      (exampleRequest "Bearer 1" "") (likeParams "2" "999" "1") 1 rfl).2.2.1 h2⟩⟩

/-! ## C21: the parameter array of the Access Guard -/

theorem copyKeys_isSome (ps : Params) (i : Nat) (a : List String) (hi : i ≤ 3) :
    (copyKeys ps i a).isSome = true ↔ (ps = [] ∨ i + ps.length ≤ 3) := by
  induction ps generalizing i a with
  | nil => simp [copyKeys]
  | cons p rest ih =>
    unfold copyKeys setPathParameter
    by_cases h : i < 3
    · rw [if_pos h]
      simp only []
      rw [ih (i + 1) _ (by omega)]
      simp only [List.length_cons, reduceCtorEq, false_or]
      constructor
      · rintro (rfl | h2)
        · simp only [List.length_nil]; omega
        · omega
      · intro h2; right; omega
    · rw [if_neg h]
      simp only [List.length_cons, reduceCtorEq, false_or, Option.isSome_none]
      constructor
      · intro h2; cases h2
      · intro h2; omega

theorem copyKeys_length (ps : Params) (i : Nat) (a b : List String)
    (h : copyKeys ps i a = some b) : b.length = a.length := by
  induction ps generalizing i a with
  | nil => simp only [copyKeys, Option.some.injEq] at h; rw [← h]
  | cons p rest ih =>
    unfold copyKeys setPathParameter at h
    by_cases hi : i < 3
    · rw [if_pos hi] at h
      simp only [] at h
      rw [ih _ _ h, List.length_set]
    · rw [if_neg hi] at h
      cases h

/-- The loop succeeds exactly on at most three parameters. -/
theorem pathParameters_isSome (ps : Params) :
    (pathParameters ps).isSome = true ↔ ps.length ≤ 3 := by
  unfold pathParameters
  rw [copyKeys_isSome ps 0 _ (by omega)]
  constructor
  · rintro (rfl | h)
    · simp
    · omega
  · intro h; right; omega

theorem pathParameters_none (ps : Params) : pathParameters ps = none ↔ 3 < ps.length := by
  have h := pathParameters_isSome ps
  cases hp : pathParameters ps with
  | none =>
    rw [hp] at h
    simp only [Option.isSome_none, Bool.false_eq_true, false_iff, not_le] at h
    simp [h]
  | some a =>
    rw [hp] at h
    simp only [Option.isSome_some, true_iff] at h
    simp only [reduceCtorEq, false_iff, not_lt]
    exact h

/-- After the loop, slot `i` of the array holds the name of parameter `i`, and `""` where the
route has no such parameter: the array read by `authWrapper`. -/
theorem pathParameters_slots (ps : Params) (a : List String) (h : pathParameters ps = some a) :
    a.length = 3 ∧ ∀ i, a.getD i "" = ((ps.get? i).map (fun p => p.Key)).getD "" := by
  refine ⟨by rw [copyKeys_length ps 0 _ a h]; rfl, ?_⟩
  have hl : ps.length ≤ 3 := (pathParameters_isSome ps).1 (by rw [h]; rfl)
  match ps, h, hl with
  | [], h, _ =>
    cases h
    intro i
    rcases i with _ | _ | _ | i <;> rfl
  | [p1], h, _ =>
    cases h
    intro i
    rcases i with _ | _ | _ | i <;> rfl
  | [p1, p2], h, _ =>
    cases h
    intro i
    rcases i with _ | _ | _ | i <;> rfl
  | [p1, p2, p3], h, _ =>
    cases h
    intro i
    rcases i with _ | _ | _ | i <;> rfl
  | _ :: _ :: _ :: _ :: _, _, hl =>
    simp only [List.length_cons] at hl
    omega

/-- The wrapper panics exactly when the credential is accepted and the loop over the
parameters leaves the array. -/
theorem authWrapper_none (fn : Handler) (s : Store) (w : ResponseWriter) (r : Request)
    (ps : Params) :
    authWrapper fn s w r ps = none ↔
      (((ExtractToken r.Authorization).2.isSome || (ExtractToken r.Authorization).1 == -1)
          = false ∧
        CheckToken s (ExtractToken r.Authorization).1 = true ∧ pathParameters ps = none) := by
  rw [pathParameters_none]
  unfold authWrapper
  simp only []
  split_ifs with h1 h2 h3 h4 <;> simp_all
  intro a b
  rcases h1 with h | h
  · rw [a] at h; cases h
  · exact absurd h b

theorem authWrapper_isSome (fn : Handler) (s : Store) (w : ResponseWriter) (r : Request)
    (ps : Params) (hl : ps.length ≤ 3) : (authWrapper fn s w r ps).isSome = true := by
  cases h : authWrapper fn s w r ps with
  | some out => rfl
  | none =>
    have := ((authWrapper_none fn s w r ps).1 h).2.2
    rw [pathParameters_none] at this
    omega

/-- A request with four parameters and an accepted credential makes the wrapper panic, whatever
the handler: the bound on the routes is what keeps the loop inside the array. -/
theorem authWrapper_four_parameters (fn : Handler) :
    authWrapper fn twoUsers ResponseWriter.fresh (exampleRequest "Bearer 1" "") fourParams
      = none := by
  rw [authWrapper_none]
  decide

theorem matchSegments_keys (segs xs : List String) (ps : Params)
    (h : matchSegments segs xs = some ps) :
    ps.map (fun p => p.Key) = (segs.filter isParamSegment).map paramName := by
  induction segs generalizing xs ps with
  | nil =>
    cases xs with
    | nil => simp only [matchSegments, Option.some.injEq] at h; subst h; rfl
    | cons x xs => simp [matchSegments] at h
  | cons seg segs ih =>
    cases xs with
    | nil => simp [matchSegments] at h
    | cons x xs =>
      unfold matchSegments at h
      by_cases hp : isParamSegment seg = true
      · rw [if_pos hp] at h
        cases hm : matchSegments segs xs with
        | none => rw [hm] at h; cases h
        | some rest =>
          rw [hm] at h
          simp only [Option.some.injEq] at h
          subst h
          simp only [List.map_cons, List.filter_cons, hp, if_true, ih xs rest hm]
      · rw [if_neg hp] at h
        by_cases hx : seg = x
        · rw [if_pos hx] at h
          simp only [List.filter_cons, hp, Bool.false_eq_true, if_false, ih xs ps h]
        · rw [if_neg hx] at h
          cases h

/-- The parameters of a matched request are those the pattern declares, in order. -/
theorem matchRoute_keys (pattern path : String) (ps : Params)
    (h : matchRoute pattern path = some ps) :
    ps.map (fun p => p.Key) = paramNames pattern :=
  matchSegments_keys _ _ ps h

/-- No pattern registered through `authWrapper` declares more than three parameters. -/
theorem Handler_paramNames (route : Route) (hr : route ∈ Router.Handler)
    (hw : route.wrapper = Wrapper.authWrapper) : (paramNames route.path).length ≤ 3 := by
  have h : ∀ x ∈ Router.Handler, x.wrapper = Wrapper.authWrapper →
      (paramNames x.path).length ≤ 3 := by decide
  exact h route hr hw

/-- C21: for every route that `Handler` registers through `authWrapper` and every request path
that matches its pattern, the pattern declares at most three parameters and the request
carries exactly those, so every index `i` the copy loop visits satisfies `i < 3`; the loop
ends with the three-slot array filled with the parameter names, without leaving the array;
and the wrapper returns a result, whatever the handler, the database, the response writer and
the request. -/
theorem authWrapper_index_in_bounds (route : Route) (hr : route ∈ Router.Handler)
    (hw : route.wrapper = Wrapper.authWrapper) (path : String) (ps : Params)
    (hm : matchRoute route.path path = some ps) :
    (paramNames route.path).length ≤ 3 ∧
    ps.map (fun p => p.Key) = paramNames route.path ∧
    (∀ i, i < ps.length → i < 3) ∧
    (∃ a, pathParameters ps = some a ∧ a.length = 3 ∧
      ∀ i, a.getD i "" = ((ps.get? i).map (fun p => p.Key)).getD "") ∧
    ∀ (fn : Handler) (s : Store) (w : ResponseWriter) (r : Request),
      (authWrapper fn s w r ps).isSome = true := by
  have hn := Handler_paramNames route hr hw
  have hk := matchRoute_keys route.path path ps hm
  have hl : ps.length ≤ 3 := by
    have := congrArg List.length hk
    rw [List.length_map] at this
    omega
  refine ⟨hn, hk, fun i hi => by omega, ?_, fun fn s w r => authWrapper_isSome fn s w r ps hl⟩
  cases hp : pathParameters ps with
  | none =>
    have := (pathParameters_none ps).1 hp
    omega
  | some a => exact ⟨a, rfl, pathParameters_slots ps a hp⟩

/-- C21 at the like route, the one with the most parameters: the request path
`/user/1/photos/100/likes/1` binds three parameters, which fill the array exactly. -/
theorem authWrapper_index_in_bounds_witness :
    (likeRoute ∈ Router.Handler ∧ likeRoute.wrapper = Wrapper.authWrapper ∧
      matchRoute likeRoute.path "/user/1/photos/100/likes/1"
        = some (likeParams "1" "100" "1")) ∧
    ((paramNames likeRoute.path).length ≤ 3 ∧
      (likeParams "1" "100" "1").map (fun p => p.Key) = paramNames likeRoute.path ∧
      (∀ i, i < (likeParams "1" "100" "1").length → i < 3) ∧
      (∃ a, pathParameters (likeParams "1" "100" "1") = some a ∧ a.length = 3 ∧
        ∀ i, a.getD i "" = (((likeParams "1" "100" "1").get? i).map (fun p => p.Key)).getD "") ∧
      ∀ (fn : Handler) (s : Store) (w : ResponseWriter) (r : Request),
        (authWrapper fn s w r (likeParams "1" "100" "1")).isSome = true) :=
  ⟨⟨by decide, by decide, by decide⟩,
   authWrapper_index_in_bounds likeRoute (by decide) (by decide) "/user/1/photos/100/likes/1"
     (likeParams "1" "100" "1") (by decide)⟩

end WASAPhoto
